import Mathlib

/-!
# Verification of the auto-rs continuation/bifurcation core

A shallow embedding of `crates/auto-rs/src/lib.rs` (natural and
pseudo-arclength continuation, Newton solver, Gaussian elimination,
QR eigenvalue iteration, bifurcation detection), together with proofs
of the specified properties.

The Rust code computes with `f64`; the embedding is generic over a linear
ordered field `K` (exact-arithmetic reading). The square-root primitive
`f64::sqrt` is modelled as an explicit function parameter `sqrt : K → K`;
theorems about control flow hold for every `sqrt`, and the analytic
tangent-normalization facts are proved at `K := ℝ`, `sqrt := Real.sqrt`.
Vectors (`ndarray::Array1`) are `Fin n → K`, matrices (`Array2`) are
`Fin n → Fin m → K`; the runtime dimension checks of the source are
carried by the types. Loops with a fixed iteration budget are embedded
with structural fuel recursion, the fuel being the budget.
-/

namespace AutoRS

/-- `ndarray::Array1<f64>` -/
abbrev Vec (K : Type) (n : ℕ) := Fin n → K

/-- `ndarray::Array2<f64>` with shape `(n, m)` -/
abbrev Mat (K : Type) (n m : ℕ) := Fin n → Fin m → K

variable {K : Type} [LinearOrderedField K] {n : ℕ}

/-- the literal `1e-15` of the source (pivot threshold) -/
def eps15 : K := 1 / 1000000000000000

/-- the literal `1e-10` of the source (QR convergence threshold) -/
def eps10 : K := 1 / 10000000000

/-- the literal `1e-8` of the source (finite-difference step) -/
def eps8 : K := 1 / 100000000

/-- the literal `1e-6` of the source (imaginary-part threshold) -/
def eps6 : K := 1 / 1000000

/-- `enum AutoError` (payloads that are `f64` in Rust are `K` here). -/
inductive AutoError (K : Type) where
  | ConvergenceFailed (iters : ℕ)
  | SingularJacobian (par : K)
  | StepTooSmall (ds : K)
  | MaxStepsReached (steps : ℕ)
  | InvalidParameter (msg : String)
  | LinearAlgebraError (msg : String)
deriving DecidableEq

instance {ε α : Type} [DecidableEq ε] [DecidableEq α] : DecidableEq (Except ε α) := fun x y =>
  match x, y with
  | .ok a, .ok b =>
      if h : a = b then .isTrue (by rw [h]) else .isFalse (by intro hc; cases hc; exact h rfl)
  | .ok _, .error _ => .isFalse (by intro hc; cases hc)
  | .error _, .ok _ => .isFalse (by intro hc; cases hc)
  | .error a, .error b =>
      if h : a = b then .isTrue (by rw [h]) else .isFalse (by intro hc; cases hc; exact h rfl)

/-- `struct ContinuationParams` -/
structure ContinuationParams (K : Type) where
  parameter : String
  par_start : K
  par_end : K
  ds : K
  ds_min : K
  ds_max : K
  max_steps : ℕ
  newton_tol : K
  newton_max_iter : ℕ
  ntst : ℕ
  ncol : ℕ
  adapt_threshold : K
  output_every : ℕ
  detect_bifurcations : Bool
  branch_switch_tol : K

/-- `impl Default for ContinuationParams` -/
def ContinuationParams.default : ContinuationParams K where
  parameter := "lambda"
  par_start := 0
  par_end := 1
  ds := 1 / 100
  ds_min := 1 / 1000000
  ds_max := 1 / 10
  max_steps := 1000
  newton_tol := 1 / 100000000
  newton_max_iter := 20
  ntst := 20
  ncol := 4
  adapt_threshold := 1 / 2
  output_every := 1
  detect_bifurcations := true
  branch_switch_tol := 1 / 10000

/-- `enum BifurcationType` -/
inductive BifurcationType where
  | Regular
  | SaddleNode
  | Transcritical
  | Pitchfork
  | Hopf
  | PeriodDoubling
  | Torus
  | BranchPoint
  | LimitPointCycle
  | UserZero
deriving DecidableEq

/-- `struct BifurcationPoint` -/
structure BifurcationPoint (K : Type) (n : ℕ) where
  bif_type : BifurcationType
  parameter : K
  state : Vec K n
  critical_eigenvalues : List (K × K)
  tangent : Option (Vec K (n + 1))
  period : Option K

/-- `struct SolutionPoint` -/
structure SolutionPoint (K : Type) (n : ℕ) where
  parameter : K
  state : Vec K n
  stable : Bool
  eigenvalues : List (K × K)
  period : Option K
  floquet_multipliers : Option (List (K × K))
  bifurcation : Option BifurcationType
  arclength : K
  residual_norm : K

/-- `struct ComputationStats` -/
structure ComputationStats (K : Type) where
  total_steps : ℕ
  newton_iterations : ℕ
  jacobian_evaluations : ℕ
  step_size_reductions : ℕ
  bifurcations_detected : ℕ
  branch_switches : ℕ
  cpu_time_seconds : K

/-- `ComputationStats::default()` -/
def ComputationStats.default : ComputationStats K :=
  ⟨0, 0, 0, 0, 0, 0, 0⟩

/-- `struct ContinuationBranch` -/
structure ContinuationBranch (K : Type) (n : ℕ) where
  name : String
  points : List (SolutionPoint K n)
  bifurcations : List (BifurcationPoint K n)
  is_periodic : Bool
  stats : ComputationStats K

/-- `ContinuationBranch::new` -/
def ContinuationBranch.new (K : Type) [LinearOrderedField K] (n : ℕ) (name : String) :
    ContinuationBranch K n where
  name := name
  points := []
  bifurcations := []
  is_periodic := false
  stats := ComputationStats.default

/-- `trait OdeSystem`. The dimension is the type index `n`; `jacobian` and
`par_derivative` are the optional capabilities (the trait's default bodies
return `None`). The runtime contract that `rhs` returns a state-sized vector
and `jacobian` an `n×n` matrix is carried by the types. -/
structure OdeSystem (K : Type) (n : ℕ) where
  rhs : Vec K n → K → Vec K n
  jacobian : Vec K n → K → Option (Mat K n n) := fun _ _ => none
  par_derivative : Vec K n → K → Option (Vec K n) := fun _ _ => none

/- ====================================================================
   Linear solver: `solve_linear_system` (Gaussian elimination with
   partial pivoting on the augmented matrix `[A|b]`)
   ==================================================================== -/

/-- The augmented matrix `[A|b]` the solver builds. -/
def buildAug (a : Mat K n n) (b : Vec K n) : Mat K n (n + 1) :=
  fun i j => if h : (j : ℕ) < n then a i ⟨j, h⟩ else b i

/-- Partial pivot search for column `k`: the row index of the entry of
maximal absolute value in column `k` among rows `k..n-1`, together with that
value (`max_row`/`max_val` of the source; ties keep the first row, as the
source updates only on strict `>`). -/
def pivotSelect (aug : Mat K n (n + 1)) (k : Fin n) : Fin n × K :=
  (List.finRange n).foldl
    (fun acc i =>
      if k < i ∧ acc.2 < |aug i (Fin.castSucc k)| then (i, |aug i (Fin.castSucc k)|) else acc)
    (k, |aug k (Fin.castSucc k)|)

/-- The selected pivot magnitude at stage `k`. -/
def pivotMag (aug : Mat K n (n + 1)) (k : Fin n) : K :=
  (pivotSelect aug k).2

/-- One stage of forward elimination: pivot selection, the `1e-15` singularity
check, the row swap, and elimination of column `k` below the diagonal
(columns `k..=n`). -/
def elimStep (aug : Mat K n (n + 1)) (k : Fin n) :
    Except (AutoError K) (Mat K n (n + 1)) :=
  let max_row := (pivotSelect aug k).1
  let max_val := (pivotSelect aug k).2
  if max_val < eps15 then .error (.SingularJacobian 0)
  else
    let aug1 : Mat K n (n + 1) :=
      if max_row = k then aug
      else fun i j =>
        if i = k then aug max_row j else if i = max_row then aug k j else aug i j
    .ok (fun i j =>
      if k < i ∧ (k : ℕ) ≤ (j : ℕ) then
        aug1 i j - aug1 i (Fin.castSucc k) / aug1 k (Fin.castSucc k) * aug1 k j
      else aug1 i j)

/-- The forward-elimination loop `for k in 0..n`, over an explicit list of
stages (the solver runs it on `List.finRange n`). -/
def forwardElim (aug : Mat K n (n + 1)) : List (Fin n) → Except (AutoError K) (Mat K n (n + 1))
  | [] => .ok aug
  | k :: ks =>
    match elimStep aug k with
    | .error e => .error e
    | .ok aug1 => forwardElim aug1 ks

/-- Back substitution `for i in (0..n).rev()`, writing into an array that
starts as zeros (`Array1::zeros`). -/
def backSubstitute (aug : Mat K n (n + 1)) : Vec K n :=
  (List.finRange n).reverse.foldl
    (fun x i =>
      Function.update x i
        ((aug i (Fin.last n) -
            ∑ j ∈ Finset.univ.filter (fun j => i < j), aug i (Fin.castSucc j) * x j) /
          aug i (Fin.castSucc i)))
    (fun _ => 0)

/-- `solve_linear_system`. The source's runtime shape check
(`LinearAlgebraError` on mismatch) is made impossible by the types. -/
def solve_linear_system (a : Mat K n n) (b : Vec K n) : Except (AutoError K) (Vec K n) :=
  match forwardElim (buildAug a b) (List.finRange n) with
  | .error e => .error e
  | .ok aug1 => .ok (backSubstitute aug1)

/- ====================================================================
   Newton solver: `newton_solve`
   ==================================================================== -/

/-- The loop body of `newton_solve` as structural fuel recursion: `fuel` is
the number of remaining iterations (`max_iter - iter`), `iter` the current
iteration index of the source's `for iter in 0..max_iter`. -/
def newtonGo (sqrt : K → K) (f : Vec K n → Vec K n) (fjac : Vec K n → Mat K n n)
    (tol : K) (max_iter : ℕ) :
    ℕ → ℕ → Vec K n → Except (AutoError K) (Vec K n × ℕ)
  | 0, _, _ => .error (.ConvergenceFailed max_iter)
  | fuel + 1, iter, x =>
    let fx := f x
    let norm := sqrt (∑ i, fx i * fx i)
    if norm < tol then .ok (x, iter + 1)
    else
      match solve_linear_system (fjac x) fx with
      | .error e => .error e
      | .ok dx => newtonGo sqrt f fjac tol max_iter fuel (iter + 1) (fun i => x i - dx i)

/-- `newton_solve` -/
def newton_solve (sqrt : K → K) (f : Vec K n → Vec K n) (fjac : Vec K n → Mat K n n)
    (x : Vec K n) (tol : K) (max_iter : ℕ) : Except (AutoError K) (Vec K n × ℕ) :=
  newtonGo sqrt f fjac tol max_iter max_iter 0 x

/-- One Newton update `x ← x - Δx` with `Δx` solved from
`Jacobian·Δx = residual` (the body of a non-converged iteration). -/
def newtonStep (f : Vec K n → Vec K n) (fjac : Vec K n → Mat K n n) (x : Vec K n) :
    Except (AutoError K) (Vec K n) :=
  match solve_linear_system (fjac x) (f x) with
  | .error e => .error e
  | .ok dx => .ok (fun i => x i - dx i)

/-- The sequence of Newton iterates from `x0` (specification-side view of the
update recurrence, used to state the `newton_solve` contract). -/
def newtonIterates (f : Vec K n → Vec K n) (fjac : Vec K n → Mat K n n) (x0 : Vec K n) :
    ℕ → Except (AutoError K) (Vec K n)
  | 0 => .ok x0
  | k + 1 =>
    match newtonIterates f fjac x0 k with
    | .error e => .error e
    | .ok x => newtonStep f fjac x

/- ====================================================================
   Eigenvalues: `compute_eigenvalues`, `eigenvalues_2x2`,
   `qr_eigenvalues`, `qr_decomposition`
   ==================================================================== -/

/-- `eigenvalues_2x2` -/
def eigenvalues_2x2 (sqrt : K → K) (a : Mat K 2 2) : List (K × K) :=
  let trace := a 0 0 + a 1 1
  let det := a 0 0 * a 1 1 - a 0 1 * a 1 0
  let discriminant := trace * trace - 4 * det
  if 0 ≤ discriminant then
    let sqrt_d := sqrt discriminant
    [((trace + sqrt_d) / 2, 0), ((trace - sqrt_d) / 2, 0)]
  else
    let real := trace / 2
    let imag := sqrt (-discriminant) / 2
    [(real, imag), (real, -imag)]

/-- An entry update on a matrix (an `m[[i,j]] = v` assignment). -/
def mupd {n' m' : ℕ} (m : Mat K n' m') (i : Fin n') (j : Fin m') (v : K) : Mat K n' m' :=
  fun a b => if a = i ∧ b = j then v else m a b

/-- `qr_decomposition` (modified Gram-Schmidt, columns left to right; a
column whose remainder has norm `≤ 1e-15` in absolute value leaves the
corresponding `Q` column zero). -/
def qr_decomposition (sqrt : K → K) (a : Mat K n n) : Mat K n n × Mat K n n :=
  (List.finRange n).foldl
    (fun qr j =>
      let q := qr.1
      let vr :=
        ((List.finRange n).filter (fun i => i < j)).foldl
          (fun (vr : Vec K n × Mat K n n) i =>
            let rij := ∑ k, q k i * vr.1 k
            (fun k => vr.1 k - rij * q k i, mupd vr.2 i j rij))
          (fun k => a k j, qr.2)
      let v := vr.1
      let rjj := sqrt (∑ k, v k * v k)
      let r2 := mupd vr.2 j j rjj
      let q2 : Mat K n n :=
        if eps15 < |rjj| then fun k b => if b = j then v k / rjj else q k b else q
      (q2, r2))
    (fun _ _ => 0, fun _ _ => 0)

/-- One shifted QR step of `qr_eigenvalues`: subtract the trailing diagonal
entry from the diagonal, QR-decompose, reassemble `H = R*Q`, add the shift
back. -/
def qrStep (sqrt : K → K) (h : Mat K (n + 1) (n + 1)) : Mat K (n + 1) (n + 1) :=
  let shift := h (Fin.last n) (Fin.last n)
  let h1 : Mat K (n + 1) (n + 1) := fun i j => if i = j then h i j - shift else h i j
  let q := (qr_decomposition sqrt h1).1
  let r := (qr_decomposition sqrt h1).2
  let h2 : Mat K (n + 1) (n + 1) := fun i j => ∑ k, r i k * q k j
  fun i j => if i = j then h2 i j + shift else h2 i j

/-- The source's convergence test: every sub-diagonal magnitude `≤ 1e-10`. -/
def qrConverged (h : Mat K (n + 1) (n + 1)) : Bool :=
  decide (∀ i : Fin n, ¬ eps10 < |h i.succ i.castSucc|)

/-- The QR iteration loop: up to `fuel` steps, stopping early once the
convergence test passes (the source also stops, without failing, when the
iteration budget `100*n` runs out). -/
def qrIterate (sqrt : K → K) : ℕ → Mat K (n + 1) (n + 1) → Mat K (n + 1) (n + 1)
  | 0, h => h
  | fuel + 1, h =>
    let h1 := qrStep sqrt h
    if qrConverged h1 then h1 else qrIterate sqrt fuel h1

/-- Extraction of eigenvalues from the quasi-upper-triangular result: scan
the diagonal from `i = 0`; a last row or a sub-diagonal entry below `1e-10`
yields a real eigenvalue (advance 1), otherwise the enclosing 2×2 block is
resolved in closed form (advance 2). `d` is the dimension, `fuel ≥ d`
bounds the scan. -/
def extractEigs (sqrt : K → K) (d : ℕ) (h : Mat K d d) : ℕ → ℕ → List (K × K)
  | 0, _ => []
  | fuel + 1, i =>
    if hi : i < d then
      if hlast : i = d - 1 then
        (h ⟨i, hi⟩ ⟨i, hi⟩, 0) :: extractEigs sqrt d h fuel (i + 1)
      else
        if |h ⟨i + 1, by omega⟩ ⟨i, hi⟩| < eps10 then
          (h ⟨i, hi⟩ ⟨i, hi⟩, 0) :: extractEigs sqrt d h fuel (i + 1)
        else
          eigenvalues_2x2 sqrt
            (fun p q =>
              h ⟨i + p.val, by have := p.isLt; omega⟩ ⟨i + q.val, by have := q.isLt; omega⟩) ++
          extractEigs sqrt d h fuel (i + 2)
    else []

/-- `qr_eigenvalues` (the source calls it only for dimension `> 2`, so the
dimension is written `n + 1` to give the trailing diagonal entry a home). -/
def qr_eigenvalues (sqrt : K → K) (a : Mat K (n + 1) (n + 1)) : List (K × K) :=
  let h := qrIterate sqrt (100 * (n + 1)) a
  extractEigs sqrt (n + 1) h (n + 1) 0

/-- `compute_eigenvalues`: dispatch on the dimension exactly as the source
(`n == 0`, `n == 1`, `n == 2`, QR iteration otherwise). -/
def compute_eigenvalues (sqrt : K → K) : {m : ℕ} → Mat K m m → List (K × K)
  | 0, _ => []
  | 1, a => [(a 0 0, 0)]
  | 2, a => eigenvalues_2x2 sqrt a
  | _ + 3, a => qr_eigenvalues sqrt a

/- ====================================================================
   Bifurcation detection: `detect_bifurcation`, `find_critical_eigenvalues`
   ==================================================================== -/

/-- The source's `sort_by(|a, b| b.0.partial_cmp(&a.0))`: a stable sort by
descending real part (a stable sort with respect to a total preorder is
unique, so `List.mergeSort` embeds Rust's stable `sort_by`). -/
def sortByRealDesc (eigs : List (K × K)) : List (K × K) :=
  eigs.mergeSort (fun a b => decide (b.1 ≤ a.1))

/-- The pair loop of `detect_bifurcation` over the rank-paired sorted lists. -/
def detectGo : List ((K × K) × (K × K)) → Option BifurcationType
  | [] => none
  | (p, c) :: rest =>
    if p.1 * c.1 < 0 ∧ |p.2| < eps6 ∧ |c.2| < eps6 then some .SaddleNode
    else if p.1 * c.1 < 0 ∧ eps6 < |p.2| then some .Hopf
    else detectGo rest

/-- `detect_bifurcation` -/
def detect_bifurcation (prev_eigs curr_eigs : List (K × K)) : Option BifurcationType :=
  if prev_eigs.length ≠ curr_eigs.length then none
  else detectGo ((sortByRealDesc prev_eigs).zip (sortByRealDesc curr_eigs))

/-- `find_critical_eigenvalues` -/
def find_critical_eigenvalues (eigenvalues : List (K × K)) : List (K × K) :=
  eigenvalues.filter (fun e => decide (|e.1| < 1 / 10))

/- ====================================================================
   Continuation drivers
   ==================================================================== -/

/-- `numerical_jacobian` (forward differences with step `1e-8`). -/
def numerical_jacobian (sys : OdeSystem K n) (x : Vec K n) (par : K) : Mat K n n :=
  let f0 := sys.rhs x par
  fun i j => (sys.rhs (Function.update x j (x j + eps8)) par i - f0 i) / eps8

/-- The recurring pattern
`system.jacobian(x, par).unwrap_or_else(|| numerical_jacobian(system, x, par))`. -/
def systemJacobian (sys : OdeSystem K n) (x : Vec K n) (par : K) : Mat K n n :=
  (sys.jacobian x par).getD (numerical_jacobian sys x par)

/-- `eigenvalues.iter().all(|&(re, _)| re < 0.0)` -/
def stableOf (eigs : List (K × K)) : Bool :=
  eigs.all (fun e => decide (e.1 < 0))

/-- The `BifurcationPoint` pushed by the drivers when a bifurcation is
detected (`tangent` is `None` in natural continuation). -/
def mkBifPoint (bif_type : BifurcationType) (par : K) (state : Vec K n)
    (eigenvalues : List (K × K)) (tangent : Option (Vec K (n + 1))) : BifurcationPoint K n where
  bif_type := bif_type
  parameter := par
  state := state
  critical_eigenvalues := find_critical_eigenvalues eigenvalues
  tangent := tangent
  period := none

/-- The bifurcation test of the natural-continuation loop body
(`detect_bifurcations` enabled and not the first step; compares against the
last accepted point's eigenvalues). -/
def natBif (params : ContinuationParams K) (step : ℕ) (branch : ContinuationBranch K n)
    (eigenvalues : List (K × K)) : Option BifurcationType :=
  if params.detect_bifurcations ∧ 0 < step then
    match branch.points.getLast? with
    | some prev => detect_bifurcation prev.eigenvalues eigenvalues
    | none => none
  else none

/-- The `SolutionPoint` pushed by one successful natural-continuation step. -/
def natPoint (sqrt : K → K) (sys : OdeSystem K n) (params : ContinuationParams K)
    (step : ℕ) (branch : ContinuationBranch K n) (par arclength : K) (new_state : Vec K n) :
    SolutionPoint K n :=
  let eigenvalues := compute_eigenvalues sqrt (systemJacobian sys new_state par)
  let residual := sys.rhs new_state par
  { parameter := par, state := new_state, stable := stableOf eigenvalues,
    eigenvalues := eigenvalues, period := none, floquet_multipliers := none,
    bifurcation := natBif params step branch eigenvalues, arclength := arclength,
    residual_norm := sqrt (∑ i, residual i * residual i) }

/-- The straight-line bookkeeping of one successful natural-continuation
step: Newton/Jacobian counters, bifurcation record, point append. -/
def natUpdateBranch (sqrt : K → K) (sys : OdeSystem K n) (params : ContinuationParams K)
    (step : ℕ) (branch : ContinuationBranch K n) (par arclength : K) (new_state : Vec K n)
    (newton_iters : ℕ) : ContinuationBranch K n :=
  let stats1 :=
    { branch.stats with
      newton_iterations := branch.stats.newton_iterations + newton_iters
      jacobian_evaluations := branch.stats.jacobian_evaluations + newton_iters }
  let eigenvalues := compute_eigenvalues sqrt (systemJacobian sys new_state par)
  let bifurcation := natBif params step branch eigenvalues
  let bifs :=
    match bifurcation with
    | some bif_type =>
      branch.bifurcations ++ [mkBifPoint bif_type par new_state eigenvalues none]
    | none => branch.bifurcations
  let stats2 :=
    match bifurcation with
    | some _ => { stats1 with bifurcations_detected := stats1.bifurcations_detected + 1 }
    | none => stats1
  { branch with
    points := branch.points ++ [natPoint sqrt sys params step branch par arclength new_state]
    bifurcations := bifs
    stats := stats2 }

/-- The step loop of `natural_continuation` (`for step in 0..max_steps`),
as fuel recursion carrying the loop-mutable variables. -/
def naturalGo (sqrt : K → K) (sys : OdeSystem K n) (params : ContinuationParams K)
    (direction : K) :
    ℕ → ℕ → ContinuationBranch K n → Vec K n → K → K →
      Except (AutoError K) (ContinuationBranch K n)
  | 0, _, branch, _, _, _ => .ok branch
  | fuel + 1, step, branch, state, par, arclength =>
    match newton_solve sqrt (fun x => sys.rhs x par) (fun x => systemJacobian sys x par)
        state params.newton_tol params.newton_max_iter with
    | .error e => .error e
    | .ok (new_state, newton_iters) =>
      let branch1 := natUpdateBranch sqrt sys params step branch par arclength new_state
        newton_iters
      let par1 := par + direction * params.ds
      if (0 < direction ∧ params.par_end < par1) ∨ (direction < 0 ∧ par1 < params.par_end) then
        .ok branch1
      else
        naturalGo sqrt sys params direction fuel (step + 1)
          { branch1 with stats := { branch1.stats with total_steps := step + 1 } }
          new_state par1 (arclength + params.ds)

/-- `natural_continuation` -/
def natural_continuation (sqrt : K → K) (sys : OdeSystem K n) (initial_state : Vec K n)
    (params : ContinuationParams K) : Except (AutoError K) (ContinuationBranch K n) :=
  let direction : K := if params.par_start < params.par_end then 1 else -1
  naturalGo sqrt sys params direction params.max_steps 0
    (ContinuationBranch.new K n "natural") initial_state params.par_start 0

/-- The pre-normalized tangent of `compute_initial_tangent`, as a function
of the linear-solve result: state components `dx` on success (the parameter
component stays 1), the pure parameter direction `(0,…,0,1)` on failure. -/
def preTangentOf (res : Except (AutoError K) (Vec K n)) : Vec K (n + 1) :=
  let tangent0 : Vec K (n + 1) := fun j => if (j : ℕ) = n then 1 else 0
  match res with
  | .ok dx => fun j => if h : (j : ℕ) < n then dx ⟨j, h⟩ else tangent0 j
  | .error _ => tangent0

/-- The pre-normalized tangent: solve `Jac·dx = -df/dpar` (forward-difference
`df/dpar` with step `1e-8`) and assemble `(dx, 1)`. -/
def preTangent (sys : OdeSystem K n) (x : Vec K n) (par : K) : Vec K (n + 1) :=
  preTangentOf (solve_linear_system (systemJacobian sys x par)
    (fun i => -((sys.rhs x (par + eps8) i - sys.rhs x par i) / eps8)))

/-- Normalization to unit Euclidean length followed by the direction flip of
`compute_initial_tangent`. -/
def normalizeFlip (sqrt : K → K) (forward : Bool) (t1 : Vec K (n + 1)) : Vec K (n + 1) :=
  let norm := sqrt (∑ j, t1 j * t1 j)
  let tangent2 : Vec K (n + 1) := fun j => t1 j / norm
  if (forward = false ∧ 0 < tangent2 (Fin.last n)) ∨
      (forward = true ∧ tangent2 (Fin.last n) < 0) then
    fun j => -tangent2 j
  else tangent2

/-- `compute_initial_tangent`: fix the parameter component to 1, solve
`Jac·dx = -df/dpar` for the state components (kept at `(0,…,0,1)` if that
solve fails), normalize, and flip the sign to agree with the requested
direction. (The augmented matrix the source builds into `aug` is dead code
there and is omitted.) -/
def compute_initial_tangent (sqrt : K → K) (sys : OdeSystem K n) (x : Vec K n) (par : K)
    (forward : Bool) : Vec K (n + 1) :=
  normalizeFlip sqrt forward (preTangent sys x par)

/-- `compute_tangent`: the same nullspace computation, oriented by a
positive-dot-product test against the previous tangent. -/
def compute_tangent (sqrt : K → K) (sys : OdeSystem K n) (x : Vec K n) (par : K)
    (prev_tangent : Vec K (n + 1)) : Vec K (n + 1) :=
  let new_tangent := compute_initial_tangent sqrt sys x par true
  let dot := ∑ j, new_tangent j * prev_tangent j
  if dot < 0 then fun j => -new_tangent j else new_tangent

/-- The corrector loop of `newton_arclength`, as fuel recursion (`fuel` is
`max_iter - iter`). -/
def newtonArcGo (sqrt : K → K) (sys : OdeSystem K n) (x0 : Vec K n) (par0 : K)
    (tangent : Vec K (n + 1)) (ds tol : K) (max_iter : ℕ) :
    ℕ → ℕ → Vec K n → K → Except (AutoError K) (Vec K n × K × ℕ)
  | 0, _, _, _ => .error (.ConvergenceFailed max_iter)
  | fuel + 1, iter, x, par =>
    let f := sys.rhs x par
    let g := (∑ i, tangent (Fin.castSucc i) * (x i - x0 i)) +
      tangent (Fin.last n) * (par - par0) - ds
    let f_norm := sqrt (∑ i, f i * f i)
    if f_norm < tol ∧ |g| < tol then .ok (x, par, iter + 1)
    else
      let jac := systemJacobian sys x par
      let f_par := sys.rhs x (par + eps8)
      let df_dpar : Vec K n := fun i => (f_par i - f i) / eps8
      let aug : Mat K (n + 1) (n + 1) := fun i j =>
        if hi : (i : ℕ) < n then
          if hj : (j : ℕ) < n then jac ⟨i, hi⟩ ⟨j, hj⟩ else df_dpar ⟨i, hi⟩
        else tangent j
      let rhsv : Vec K (n + 1) := fun i => if hi : (i : ℕ) < n then -f ⟨i, hi⟩ else -g
      match solve_linear_system aug rhsv with
      | .error e => .error e
      | .ok delta =>
        newtonArcGo sqrt sys x0 par0 tangent ds tol max_iter fuel (iter + 1)
          (fun i => x i + delta (Fin.castSucc i)) (par + delta (Fin.last n))

/-- `newton_arclength` -/
def newton_arclength (sqrt : K → K) (sys : OdeSystem K n) (x : Vec K n) (par : K)
    (x0 : Vec K n) (par0 : K) (tangent : Vec K (n + 1)) (ds tol : K) (max_iter : ℕ) :
    Except (AutoError K) (Vec K n × K × ℕ) :=
  newtonArcGo sqrt sys x0 par0 tangent ds tol max_iter max_iter 0 x par

/-- The loop-mutable variables of `arclength_continuation`. -/
structure ArcState (K : Type) (n : ℕ) where
  x : Vec K n
  par : K
  ds : K
  tangent : Vec K (n + 1)
  arclength : K
  branch : ContinuationBranch K n
  step : ℕ

/-- The three ways one iteration of the arclength step loop can end:
continue with updated state, leave the loop returning the branch, or abort
the whole run with an error. -/
inductive ArcOutcome (K : Type) (n : ℕ) where
  | next (s : ArcState K n)
  | finished (branch : ContinuationBranch K n)
  | failed (e : AutoError K)

/-- The bifurcation test of the arclength loop body (`detect_bifurcations`
enabled and some point already accepted). -/
def arcBif (params : ContinuationParams K) (s : ArcState K n) (eigenvalues : List (K × K)) :
    Option BifurcationType :=
  if params.detect_bifurcations && !s.branch.points.isEmpty then
    match s.branch.points.getLast? with
    | some prev => detect_bifurcation prev.eigenvalues eigenvalues
    | none => none
  else none

/-- The `SolutionPoint` pushed by one accepted arclength step. -/
def arcPoint (sqrt : K → K) (sys : OdeSystem K n) (params : ContinuationParams K)
    (s : ArcState K n) (new_x : Vec K n) (new_par : K) : SolutionPoint K n :=
  let eigenvalues := compute_eigenvalues sqrt (systemJacobian sys new_x new_par)
  let residual := sys.rhs new_x new_par
  { parameter := new_par, state := new_x, stable := stableOf eigenvalues,
    eigenvalues := eigenvalues, period := none, floquet_multipliers := none,
    bifurcation := arcBif params s eigenvalues, arclength := s.arclength + s.ds,
    residual_norm := sqrt (∑ i, residual i * residual i) }

/-- The straight-line bookkeeping of one accepted arclength step:
Newton/Jacobian counters, bifurcation record (with the new tangent stored),
point append. -/
def arcUpdateBranch (sqrt : K → K) (sys : OdeSystem K n) (params : ContinuationParams K)
    (s : ArcState K n) (new_x : Vec K n) (new_par : K) (iters : ℕ) :
    ContinuationBranch K n :=
  let stats1 :=
    { s.branch.stats with
      newton_iterations := s.branch.stats.newton_iterations + iters
      jacobian_evaluations := s.branch.stats.jacobian_evaluations + iters }
  let eigenvalues := compute_eigenvalues sqrt (systemJacobian sys new_x new_par)
  let bifurcation := arcBif params s eigenvalues
  let bifs :=
    match bifurcation with
    | some bif_type =>
      s.branch.bifurcations ++
        [mkBifPoint bif_type new_par new_x eigenvalues
          (some (compute_tangent sqrt sys new_x new_par s.tangent))]
    | none => s.branch.bifurcations
  let stats2 :=
    match bifurcation with
    | some _ => { stats1 with bifurcations_detected := stats1.bifurcations_detected + 1 }
    | none => stats1
  { s.branch with
    points := s.branch.points ++ [arcPoint sqrt sys params s new_x new_par]
    bifurcations := bifs
    stats := stats2 }

/-- The corrector-success arm of one arclength step: bookkeeping, tangent
update, step growth (`×1.5` capped at `ds_max` when convergence took fewer
than 3 iterations, unchanged otherwise), and the termination test. -/
def arcSuccess (sqrt : K → K) (sys : OdeSystem K n) (params : ContinuationParams K)
    (s : ArcState K n) (new_x : Vec K n) (new_par : K) (iters : ℕ) : ArcOutcome K n :=
  let branch1 := arcUpdateBranch sqrt sys params s new_x new_par iters
  let ds1 := if iters < 3 then min (s.ds * (3 / 2)) params.ds_max else s.ds
  if (params.par_start < params.par_end ∧ params.par_end < new_par) ∨
      (params.par_end < params.par_start ∧ new_par < params.par_end) then
    .finished branch1
  else
    .next
      { x := new_x, par := new_par, ds := ds1,
        tangent := compute_tangent sqrt sys new_x new_par s.tangent,
        arclength := s.arclength + s.ds,
        branch := { branch1 with stats := { branch1.stats with total_steps := s.step + 1 } },
        step := s.step + 1 }

/-- The corrector-failure arm of one arclength step: halve the step,
increment the step-size-reduction counter, abort with `StepTooSmall` when
the halved step falls below `ds_min`, otherwise retry from the same
accepted point. -/
def arcFailure (params : ContinuationParams K) (s : ArcState K n) : ArcOutcome K n :=
  let ds1 := s.ds / 2
  let branch1 :=
    { s.branch with
      stats :=
        { s.branch.stats with
          step_size_reductions := s.branch.stats.step_size_reductions + 1 } }
  if ds1 < params.ds_min then .failed (.StepTooSmall ds1)
  else
    .next
      { s with
        ds := ds1
        branch := { branch1 with stats := { branch1.stats with total_steps := s.step + 1 } }
        step := s.step + 1 }

def arcLoopBody (sqrt : K → K) (sys : OdeSystem K n) (params : ContinuationParams K)
    (s : ArcState K n) : ArcOutcome K n :=
  let x_pred : Vec K n := fun i => s.x i + s.ds * s.tangent (Fin.castSucc i)
  let par_pred := s.par + s.ds * s.tangent (Fin.last n)
  match newton_arclength sqrt sys x_pred par_pred s.x s.par s.tangent s.ds
      params.newton_tol params.newton_max_iter with
  | .ok (new_x, new_par, iters) => arcSuccess sqrt sys params s new_x new_par iters
  | .error _ => arcFailure params s

/-- The step loop of `arclength_continuation` (`for step in 0..max_steps`). -/
def arcGo (sqrt : K → K) (sys : OdeSystem K n) (params : ContinuationParams K) :
    ℕ → ArcState K n → Except (AutoError K) (ContinuationBranch K n)
  | 0, s => .ok s.branch
  | fuel + 1, s =>
    match arcLoopBody sqrt sys params s with
    | .next s1 => arcGo sqrt sys params fuel s1
    | .finished b => .ok b
    | .failed e => .error e

/-- `arclength_continuation`: the initial tangent, the unconditional first
point (arclength 0, residual norm recorded as 0, no residual check), then
the predictor/corrector loop. -/
def arclength_continuation (sqrt : K → K) (sys : OdeSystem K n) (initial_state : Vec K n)
    (params : ContinuationParams K) : Except (AutoError K) (ContinuationBranch K n) :=
  let x := initial_state
  let par := params.par_start
  let tangent :=
    compute_initial_tangent sqrt sys x par (decide (params.par_start < params.par_end))
  let eigenvalues := compute_eigenvalues sqrt (systemJacobian sys x par)
  let point0 : SolutionPoint K n :=
    { parameter := par, state := x, stable := stableOf eigenvalues,
      eigenvalues := eigenvalues, period := none, floquet_multipliers := none,
      bifurcation := none, arclength := 0, residual_norm := 0 }
  let branch0 := { ContinuationBranch.new K n "arclength" with points := [point0] }
  arcGo sqrt sys params params.max_steps
    { x := x, par := par, ds := params.ds, tangent := tangent, arclength := 0,
      branch := branch0, step := 0 }

/- ====================================================================
   Standard test problems
   ==================================================================== -/

/-- `FoldNormalForm`: `dx/dt = mu - x^2`, with its analytic Jacobian. -/
def FoldNormalForm : OdeSystem K 1 where
  rhs := fun x mu => fun _ => mu - x 0 * x 0
  jacobian := fun x _ => some (fun _ _ => -2 * x 0)

/- ====================================================================
   Eigenvalue-count invariant (C8)
   ==================================================================== -/

theorem eigenvalues_2x2_length (sqrt : K → K) (a : Mat K 2 2) :
    (eigenvalues_2x2 sqrt a).length = 2 := by
  simp only [eigenvalues_2x2]
  split <;> rfl

theorem extractEigs_length (sqrt : K → K) (d : ℕ) (h : Mat K d d) :
    ∀ (fuel i : ℕ), d - i ≤ fuel → (extractEigs sqrt d h fuel i).length = d - i := by
  intro fuel
  induction fuel with
  | zero => intro i hi; simp only [extractEigs, List.length_nil]; omega
  | succ fuel ih =>
    intro i hi
    simp only [extractEigs]
    split
    · rename_i hid
      split
      · rename_i hlast
        simp only [List.length_cons, ih (i + 1) (by omega)]
        omega
      · rename_i hlast
        split
        · simp only [List.length_cons, ih (i + 1) (by omega)]
          omega
        · simp only [List.length_append, eigenvalues_2x2_length, ih (i + 2) (by omega)]
          omega
    · rename_i hid
      simp only [List.length_nil]
      omega

theorem compute_eigenvalues_length (sqrt : K → K) :
    ∀ {m : ℕ} (a : Mat K m m), (compute_eigenvalues sqrt a).length = m
  | 0, _ => rfl
  | 1, _ => rfl
  | 2, a => eigenvalues_2x2_length sqrt a
  | m + 3, a => by
    show (qr_eigenvalues sqrt a).length = m + 3
    unfold qr_eigenvalues
    exact extractEigs_length sqrt (m + 3) _ (m + 3) 0 (by omega)

/-- The per-point property C8 asserts along a branch. -/
def EigsLen (n : ℕ) (b : ContinuationBranch K n) : Prop :=
  ∀ pt ∈ b.points, pt.eigenvalues.length = n

theorem natPoint_eigenvalues (sqrt : K → K) (sys : OdeSystem K n)
    (params : ContinuationParams K) (step : ℕ) (branch : ContinuationBranch K n)
    (par arc : K) (ns : Vec K n) :
    (natPoint sqrt sys params step branch par arc ns).eigenvalues =
      compute_eigenvalues sqrt (systemJacobian sys ns par) := rfl

theorem natUpdateBranch_points (sqrt : K → K) (sys : OdeSystem K n)
    (params : ContinuationParams K) (step : ℕ) (branch : ContinuationBranch K n)
    (par arc : K) (ns : Vec K n) (ni : ℕ) :
    (natUpdateBranch sqrt sys params step branch par arc ns ni).points =
      branch.points ++ [natPoint sqrt sys params step branch par arc ns] := rfl

theorem arcPoint_eigenvalues (sqrt : K → K) (sys : OdeSystem K n)
    (params : ContinuationParams K) (s : ArcState K n) (nx : Vec K n) (np : K) :
    (arcPoint sqrt sys params s nx np).eigenvalues =
      compute_eigenvalues sqrt (systemJacobian sys nx np) := rfl

/-- Case analysis of the corrector-success arm: it never aborts, and the
branch it hands on (either to the next iteration or as the final result)
extends the accepted points by exactly the new point. -/
theorem arcSuccess_points (sqrt : K → K) (sys : OdeSystem K n)
    (params : ContinuationParams K) (s : ArcState K n) (nx : Vec K n) (np : K) (iters : ℕ) :
    (∀ s1, arcSuccess sqrt sys params s nx np iters = .next s1 →
      s1.branch.points = s.branch.points ++ [arcPoint sqrt sys params s nx np]) ∧
    (∀ b, arcSuccess sqrt sys params s nx np iters = .finished b →
      b.points = s.branch.points ++ [arcPoint sqrt sys params s nx np]) ∧
    (∀ e, arcSuccess sqrt sys params s nx np iters ≠ .failed e) := by
  refine ⟨?_, ?_, ?_⟩
  · intro s1 h1
    unfold arcSuccess at h1
    dsimp only at h1
    split at h1
    · cases h1
    · cases h1
      rfl
  · intro b h1
    unfold arcSuccess at h1
    dsimp only at h1
    split at h1
    · cases h1
      rfl
    · cases h1
  · intro e h1
    unfold arcSuccess at h1
    dsimp only at h1
    split at h1 <;> cases h1

/-- Case analysis of the corrector-failure arm: it never leaves the loop
normally; it aborts with `StepTooSmall` of the halved step exactly when
that falls below `ds_min`, and otherwise retries from the same accepted
point with the halved step and the reduction counter incremented. -/
theorem arcFailure_spec (params : ContinuationParams K) (s : ArcState K n) :
    (∀ b, arcFailure params s ≠ .finished b) ∧
    (∀ e, arcFailure params s = .failed e ↔
      s.ds / 2 < params.ds_min ∧ e = .StepTooSmall (s.ds / 2)) ∧
    (∀ s1, arcFailure params s = .next s1 →
      ¬ s.ds / 2 < params.ds_min ∧ s1.ds = s.ds / 2 ∧ s1.x = s.x ∧ s1.par = s.par ∧
        s1.tangent = s.tangent ∧ s1.branch.points = s.branch.points ∧
        s1.branch.stats.step_size_reductions =
          s.branch.stats.step_size_reductions + 1) := by
  refine ⟨?_, ?_, ?_⟩
  · intro b h1
    unfold arcFailure at h1
    dsimp only at h1
    split at h1 <;> cases h1
  · intro e
    unfold arcFailure
    dsimp only
    constructor
    · intro h1
      split at h1
      · cases h1
        exact ⟨by assumption, rfl⟩
      · cases h1
    · rintro ⟨hds, rfl⟩
      rw [if_pos hds]
  · intro s1 h1
    unfold arcFailure at h1
    dsimp only at h1
    split at h1
    · cases h1
    · cases h1
      exact ⟨by assumption, rfl, rfl, rfl, rfl, rfl, rfl⟩

theorem naturalGo_eigsLen (sqrt : K → K) (sys : OdeSystem K n)
    (params : ContinuationParams K) (direction : K) :
    ∀ (fuel step : ℕ) (branch : ContinuationBranch K n) (state : Vec K n) (par arc : K)
      (b : ContinuationBranch K n),
      EigsLen n branch →
      naturalGo sqrt sys params direction fuel step branch state par arc = .ok b →
      EigsLen n b := by
  intro fuel
  induction fuel with
  | zero =>
    intro step branch state par arc b hb hok
    simp only [naturalGo] at hok
    cases hok
    exact hb
  | succ fuel ih =>
    intro step branch state par arc b hb hok
    rw [naturalGo] at hok
    split at hok
    · cases hok
    · rename_i ns ni heq
      dsimp only at hok
      have hpush : EigsLen n (natUpdateBranch sqrt sys params step branch par arc ns ni) := by
        intro q hq
        rw [natUpdateBranch_points] at hq
        rcases List.mem_append.1 hq with hq | hq
        · exact hb q hq
        · rcases List.mem_singleton.1 hq with rfl
          rw [natPoint_eigenvalues]
          exact compute_eigenvalues_length sqrt _
      split at hok
      · cases hok
        exact hpush
      · refine ih _ _ _ _ _ _ ?_ hok
        intro q hq
        exact hpush q hq

theorem arcLoopBody_eigsLen (sqrt : K → K) (sys : OdeSystem K n)
    (params : ContinuationParams K) (s : ArcState K n) :
    EigsLen n s.branch →
    (∀ s1, arcLoopBody sqrt sys params s = .next s1 → EigsLen n s1.branch) ∧
    (∀ b, arcLoopBody sqrt sys params s = .finished b → EigsLen n b) := by
  intro hb
  have hpush : ∀ (nx : Vec K n) (np : K)
      (q : SolutionPoint K n),
      q ∈ s.branch.points ++ [arcPoint sqrt sys params s nx np] →
      q.eigenvalues.length = n := by
    intro nx np q hq
    rcases List.mem_append.1 hq with hq | hq
    · exact hb q hq
    · rcases List.mem_singleton.1 hq with rfl
      rw [arcPoint_eigenvalues]
      exact compute_eigenvalues_length sqrt _
  constructor
  · intro s1 h1
    unfold arcLoopBody at h1
    dsimp only at h1
    split at h1
    · intro q hq
      rw [(arcSuccess_points sqrt sys params s _ _ _).1 s1 h1] at hq
      exact hpush _ _ q hq
    · intro q hq
      rw [((arcFailure_spec params s).2.2 s1 h1).2.2.2.2.2.1] at hq
      exact hb q hq
  · intro bb h1
    unfold arcLoopBody at h1
    dsimp only at h1
    split at h1
    · intro q hq
      rw [(arcSuccess_points sqrt sys params s _ _ _).2.1 bb h1] at hq
      exact hpush _ _ q hq
    · exact absurd h1 ((arcFailure_spec params s).1 bb)

theorem arcGo_eigsLen (sqrt : K → K) (sys : OdeSystem K n) (params : ContinuationParams K) :
    ∀ (fuel : ℕ) (s : ArcState K n) (b : ContinuationBranch K n),
      EigsLen n s.branch →
      arcGo sqrt sys params fuel s = .ok b → EigsLen n b := by
  intro fuel
  induction fuel with
  | zero =>
    intro s b hb hok
    simp only [arcGo] at hok
    cases hok
    exact hb
  | succ fuel ih =>
    intro s b hb hok
    rw [arcGo] at hok
    rcases harc : arcLoopBody sqrt sys params s with s1 | b1 | e
    · rw [harc] at hok
      exact ih s1 b ((arcLoopBody_eigsLen sqrt sys params s hb).1 s1 harc) hok
    · rw [harc] at hok
      cases hok
      exact (arcLoopBody_eigsLen sqrt sys params s hb).2 _ harc
    · rw [harc] at hok
      cases hok

/-- C8: `compute_eigenvalues` applied to an `m×m` matrix returns exactly `m`
(real, imaginary) pairs — including the quasi-triangular extraction path for
`m > 2` — and consequently every `SolutionPoint` appended by either
continuation driver carries an eigenvalue list whose length equals the
system dimension. -/
theorem c8_eigenvalue_count_invariant :
    ∀ (K : Type) (_ : LinearOrderedField K),
      (∀ (sqrt : K → K) (m : ℕ) (a : Mat K m m), (compute_eigenvalues sqrt a).length = m) ∧
      (∀ (sqrt : K → K) (n : ℕ) (sys : OdeSystem K n) (x0 : Vec K n)
          (params : ContinuationParams K) (b : ContinuationBranch K n),
          natural_continuation sqrt sys x0 params = .ok b →
          ∀ pt ∈ b.points, pt.eigenvalues.length = n) ∧
      (∀ (sqrt : K → K) (n : ℕ) (sys : OdeSystem K n) (x0 : Vec K n)
          (params : ContinuationParams K) (b : ContinuationBranch K n),
          arclength_continuation sqrt sys x0 params = .ok b →
          ∀ pt ∈ b.points, pt.eigenvalues.length = n) := by
  intro K _
  refine ⟨fun sqrt m a => compute_eigenvalues_length sqrt a, ?_, ?_⟩
  · intro sqrt n sys x0 params b hok
    exact naturalGo_eigsLen sqrt sys params _ params.max_steps 0 _ x0 params.par_start 0 b
      (fun pt hpt => absurd hpt (List.not_mem_nil pt)) hok
  · intro sqrt n sys x0 params b hok
    refine arcGo_eigsLen sqrt sys params params.max_steps _ b ?_ hok
    intro pt hpt
    rcases List.mem_singleton.1 hpt with rfl
    simp only [compute_eigenvalues_length]

/- ====================================================================
   Determinism of natural continuation (C9)
   ==================================================================== -/

/-- C9: natural continuation is a pure function of its inputs — two calls
with the same system, initial state and parameters yield the same result,
and in particular equal branches agree in points, bifurcations and
statistics. The embedding is deterministic because the source is: it uses
no randomness, no global or `static` state, and the branch and statistics
it builds are locally owned. -/
theorem c9_natural_continuation_deterministic :
    ∀ (K : Type) (_ : LinearOrderedField K) (sqrt : K → K) (n : ℕ) (sys : OdeSystem K n)
      (x0 : Vec K n) (params : ContinuationParams K),
      natural_continuation sqrt sys x0 params = natural_continuation sqrt sys x0 params ∧
      (∀ b1 b2 : ContinuationBranch K n,
        natural_continuation sqrt sys x0 params = .ok b1 →
        natural_continuation sqrt sys x0 params = .ok b2 →
        b1.points = b2.points ∧ b1.bifurcations = b2.bifurcations ∧ b1.stats = b2.stats) := by
  intro K _ sqrt n sys x0 params
  refine ⟨rfl, ?_⟩
  intro b1 b2 h1 h2
  rw [h1] at h2
  cases h2
  exact ⟨rfl, rfl, rfl⟩

/- ====================================================================
   The unconditional first point of an arclength run (C10)
   ==================================================================== -/

theorem arcGo_head (sqrt : K → K) (sys : OdeSystem K n) (params : ContinuationParams K) :
    ∀ (fuel : ℕ) (s : ArcState K n) (b : ContinuationBranch K n) (p0 : SolutionPoint K n),
      s.branch.points.head? = some p0 →
      arcGo sqrt sys params fuel s = .ok b → b.points.head? = some p0 := by
  intro fuel
  induction fuel with
  | zero =>
    intro s b p0 hh hok
    simp only [arcGo] at hok
    cases hok
    exact hh
  | succ fuel ih =>
    intro s b p0 hh hok
    have happ : ∀ pt_ : SolutionPoint K n, (s.branch.points ++ [pt_]).head? = some p0 := by
      intro pt_
      cases hp : s.branch.points with
      | nil => rw [hp] at hh; cases hh
      | cons a t => rw [hp] at hh; rw [List.cons_append, List.head?_cons] at *; exact hh
    have hbody : ∀ s1 (bb : ContinuationBranch K n),
        (arcLoopBody sqrt sys params s = .next s1 → s1.branch.points.head? = some p0) ∧
        (arcLoopBody sqrt sys params s = .finished bb → bb.points.head? = some p0) := by
      intro s1 bb
      constructor
      · intro h1
        unfold arcLoopBody at h1
        dsimp only at h1
        split at h1
        · rw [(arcSuccess_points sqrt sys params s _ _ _).1 s1 h1]
          exact happ _
        · rw [((arcFailure_spec params s).2.2 s1 h1).2.2.2.2.2.1]
          exact hh
      · intro h1
        unfold arcLoopBody at h1
        dsimp only at h1
        split at h1
        · rw [(arcSuccess_points sqrt sys params s _ _ _).2.1 bb h1]
          exact happ _
        · exact absurd h1 ((arcFailure_spec params s).1 bb)
    rw [arcGo] at hok
    rcases harc : arcLoopBody sqrt sys params s with s1 | b1 | e
    · rw [harc] at hok
      exact ih s1 b p0 ((hbody s1 b).1 harc) hok
    · rw [harc] at hok
      cases hok
      exact (hbody s _).2 harc
    · rw [harc] at hok
      cases hok

/-- C10: `arclength_continuation` records the caller-supplied starting
state as a first `SolutionPoint` before any predictor/corrector step, with
arclength 0 and `residual_norm` 0, for every system — in particular with no
check that `F(x, p) = 0` holds there — so every successfully returned
arclength branch is non-empty with that point at its head. -/
theorem c10_arclength_initial_point :
    ∀ (K : Type) (_ : LinearOrderedField K) (sqrt : K → K) (n : ℕ) (sys : OdeSystem K n)
      (x0 : Vec K n) (params : ContinuationParams K),
      match arclength_continuation sqrt sys x0 params with
      | .ok b =>
        b.points ≠ [] ∧
        ∃ p0, b.points.head? = some p0 ∧ p0.state = x0 ∧ p0.parameter = params.par_start ∧
          p0.arclength = 0 ∧ p0.residual_norm = 0
      | .error _ => True := by
  intro K _ sqrt n sys x0 params
  rcases hok : arclength_continuation sqrt sys x0 params with e | b
  · trivial
  · unfold arclength_continuation at hok
    have hh := arcGo_head sqrt sys params params.max_steps _ b _ (by rfl) hok
    constructor
    · intro hnil
      rw [hnil] at hh
      cases hh
    · exact ⟨_, hh, rfl, rfl, rfl, rfl⟩

/- ====================================================================
   Bifurcation detection rules (C6)
   ==================================================================== -/

/-- The claim's saddle-node condition at a rank-paired eigenvalue pair:
real parts of opposite sign, both imaginary parts within `1e-6` of zero. -/
def saddleCond (pc : (K × K) × (K × K)) : Prop :=
  (pc.1.1 < 0 ∧ 0 < pc.2.1 ∨ 0 < pc.1.1 ∧ pc.2.1 < 0) ∧ |pc.1.2| < eps6 ∧ |pc.2.2| < eps6

/-- The claim's Hopf condition: real parts of opposite sign, previous
imaginary part exceeding `1e-6` in magnitude. -/
def hopfCond (pc : (K × K) × (K × K)) : Prop :=
  (pc.1.1 < 0 ∧ 0 < pc.2.1 ∨ 0 < pc.1.1 ∧ pc.2.1 < 0) ∧ eps6 < |pc.1.2|

instance (pc : (K × K) × (K × K)) : Decidable (saddleCond pc) := by
  unfold saddleCond; infer_instance

instance (pc : (K × K) × (K × K)) : Decidable (hopfCond pc) := by
  unfold hopfCond; infer_instance

/-- Specification-side reading of the claim: sort both lists by descending
real part, pair rank-wise, take the first pair satisfying the saddle-node
or Hopf condition and report accordingly; report nothing when the lengths
differ or no pair matches. -/
def detectBifurcationSpec (prev curr : List (K × K)) : Option BifurcationType :=
  if prev.length = curr.length then
    (((sortByRealDesc prev).zip (sortByRealDesc curr)).find?
        (fun pc => decide (saddleCond pc) || decide (hopfCond pc))).map
      (fun pc => if saddleCond pc then .SaddleNode else .Hopf)
  else none

theorem detectGo_eq_find (l : List ((K × K) × (K × K))) :
    detectGo l =
      (l.find? (fun pc => decide (saddleCond pc) || decide (hopfCond pc))).map
        (fun pc => if saddleCond pc then BifurcationType.SaddleNode else .Hopf) := by
  induction l with
  | nil => rfl
  | cons pc rest ih =>
    rw [detectGo, List.find?_cons]
    by_cases h1 : pc.1.1 * pc.2.1 < 0 ∧ |pc.1.2| < eps6 ∧ |pc.2.2| < eps6
    · have hsn : saddleCond pc := by
        refine ⟨?_, h1.2.1, h1.2.2⟩
        rcases mul_neg_iff.1 h1.1 with h | h
        · exact Or.inr ⟨h.1, h.2⟩
        · exact Or.inl ⟨h.1, h.2⟩
      rw [if_pos h1]
      have : (decide (saddleCond pc) || decide (hopfCond pc)) = true := by
        simp [hsn]
      rw [this]
      simp [hsn]
    · rw [if_neg h1]
      by_cases h2 : pc.1.1 * pc.2.1 < 0 ∧ eps6 < |pc.1.2|
      · have hh : hopfCond pc := by
          refine ⟨?_, h2.2⟩
          rcases mul_neg_iff.1 h2.1 with h | h
          · exact Or.inr ⟨h.1, h.2⟩
          · exact Or.inl ⟨h.1, h.2⟩
        have hns : ¬ saddleCond pc := by
          intro hs
          exact h1 ⟨h2.1, hs.2⟩
        rw [if_pos h2]
        have : (decide (saddleCond pc) || decide (hopfCond pc)) = true := by
          simp [hh]
        rw [this]
        simp [hns]
      · have hmul : ∀ a b : K, (a < 0 ∧ 0 < b ∨ 0 < a ∧ b < 0) → a * b < 0 := by
          intro a b h
          rcases h with h | h
          · exact mul_neg_iff.2 (Or.inr ⟨h.1, h.2⟩)
          · exact mul_neg_iff.2 (Or.inl ⟨h.1, h.2⟩)
        have hns : ¬ saddleCond pc := fun hs => h1 ⟨hmul _ _ hs.1, hs.2⟩
        have hnh : ¬ hopfCond pc := fun hh => h2 ⟨hmul _ _ hh.1, hh.2⟩
        rw [if_neg h2]
        have : (decide (saddleCond pc) || decide (hopfCond pc)) = false := by
          simp [hns, hnh]
        rw [this]
        exact ih

/-- C6: `detect_bifurcation` equals its specification: both eigenvalue
lists are sorted by descending real part and compared rank-wise; the first
pair with opposite-sign real parts reports `SaddleNode` when both imaginary
parts are within `1e-6` of zero and `Hopf` when the previous imaginary part
exceeds `1e-6` in magnitude; no bifurcation is reported when the lengths
differ or no pair matches. -/
theorem c6_detect_bifurcation_rules :
    ∀ (K : Type) (_ : LinearOrderedField K) (prev curr : List (K × K)),
      detect_bifurcation prev curr = detectBifurcationSpec prev curr := by
  intro K _ prev curr
  unfold detect_bifurcation detectBifurcationSpec
  by_cases hlen : prev.length = curr.length
  · rw [if_neg (by simpa using hlen), if_pos hlen]
    exact detectGo_eq_find _
  · rw [if_pos (by simpa using hlen), if_neg hlen]

/- ====================================================================
   Arclength step-size control (C1)
   ==================================================================== -/

theorem arcSuccess_ds (sqrt : K → K) (sys : OdeSystem K n) (params : ContinuationParams K)
    (s : ArcState K n) (nx : Vec K n) (np : K) (iters : ℕ) (s1 : ArcState K n) :
    arcSuccess sqrt sys params s nx np iters = .next s1 →
    s1.ds = if iters < 3 then min (s.ds * (3 / 2)) params.ds_max else s.ds := by
  intro h1
  unfold arcSuccess at h1
  dsimp only at h1
  split at h1
  · cases h1
  · cases h1
    rfl

theorem arcLoopBody_failed (sqrt : K → K) (sys : OdeSystem K n)
    (params : ContinuationParams K) (s : ArcState K n) (e : AutoError K) :
    arcLoopBody sqrt sys params s = .failed e →
    e = .StepTooSmall (s.ds / 2) ∧ s.ds / 2 < params.ds_min ∧
      ∃ e0, newton_arclength sqrt sys
        (fun i => s.x i + s.ds * s.tangent (Fin.castSucc i))
        (s.par + s.ds * s.tangent (Fin.last n)) s.x s.par s.tangent s.ds
        params.newton_tol params.newton_max_iter = .error e0 := by
  intro h1
  unfold arcLoopBody at h1
  dsimp only at h1
  split at h1
  · exact absurd h1 ((arcSuccess_points sqrt sys params s _ _ _).2.2 e)
  · rename_i e0 heq
    have := ((arcFailure_spec params s).2.1 e).1 h1
    exact ⟨this.2, this.1, e0, heq⟩

theorem arcGo_stepTooSmall (sqrt : K → K) (sys : OdeSystem K n)
    (params : ContinuationParams K) :
    ∀ (fuel : ℕ) (s : ArcState K n) (d : K),
      arcGo sqrt sys params fuel s = .error (.StepTooSmall d) → d < params.ds_min := by
  intro fuel
  induction fuel with
  | zero =>
    intro s d h
    simp only [arcGo] at h
    cases h
  | succ fuel ih =>
    intro s d h
    rw [arcGo] at h
    rcases harc : arcLoopBody sqrt sys params s with s1 | b1 | e <;> rw [harc] at h
    · exact ih s1 d h
    · cases h
    · cases h
      obtain ⟨he, hds, -⟩ := arcLoopBody_failed sqrt sys params s _ harc
      cases he
      exact hds

/-- C1: arclength step-size control. For every loop state of every run:
after a corrector success taking fewer than 3 Newton iterations the step
size becomes `min (ds * 1.5) ds_max`, and stays `ds` on a success taking 3
or more iterations; after a corrector failure the step is halved and the
step-size-reduction counter incremented, the iteration otherwise retrying
from the same accepted point; the loop iteration aborts exactly when a
corrector failure leaves the halved step below `ds_min`, and then with
`StepTooSmall` carrying the halved step — so any `StepTooSmall` error an
arclength run returns carries a value below `ds_min`. -/
theorem c1_arclength_step_size_control :
    ∀ (K : Type) (_ : LinearOrderedField K) (sqrt : K → K) (n : ℕ) (sys : OdeSystem K n)
      (params : ContinuationParams K) (s : ArcState K n),
      (∀ nx np iters s1,
        newton_arclength sqrt sys
            (fun i => s.x i + s.ds * s.tangent (Fin.castSucc i))
            (s.par + s.ds * s.tangent (Fin.last n)) s.x s.par s.tangent s.ds
            params.newton_tol params.newton_max_iter = .ok (nx, np, iters) →
        arcLoopBody sqrt sys params s = .next s1 →
        (iters < 3 → s1.ds = min (s.ds * (3 / 2)) params.ds_max) ∧
        (3 ≤ iters → s1.ds = s.ds)) ∧
      (∀ e s1,
        newton_arclength sqrt sys
            (fun i => s.x i + s.ds * s.tangent (Fin.castSucc i))
            (s.par + s.ds * s.tangent (Fin.last n)) s.x s.par s.tangent s.ds
            params.newton_tol params.newton_max_iter = .error e →
        arcLoopBody sqrt sys params s = .next s1 →
        s1.ds = s.ds / 2 ∧
          s1.branch.stats.step_size_reductions =
            s.branch.stats.step_size_reductions + 1 ∧
          s1.x = s.x ∧ s1.par = s.par ∧ s1.tangent = s.tangent) ∧
      ((∃ e1, arcLoopBody sqrt sys params s = .failed e1) ↔
        ((∃ e, newton_arclength sqrt sys
            (fun i => s.x i + s.ds * s.tangent (Fin.castSucc i))
            (s.par + s.ds * s.tangent (Fin.last n)) s.x s.par s.tangent s.ds
            params.newton_tol params.newton_max_iter = .error e) ∧
          s.ds / 2 < params.ds_min)) ∧
      (∀ e1, arcLoopBody sqrt sys params s = .failed e1 →
        e1 = .StepTooSmall (s.ds / 2)) ∧
      (∀ (fuel : ℕ) (s0 : ArcState K n) (d : K),
        arcGo sqrt sys params fuel s0 = .error (.StepTooSmall d) → d < params.ds_min) := by
  intro K _ sqrt n sys params s
  refine ⟨?_, ?_, ?_, ?_, arcGo_stepTooSmall sqrt sys params⟩
  · intro nx np iters s1 hr hbody
    unfold arcLoopBody at hbody
    dsimp only at hbody
    rw [hr] at hbody
    have hds := arcSuccess_ds sqrt sys params s nx np iters s1 hbody
    constructor
    · intro hlt
      rw [hds, if_pos hlt]
    · intro hge
      rw [hds, if_neg (by omega)]
  · intro e s1 hr hbody
    unfold arcLoopBody at hbody
    dsimp only at hbody
    rw [hr] at hbody
    have := (arcFailure_spec params s).2.2 s1 hbody
    exact ⟨this.2.1, this.2.2.2.2.2.2, this.2.2.1, this.2.2.2.1, this.2.2.2.2.1⟩
  · constructor
    · rintro ⟨e1, h1⟩
      obtain ⟨-, hds, e0, he0⟩ := arcLoopBody_failed sqrt sys params s e1 h1
      exact ⟨⟨e0, he0⟩, hds⟩
    · rintro ⟨⟨e, he⟩, hds⟩
      refine ⟨.StepTooSmall (s.ds / 2), ?_⟩
      unfold arcLoopBody
      dsimp only
      rw [he]
      exact ((arcFailure_spec params s).2.1 _).2 ⟨hds, rfl⟩
  · intro e1 h1
    exact (arcLoopBody_failed sqrt sys params s e1 h1).1

/- ====================================================================
   Newton solver contract (C3) and singular-pivot propagation (C5)
   ==================================================================== -/

theorem elimStep_error_shape (aug : Mat K n (n + 1)) (k : Fin n) (e : AutoError K) :
    elimStep aug k = .error e → e = .SingularJacobian 0 ∧ pivotMag aug k < eps15 := by
  intro h
  unfold elimStep at h
  dsimp only at h
  split at h
  · cases h
    exact ⟨rfl, by assumption⟩
  · cases h

theorem elimStep_ok_of_pivot (aug : Mat K n (n + 1)) (k : Fin n) :
    ¬ pivotMag aug k < eps15 → ∃ aug1, elimStep aug k = .ok aug1 := by
  intro h
  unfold pivotMag at h
  unfold elimStep
  dsimp only
  rw [if_neg h]
  exact ⟨_, rfl⟩

theorem elimStep_error_of_pivot (aug : Mat K n (n + 1)) (k : Fin n) :
    pivotMag aug k < eps15 → elimStep aug k = .error (.SingularJacobian 0) := by
  intro h
  unfold pivotMag at h
  unfold elimStep
  dsimp only
  rw [if_pos h]

theorem forwardElim_error_shape :
    ∀ (ks : List (Fin n)) (aug : Mat K n (n + 1)) (e : AutoError K),
      forwardElim aug ks = .error e → e = .SingularJacobian 0 := by
  intro ks
  induction ks with
  | nil => intro aug e h; cases h
  | cons k ks ih =>
    intro aug e h
    rw [forwardElim] at h
    split at h
    · cases h
      exact (elimStep_error_shape aug k _ (by assumption)).1
    · exact ih _ e h

theorem solve_linear_system_error_shape (a : Mat K n n) (b : Vec K n) (e : AutoError K) :
    solve_linear_system a b = .error e → e = .SingularJacobian 0 := by
  intro h
  unfold solve_linear_system at h
  split at h
  · cases h
    exact forwardElim_error_shape _ _ _ (by assumption)
  · cases h

theorem newtonIterates_succ_of_step (f : Vec K n → Vec K n) (fjac : Vec K n → Mat K n n)
    (x0 x1 : Vec K n) (hstep : newtonStep f fjac x0 = .ok x1) :
    ∀ k, newtonIterates f fjac x0 (k + 1) = newtonIterates f fjac x1 k := by
  intro k
  induction k with
  | zero =>
    show (match newtonIterates f fjac x0 0 with
      | .error e => .error e
      | .ok x => newtonStep f fjac x) = newtonIterates f fjac x1 0
    rw [show newtonIterates f fjac x0 0 = .ok x0 from rfl]
    exact hstep
  | succ k ih =>
    show (match newtonIterates f fjac x0 (k + 1) with
      | .error e => .error e
      | .ok x => newtonStep f fjac x) = newtonIterates f fjac x1 (k + 1)
    rw [ih]
    rfl

theorem newtonIterates_ok_of_succ (f : Vec K n → Vec K n) (fjac : Vec K n → Mat K n n)
    (x0 : Vec K n) (k : ℕ) (z : Vec K n) :
    newtonIterates f fjac x0 (k + 1) = .ok z → ∃ y, newtonIterates f fjac x0 k = .ok y := by
  intro h
  rw [newtonIterates] at h
  split at h
  · cases h
  · exact ⟨_, by assumption⟩

theorem newtonIterates_ok_mono (f : Vec K n → Vec K n) (fjac : Vec K n → Mat K n n)
    (x0 : Vec K n) :
    ∀ (m : ℕ) (z : Vec K n), newtonIterates f fjac x0 m = .ok z →
      ∀ k ≤ m, ∃ y, newtonIterates f fjac x0 k = .ok y := by
  intro m
  induction m with
  | zero =>
    intro z hz k hk
    interval_cases k
    exact ⟨z, hz⟩
  | succ m ih =>
    intro z hz k hk
    rcases Nat.lt_or_ge k (m + 1) with hlt | hge
    · obtain ⟨y, hy⟩ := newtonIterates_ok_of_succ f fjac x0 m z hz
      exact ih y hy k (by omega)
    · have : k = m + 1 := by omega
      subst this
      exact ⟨z, hz⟩

theorem newtonGo_ok_spec (sqrt : K → K) (f : Vec K n → Vec K n)
    (fjac : Vec K n → Mat K n n) (tol : K) (M : ℕ) :
    ∀ (fuel iter : ℕ) (x y : Vec K n) (c : ℕ),
      newtonGo sqrt f fjac tol M fuel iter x = .ok (y, c) →
      iter < c ∧ c ≤ iter + fuel ∧
      newtonIterates f fjac x (c - (iter + 1)) = .ok y ∧
      sqrt (∑ i, f y i * f y i) < tol ∧
      (∀ k z, k < c - (iter + 1) → newtonIterates f fjac x k = .ok z →
        ¬ sqrt (∑ i, f z i * f z i) < tol) := by
  intro fuel
  induction fuel with
  | zero => intro iter x y c h; rw [newtonGo] at h; cases h
  | succ fuel ih =>
    intro iter x y c h
    rw [newtonGo] at h
    split at h
    · rename_i hconv
      cases h
      refine ⟨by omega, by omega, ?_, hconv, ?_⟩
      · rw [Nat.sub_self]
        rfl
      · intro k z hk
        omega
    · rename_i hconv
      split at h
      · cases h
      · rename_i dx hsolve
        have hstep : newtonStep f fjac x = .ok (fun i => x i - dx i) := by
          unfold newtonStep
          rw [hsolve]
        obtain ⟨h1, h2, h3, h4, h5⟩ := ih (iter + 1) _ y c h
        have hshift := newtonIterates_succ_of_step f fjac x _ hstep
        refine ⟨by omega, by omega, ?_, h4, ?_⟩
        · rw [show c - (iter + 1) = (c - (iter + 2)) + 1 by omega, hshift]
          exact h3
        · intro k z hk hz
          match k with
          | 0 =>
            rw [show newtonIterates f fjac x 0 = .ok x from rfl] at hz
            cases hz
            exact hconv
          | k + 1 =>
            rw [hshift] at hz
            exact h5 k z (by omega) hz

theorem newtonGo_exhaust (sqrt : K → K) (f : Vec K n → Vec K n)
    (fjac : Vec K n → Mat K n n) (tol : K) (M : ℕ) :
    ∀ (fuel iter : ℕ) (x : Vec K n),
      (∀ k, k < fuel → ∀ y, newtonIterates f fjac x k = .ok y →
        ¬ sqrt (∑ i, f y i * f y i) < tol) →
      (∃ z, newtonIterates f fjac x fuel = .ok z) →
      newtonGo sqrt f fjac tol M fuel iter x = .error (.ConvergenceFailed M) := by
  intro fuel
  induction fuel with
  | zero => intro iter x _ _; rfl
  | succ fuel ih =>
    intro iter x hall hz
    obtain ⟨z, hzz⟩ := hz
    obtain ⟨x1, h1⟩ := newtonIterates_ok_mono f fjac x (fuel + 1) z hzz 1 (by omega)
    have hstep : newtonStep f fjac x = .ok x1 := by
      rw [show newtonIterates f fjac x 1 =
        (match newtonIterates f fjac x 0 with
          | .error e => .error e
          | .ok x => newtonStep f fjac x) from rfl] at h1
      exact h1
    have hshift := newtonIterates_succ_of_step f fjac x x1 hstep
    have hnc : ¬ sqrt (∑ i, f x i * f x i) < tol :=
      hall 0 (by omega) x rfl
    rw [newtonGo]
    rw [if_neg hnc]
    have hsolve : ∃ dx, solve_linear_system (fjac x) (f x) = .ok dx ∧
        x1 = fun i => x i - dx i := by
      unfold newtonStep at hstep
      split at hstep
      · cases hstep
      · cases hstep
        exact ⟨_, by assumption, rfl⟩
    obtain ⟨dx, hdx, hx1⟩ := hsolve
    rw [hdx]
    show newtonGo sqrt f fjac tol M fuel (iter + 1) (fun i => x i - dx i) =
      Except.error (AutoError.ConvergenceFailed M)
    rw [← hx1]
    exact ih (iter + 1) x1
      (fun k hk y hy => hall (k + 1) (by omega) y ((hshift k).symm ▸ hy))
      ⟨z, (hshift fuel).symm ▸ hzz⟩

theorem newtonGo_convergenceFailed_payload (sqrt : K → K) (f : Vec K n → Vec K n)
    (fjac : Vec K n → Mat K n n) (tol : K) (M : ℕ) :
    ∀ (fuel iter : ℕ) (x : Vec K n) (jv : ℕ),
      newtonGo sqrt f fjac tol M fuel iter x = .error (.ConvergenceFailed jv) → jv = M := by
  intro fuel
  induction fuel with
  | zero =>
    intro iter x jv h
    rw [newtonGo] at h
    cases h
    rfl
  | succ fuel ih =>
    intro iter x jv h
    rw [newtonGo] at h
    split at h
    · cases h
    · split at h
      · rename_i e hsolve
        cases h
        have := solve_linear_system_error_shape _ _ _ hsolve
        cases this
      · exact ih (iter + 1) _ jv h

theorem newtonGo_singular (sqrt : K → K) (f : Vec K n → Vec K n)
    (fjac : Vec K n → Mat K n n) (tol : K) (M : ℕ) :
    ∀ (fuel iter : ℕ) (x : Vec K n) (q : K),
      newtonGo sqrt f fjac tol M fuel iter x = .error (.SingularJacobian q) →
      ∃ k z, newtonIterates f fjac x k = .ok z ∧
        ¬ sqrt (∑ i, f z i * f z i) < tol ∧
        solve_linear_system (fjac z) (f z) = .error (.SingularJacobian q) := by
  intro fuel
  induction fuel with
  | zero =>
    intro iter x q h
    rw [newtonGo] at h
    cases h
  | succ fuel ih =>
    intro iter x q h
    rw [newtonGo] at h
    split at h
    · cases h
    · rename_i hconv
      split at h
      · rename_i e hsolve
        cases h
        exact ⟨0, x, rfl, hconv, hsolve⟩
      · rename_i dx hsolve
        obtain ⟨k, z, hkz, hnc, hsl⟩ := ih (iter + 1) _ q h
        have hstep : newtonStep f fjac x = .ok (fun i => x i - dx i) := by
          unfold newtonStep
          rw [hsolve]
        refine ⟨k + 1, z, ?_, hnc, hsl⟩
        rw [newtonIterates_succ_of_step f fjac x _ hstep]
        exact hkz

/-- C3: the `newton_solve` contract. If it returns `(x, count)` then the
residual norm at `x` is below the tolerance, `1 ≤ count ≤ max_iter`, `x` is
the `(count-1)`-th Newton iterate (each non-converged iteration updating
`x ← x − Δx` with `Δx` solved from `Jacobian·Δx = residual`), and `count`
is the first iteration at which the convergence check passed. If all
`max_iter` iterations run without converging (and without a linear-solver
error on the last update), it fails with `ConvergenceFailed` carrying
`max_iter`; any `ConvergenceFailed` it returns carries exactly `max_iter`. -/
theorem c3_newton_solve_contract :
    ∀ (K : Type) (_ : LinearOrderedField K) (sqrt : K → K) (n : ℕ)
      (f : Vec K n → Vec K n) (fjac : Vec K n → Mat K n n) (x0 : Vec K n) (tol : K)
      (max_iter : ℕ),
      (∀ x c, newton_solve sqrt f fjac x0 tol max_iter = .ok (x, c) →
        1 ≤ c ∧ c ≤ max_iter ∧
        newtonIterates f fjac x0 (c - 1) = .ok x ∧
        sqrt (∑ i, f x i * f x i) < tol ∧
        (∀ k z, k < c - 1 → newtonIterates f fjac x0 k = .ok z →
          ¬ sqrt (∑ i, f z i * f z i) < tol)) ∧
      ((∀ k, k < max_iter → ∀ y, newtonIterates f fjac x0 k = .ok y →
          ¬ sqrt (∑ i, f y i * f y i) < tol) →
        (∃ z, newtonIterates f fjac x0 max_iter = .ok z) →
        newton_solve sqrt f fjac x0 tol max_iter = .error (.ConvergenceFailed max_iter)) ∧
      (∀ jv, newton_solve sqrt f fjac x0 tol max_iter = .error (.ConvergenceFailed jv) →
        jv = max_iter) := by
  intro K _ sqrt n f fjac x0 tol max_iter
  refine ⟨?_, ?_, ?_⟩
  · intro x c h
    obtain ⟨h1, h2, h3, h4, h5⟩ :=
      newtonGo_ok_spec sqrt f fjac tol max_iter max_iter 0 x0 x c h
    exact ⟨by omega, by omega, h3, h4, h5⟩
  · intro hall hz
    exact newtonGo_exhaust sqrt f fjac tol max_iter max_iter 0 x0 hall hz
  · intro jv h
    exact newtonGo_convergenceFailed_payload sqrt f fjac tol max_iter max_iter 0 x0 jv h

/-- The fold function of the pivot search, named for reasoning. -/
def pivotFoldF (aug : Mat K n (n + 1)) (k : Fin n) : (Fin n × K) → Fin n → (Fin n × K) :=
  fun acc i =>
    if k < i ∧ acc.2 < |aug i (Fin.castSucc k)| then (i, |aug i (Fin.castSucc k)|) else acc

theorem pivotSelect_eq_fold (aug : Mat K n (n + 1)) (k : Fin n) :
    pivotSelect aug k =
      (List.finRange n).foldl (pivotFoldF aug k) (k, |aug k (Fin.castSucc k)|) := rfl

theorem pivotFold_spec (aug : Mat K n (n + 1)) (k : Fin n) :
    ∀ (l : List (Fin n)) (acc : Fin n × K),
      acc.2 = |aug acc.1 (Fin.castSucc k)| → k ≤ acc.1 →
      (l.foldl (pivotFoldF aug k) acc).2 =
          |aug (l.foldl (pivotFoldF aug k) acc).1 (Fin.castSucc k)| ∧
        k ≤ (l.foldl (pivotFoldF aug k) acc).1 ∧
        acc.2 ≤ (l.foldl (pivotFoldF aug k) acc).2 ∧
        ∀ i ∈ l, k < i → |aug i (Fin.castSucc k)| ≤ (l.foldl (pivotFoldF aug k) acc).2 := by
  intro l
  induction l with
  | nil =>
    intro acc h1 h2
    exact ⟨h1, h2, le_refl _, fun i hi => absurd hi (List.not_mem_nil i)⟩
  | cons j l ih =>
    intro acc h1 h2
    rw [List.foldl_cons]
    by_cases hc : k < j ∧ acc.2 < |aug j (Fin.castSucc k)|
    · rw [show pivotFoldF aug k acc j = (j, |aug j (Fin.castSucc k)|) from if_pos hc]
      obtain ⟨r1, r2, r3, r4⟩ := ih (j, |aug j (Fin.castSucc k)|) rfl (le_of_lt hc.1)
      refine ⟨r1, r2, le_trans (le_of_lt hc.2) r3, ?_⟩
      intro i hi hki
      rcases List.mem_cons.1 hi with rfl | hi
      · exact le_trans (le_of_eq rfl) r3
      · exact r4 i hi hki
    · rw [show pivotFoldF aug k acc j = acc from if_neg hc]
      obtain ⟨r1, r2, r3, r4⟩ := ih acc h1 h2
      refine ⟨r1, r2, r3, ?_⟩
      intro i hi hki
      rcases List.mem_cons.1 hi with rfl | hi
      · have : ¬ acc.2 < |aug i (Fin.castSucc k)| := fun hlt => hc ⟨hki, hlt⟩
        exact le_trans (not_lt.1 this) r3
      · exact r4 i hi hki

/-- The selected pivot is attained at some remaining row and dominates the
magnitude of every remaining entry of the active column. -/
theorem pivotMag_spec (aug : Mat K n (n + 1)) (k : Fin n) :
    (∃ r, k ≤ r ∧ pivotMag aug k = |aug r (Fin.castSucc k)|) ∧
    ∀ i, k ≤ i → |aug i (Fin.castSucc k)| ≤ pivotMag aug k := by
  have h := pivotFold_spec aug k (List.finRange n) (k, |aug k (Fin.castSucc k)|) rfl (le_refl k)
  rw [← pivotSelect_eq_fold] at h
  obtain ⟨r1, r2, r3, r4⟩ := h
  constructor
  · exact ⟨(pivotSelect aug k).1, r2, r1⟩
  · intro i hki
    rcases eq_or_lt_of_le hki with heq | hlt
    · rw [← heq]
      exact r3
    · exact r4 i (List.mem_finRange i) hlt

theorem forwardElim_append (l1 l2 : List (Fin n)) :
    ∀ aug : Mat K n (n + 1),
      forwardElim aug (l1 ++ l2) =
        match forwardElim aug l1 with
        | .error e => .error e
        | .ok a1 => forwardElim a1 l2 := by
  induction l1 with
  | nil => intro aug; rfl
  | cons k l1 ih =>
    intro aug
    simp only [List.cons_append, forwardElim]
    rcases h : elimStep aug k with e | a
    · rfl
    · exact ih a

theorem forwardElim_error_split :
    ∀ (l : List (Fin n)) (aug : Mat K n (n + 1)) (e : AutoError K),
      forwardElim aug l = .error e →
      ∃ l1 k l2, l = l1 ++ k :: l2 ∧
        ∃ aug1, forwardElim aug l1 = .ok aug1 ∧ pivotMag aug1 k < eps15 := by
  intro l
  induction l with
  | nil => intro aug e h; cases h
  | cons k l ih =>
    intro aug e h
    rw [forwardElim] at h
    split at h
    · rename_i e0 heq
      obtain ⟨-, hp⟩ := elimStep_error_shape aug k e0 heq
      exact ⟨[], k, l, rfl, aug, rfl, hp⟩
    · rename_i a heq
      obtain ⟨l1, k1, l2, hdec, aug1, hok, hp⟩ := ih a e h
      refine ⟨k :: l1, k1, l2, by rw [hdec]; rfl, aug1, ?_, hp⟩
      rw [forwardElim, heq]
      exact hok

/-- C5: singular-pivot failure. The pivot the solver selects at each stage
is the maximal absolute value in the active column among the remaining rows;
`solve_linear_system` fails if and only if at some elimination stage that
pivot's magnitude falls below `1e-15`, every failure being the
`SingularJacobian` condition; and `newton_solve` propagates such a failure
unchanged (the error returned is exactly the one the linear solver produced
at the current non-converged iterate), without retrying. -/
theorem c5_singular_pivot :
    ∀ (K : Type) (_ : LinearOrderedField K) (n : ℕ),
      (∀ (aug : Mat K n (n + 1)) (k : Fin n),
        (∃ r, k ≤ r ∧ pivotMag aug k = |aug r (Fin.castSucc k)|) ∧
        ∀ i, k ≤ i → |aug i (Fin.castSucc k)| ≤ pivotMag aug k) ∧
      (∀ (a : Mat K n n) (b : Vec K n),
        ((∃ e, solve_linear_system a b = .error e) ↔
          ∃ m : ℕ, ∃ hm : m < n, ∃ aug1,
            forwardElim (buildAug a b) ((List.finRange n).take m) = .ok aug1 ∧
            pivotMag aug1 ⟨m, hm⟩ < eps15) ∧
        (∀ e, solve_linear_system a b = .error e → e = .SingularJacobian 0)) ∧
      (∀ (sqrt : K → K) (f : Vec K n → Vec K n) (fjac : Vec K n → Mat K n n)
          (x0 : Vec K n) (tol : K) (M : ℕ) (q : K),
        newton_solve sqrt f fjac x0 tol M = .error (.SingularJacobian q) →
        ∃ k z, newtonIterates f fjac x0 k = .ok z ∧
          ¬ sqrt (∑ i, f z i * f z i) < tol ∧
          solve_linear_system (fjac z) (f z) = .error (.SingularJacobian q)) := by
  intro K _ n
  refine ⟨pivotMag_spec, ?_, ?_⟩
  · intro a b
    constructor
    · constructor
      · rintro ⟨e, he⟩
        unfold solve_linear_system at he
        split at he
        · rename_i e0 heq
          obtain ⟨l1, k, l2, hdec, aug1, hok, hp⟩ :=
            forwardElim_error_split (List.finRange n) (buildAug a b) e0 heq
          have hmlt : l1.length < n := by
            have := congrArg List.length hdec
            simp only [List.length_finRange, List.length_append, List.length_cons] at this
            omega
          have hlen : l1.length < (List.finRange n).length := by
            rw [List.length_finRange]
            exact hmlt
          have htake : (List.finRange n).take l1.length = l1 := by
            rw [hdec]
            exact List.take_left l1 _
          have hdrop : (List.finRange n).drop l1.length = k :: l2 := by
            rw [hdec]
            exact List.drop_left l1 _
          rw [List.drop_eq_getElem_cons hlen] at hdrop
          have hk : (List.finRange n)[l1.length] = k := (List.cons.injEq _ _ _ _ ▸ hdrop).1
          have hkval : k = ⟨l1.length, hmlt⟩ := by
            rw [← hk]
            apply Fin.ext
            simp [List.getElem_finRange]
          refine ⟨l1.length, hmlt, aug1, ?_, ?_⟩
          · rw [htake]
            exact hok
          · rw [← hkval]
            exact hp
        · cases he
      · rintro ⟨m, hm, aug1, hok, hp⟩
        refine ⟨.SingularJacobian 0, ?_⟩
        unfold solve_linear_system
        have hlen : m < (List.finRange n).length := by
          rw [List.length_finRange]
          exact hm
        have hsplit : List.finRange n =
            (List.finRange n).take m ++ (⟨m, hm⟩ : Fin n) :: (List.finRange n).drop (m + 1) := by
          conv_lhs => rw [← List.take_append_drop m (List.finRange n)]
          rw [List.drop_eq_getElem_cons hlen]
          have : (List.finRange n)[m] = (⟨m, hm⟩ : Fin n) := by
            apply Fin.ext
            simp [List.getElem_finRange]
          rw [this]
        rw [hsplit, forwardElim_append, hok]
        have hfe : forwardElim aug1 ((⟨m, hm⟩ : Fin n) :: (List.finRange n).drop (m + 1)) =
            .error (.SingularJacobian 0) := by
          rw [forwardElim, elimStep_error_of_pivot aug1 ⟨m, hm⟩ hp]
        show (match forwardElim aug1 ((⟨m, hm⟩ : Fin n) :: (List.finRange n).drop (m + 1)) with
          | .error e => Except.error e
          | .ok aug2 => Except.ok (backSubstitute aug2)) = .error (.SingularJacobian 0)
        rw [hfe]
    · intro e he
      exact solve_linear_system_error_shape a b e he
  · intro sqrt f fjac x0 tol M q h
    exact newtonGo_singular sqrt f fjac tol M M 0 x0 q h

/- ====================================================================
   Linear-solve round-trip (C4): exact partial correctness of
   Gaussian elimination with partial pivoting
   ==================================================================== -/

/-- `x` solves every row of the augmented system `[A|b]` held in `M`. -/
def RowsEq (M : Mat K n (n + 1)) (x : Vec K n) : Prop :=
  ∀ i, ∑ j, M i (Fin.castSucc j) * x j = M i (Fin.last n)

/-- Entries below the diagonal vanish in the first `m` columns. -/
def TriBelow (m : ℕ) (M : Mat K n (n + 1)) : Prop :=
  ∀ i j : Fin n, (j : ℕ) < m → (j : ℕ) < (i : ℕ) → M i (Fin.castSucc j) = 0

/-- The first `m` diagonal entries are nonzero. -/
def DiagNZ (m : ℕ) (M : Mat K n (n + 1)) : Prop :=
  ∀ j : Fin n, (j : ℕ) < m → M j (Fin.castSucc j) ≠ 0

theorem eps15_pos : (0 : K) < eps15 := by norm_num [eps15]

theorem pivotSelect_row (aug : Mat K n (n + 1)) (k : Fin n) :
    k ≤ (pivotSelect aug k).1 ∧
      (pivotSelect aug k).2 = |aug (pivotSelect aug k).1 (Fin.castSucc k)| := by
  have h := pivotFold_spec aug k (List.finRange n) (k, |aug k (Fin.castSucc k)|) rfl (le_refl k)
  rw [← pivotSelect_eq_fold] at h
  exact ⟨h.2.1, h.1⟩

theorem castSucc_coe_lt {j : Fin (n + 1)} (h : (j : ℕ) < n) :
    j = Fin.castSucc ⟨(j : ℕ), h⟩ := by
  apply Fin.ext
  rfl

set_option maxHeartbeats 1000000 in
theorem elimStep_ok_spec (M : Mat K n (n + 1)) (k : Fin n) (M' : Mat K n (n + 1)) :
    TriBelow (k : ℕ) M → DiagNZ (k : ℕ) M → elimStep M k = .ok M' →
    TriBelow ((k : ℕ) + 1) M' ∧ DiagNZ ((k : ℕ) + 1) M' ∧
      ∀ x, (RowsEq M' x ↔ RowsEq M x) := by
  intro htri hdiag hok
  unfold elimStep at hok
  dsimp only at hok
  split at hok
  · cases hok
  · rename_i hpiv
    cases hok
    set r := (pivotSelect M k).1 with hr
    set sw : Mat K n (n + 1) :=
      if r = k then M
      else fun i j => if i = k then M r j else if i = r then M k j else M i j with hsw
    have hrk : k ≤ r := (pivotSelect_row M k).1
    have habs : (pivotSelect M k).2 = |M r (Fin.castSucc k)| := (pivotSelect_row M k).2
    have hswk : sw k (Fin.castSucc k) = M r (Fin.castSucc k) := by
      rw [hsw]
      by_cases hr0 : r = k
      · rw [if_pos hr0, hr0]
      · rw [if_neg hr0, if_pos rfl]
    have hpivot_ne : sw k (Fin.castSucc k) ≠ 0 := by
      rw [hswk]
      intro hzero
      rw [hzero] at habs
      rw [abs_zero] at habs
      rw [habs] at hpiv
      exact hpiv eps15_pos
    have htri_sw : TriBelow (k : ℕ) sw := by
      intro i j hjk hji
      rw [hsw]
      by_cases hr0 : r = k
      · rw [if_pos hr0]
        exact htri i j hjk hji
      · rw [if_neg hr0]
        by_cases h1 : i = k
        · simp only [if_pos h1]
          refine htri r j hjk ?_
          have h3 : (k : ℕ) ≤ (r : ℕ) := hrk
          omega
        · by_cases h2 : i = r
          · simp only [if_neg h1, if_pos h2]
            exact htri k j hjk hjk
          · simp only [if_neg h1, if_neg h2]
            exact htri i j hjk hji
    have hdiag_sw : DiagNZ (k : ℕ) sw := by
      intro j hjk
      rw [hsw]
      by_cases hr0 : r = k
      · rw [if_pos hr0]
        exact hdiag j hjk
      · rw [if_neg hr0]
        have h1 : j ≠ k := fun h => by rw [h] at hjk; omega
        have h2 : j ≠ r := by
          intro h
          rw [h] at hjk
          have : (k : ℕ) ≤ (r : ℕ) := hrk
          omega
        simp only [if_neg h1, if_neg h2]
        exact hdiag j hjk
    have hEqnRow : ∀ (x : Vec K n) (A B : Mat K n (n + 1)) (a b : Fin n),
        (∀ j, A a j = B b j) →
        ((∑ j, A a (Fin.castSucc j) * x j = A a (Fin.last n)) ↔
          (∑ j, B b (Fin.castSucc j) * x j = B b (Fin.last n))) := by
      intro x A B a b hab
      rw [Finset.sum_congr rfl (fun j _ => by rw [hab]), hab]
    have hswEq : ∀ x, RowsEq sw x ↔ RowsEq M x := by
      intro x
      by_cases hr0 : r = k
      · rw [hsw, if_pos hr0]
      · have hk_row : ∀ j, sw k j = M r j := by
          intro j
          rw [hsw, if_neg hr0]
          simp
        have hr_row : ∀ j, sw r j = M k j := by
          intro j
          rw [hsw, if_neg hr0]
          simp [hr0]
        have ho_row : ∀ i, i ≠ k → i ≠ r → ∀ j, sw i j = M i j := by
          intro i h1 h2 j
          rw [hsw, if_neg hr0]
          simp [h1, h2]
        constructor
        · intro h i
          by_cases h1 : i = k
          · rw [h1]
            exact (hEqnRow x sw M r k hr_row).1 (h r)
          · by_cases h2 : i = r
            · rw [h2]
              exact (hEqnRow x sw M k r hk_row).1 (h k)
            · exact (hEqnRow x sw M i i (ho_row i h1 h2)).1 (h i)
        · intro h i
          by_cases h1 : i = k
          · rw [h1]
            exact (hEqnRow x sw M k r hk_row).2 (h r)
          · by_cases h2 : i = r
            · rw [h2]
              exact (hEqnRow x sw M r k hr_row).2 (h k)
            · exact (hEqnRow x sw M i i (ho_row i h1 h2)).2 (h i)
    -- the eliminated matrix
    have hMle : ∀ (i : Fin n), ¬ k < i → ∀ j : Fin (n + 1),
        (fun (i : Fin n) (j : Fin (n + 1)) =>
          if k < i ∧ (k : ℕ) ≤ (j : ℕ) then
            sw i j - sw i (Fin.castSucc k) / sw k (Fin.castSucc k) * sw k j
          else sw i j) i j = sw i j := by
      intro i hki j
      simp only [hki, false_and, if_false]
    have hMrow : ∀ (i : Fin n), k < i → ∀ j : Fin (n + 1),
        (fun (i : Fin n) (j : Fin (n + 1)) =>
          if k < i ∧ (k : ℕ) ≤ (j : ℕ) then
            sw i j - sw i (Fin.castSucc k) / sw k (Fin.castSucc k) * sw k j
          else sw i j) i j =
          sw i j - sw i (Fin.castSucc k) / sw k (Fin.castSucc k) * sw k j := by
      intro i hki j
      by_cases hj : (k : ℕ) ≤ (j : ℕ)
      · simp only [hki, hj, and_self, if_true]
      · have hjn : (j : ℕ) < n := by
          have := k.isLt
          omega
        have hzero : sw k j = 0 := by
          rw [castSucc_coe_lt hjn]
          exact htri_sw k ⟨(j : ℕ), hjn⟩ (show (j : ℕ) < (k : ℕ) by omega)
            (show (j : ℕ) < (k : ℕ) by omega)
        simp only [hki, hj, and_false, if_false, hzero, mul_zero, sub_zero]
    refine ⟨?_, ?_, ?_⟩
    · -- TriBelow (k+1)
      intro i j hjk1 hji
      rcases Nat.lt_or_ge (j : ℕ) (k : ℕ) with hjk | hjk
      · by_cases hki : k < i
        · rw [hMrow i hki]
          rw [htri_sw i j hjk hji, htri_sw k j hjk (by omega)]
          ring
        · rw [hMle i hki]
          exact htri_sw i j hjk hji
      · have hjeq : (j : ℕ) = (k : ℕ) := by omega
        have hki : k < i := by
          rw [Fin.lt_def]
          omega
        rw [hMrow i hki]
        have hjk' : Fin.castSucc j = Fin.castSucc k := by
          apply Fin.ext
          exact hjeq
        rw [hjk', div_mul_cancel₀ _ hpivot_ne, sub_self]
    · -- DiagNZ (k+1)
      intro j hjk1
      rcases Nat.lt_or_ge (j : ℕ) (k : ℕ) with hjk | hjk
      · rw [hMle j (by rw [Fin.lt_def]; omega)]
        exact hdiag_sw j hjk
      · have hjeq : j = k := by
          apply Fin.ext
          omega
        subst hjeq
        rw [hMle j (lt_irrefl j)]
        exact hpivot_ne
    · -- RowsEq equivalence
      intro x
      refine Iff.trans ?_ (hswEq x)
      have hsumRow : ∀ (i : Fin n), k < i →
          ∑ j, (fun (i : Fin n) (j : Fin (n + 1)) =>
            if k < i ∧ (k : ℕ) ≤ (j : ℕ) then
              sw i j - sw i (Fin.castSucc k) / sw k (Fin.castSucc k) * sw k j
            else sw i j) i (Fin.castSucc j) * x j =
          (∑ j, sw i (Fin.castSucc j) * x j) -
            sw i (Fin.castSucc k) / sw k (Fin.castSucc k) *
              ∑ j, sw k (Fin.castSucc j) * x j := by
        intro i hki
        rw [Finset.mul_sum, ← Finset.sum_sub_distrib]
        refine Finset.sum_congr rfl (fun j _ => ?_)
        rw [hMrow i hki (Fin.castSucc j)]
        ring
      constructor
      · intro h i
        by_cases hki : k < i
        · have hi := h i
          have hk := h k
          rw [hsumRow i hki, hMrow i hki (Fin.last n)] at hi
          rw [Finset.sum_congr rfl (fun j _ => by rw [hMle k (lt_irrefl k)]),
            hMle k (lt_irrefl k)] at hk
          rw [hk] at hi
          linarith [hi]
        · have hi := h i
          rw [Finset.sum_congr rfl (fun j _ => by rw [hMle i hki]), hMle i hki] at hi
          exact hi
      · intro h i
        by_cases hki : k < i
        · have hi := h i
          have hk := h k
          rw [hsumRow i hki, hMrow i hki (Fin.last n), hi, hk]
        · rw [Finset.sum_congr rfl (fun j _ => by rw [hMle i hki]), hMle i hki]
          exact h i

theorem forwardElim_invariants :
    ∀ (l : List (Fin n)) (m : ℕ), l = (List.finRange n).drop m →
      ∀ (M M' : Mat K n (n + 1)), TriBelow m M → DiagNZ m M →
        forwardElim M l = .ok M' →
        TriBelow n M' ∧ DiagNZ n M' ∧ ∀ x, (RowsEq M' x ↔ RowsEq M x) := by
  intro l
  induction l with
  | nil =>
    intro m hl M M' htri hdiag hok
    cases hok
    have hmn : n ≤ m := by
      have := congrArg List.length hl
      simp only [List.length_nil, List.length_drop, List.length_finRange] at this
      omega
    exact ⟨fun i j hj hji => htri i j (by omega) hji, fun j hj => hdiag j (by omega),
      fun x => Iff.rfl⟩
  | cons k l ih =>
    intro m hl M M' htri hdiag hok
    have hmn : m < n := by
      have := congrArg List.length hl
      simp only [List.length_cons, List.length_drop, List.length_finRange] at this
      omega
    have hlen : m < (List.finRange n).length := by
      rw [List.length_finRange]
      exact hmn
    rw [List.drop_eq_getElem_cons hlen] at hl
    have hk : k = ⟨m, hmn⟩ := by
      have h1 := (List.cons.injEq _ _ _ _ ▸ hl).1
      rw [h1]
      apply Fin.ext
      simp [List.getElem_finRange]
    have hltail : l = (List.finRange n).drop (m + 1) := (List.cons.injEq _ _ _ _ ▸ hl).2
    have hkval : (k : ℕ) = m := by rw [hk]
    rw [forwardElim] at hok
    split at hok
    · cases hok
    · rename_i M1 heq
      obtain ⟨ht1, hd1, hiff1⟩ := elimStep_ok_spec M k M1
        (by rw [hkval]; exact htri) (by rw [hkval]; exact hdiag) heq
      obtain ⟨ht2, hd2, hiff2⟩ := ih (m + 1) hltail M1 M'
        (by rw [← hkval]; exact ht1) (by rw [← hkval]; exact hd1) hok
      exact ⟨ht2, hd2, fun x => Iff.trans (hiff2 x) (hiff1 x)⟩

/-- The loop body of back substitution (the assignment to `x[i]`). -/
def backStep (M : Mat K n (n + 1)) : Vec K n → Fin n → Vec K n :=
  fun x i =>
    Function.update x i
      ((M i (Fin.last n) -
          ∑ j ∈ Finset.univ.filter (fun j => i < j), M i (Fin.castSucc j) * x j) /
        M i (Fin.castSucc i))

theorem backSubstitute_eq_fold (M : Mat K n (n + 1)) :
    backSubstitute M = (List.finRange n).reverse.foldl (backStep M) (fun _ => 0) := rfl

/-- The array after the first `t` iterations of back substitution. -/
def partialBack (M : Mat K n (n + 1)) (t : ℕ) : Vec K n :=
  ((List.finRange n).reverse.take t).foldl (backStep M) (fun _ => 0)

theorem partialBack_full (M : Mat K n (n + 1)) : backSubstitute M = partialBack M n := by
  rw [backSubstitute_eq_fold, partialBack]
  rw [List.take_of_length_le (by simp [List.length_reverse, List.length_finRange])]

theorem reverse_finRange_getElem (t : ℕ) (ht : t < n) :
    ((List.finRange n).reverse)[t]? = some (⟨n - 1 - t, by omega⟩ : Fin n) := by
  have hlen : t < ((List.finRange n).reverse).length := by
    simp [List.length_reverse, List.length_finRange]
    omega
  rw [List.getElem?_eq_getElem hlen]
  congr 1
  rw [List.getElem_reverse]
  apply Fin.ext
  simp [List.getElem_finRange, List.length_finRange]

theorem partialBack_succ (M : Mat K n (n + 1)) (t : ℕ) (ht : t < n) :
    partialBack M (t + 1) =
      backStep M (partialBack M t) ⟨n - 1 - t, by omega⟩ := by
  unfold partialBack
  have hlen : t < ((List.finRange n).reverse).length := by
    simp [List.length_reverse, List.length_finRange]
    omega
  rw [List.take_succ]
  rw [reverse_finRange_getElem t ht]
  rw [Option.toList_some, List.foldl_append]
  rfl

theorem partialBack_stable (M : Mat K n (n + 1)) (t : ℕ) (ht : t < n) (j : Fin n)
    (hj : n - t ≤ (j : ℕ)) : partialBack M (t + 1) j = partialBack M t j := by
  rw [partialBack_succ M t ht]
  unfold backStep
  refine Function.update_noteq ?_ _ _
  intro hje
  have : (j : ℕ) = n - 1 - t := by rw [hje]
  omega

theorem partialBack_stable_chain (M : Mat K n (n + 1)) (t : ℕ) :
    ∀ (s : ℕ), t + s ≤ n → ∀ (j : Fin n), n - t ≤ (j : ℕ) →
      partialBack M (t + s) j = partialBack M t j := by
  intro s
  induction s with
  | zero => intro _ j _; rfl
  | succ s ihs =>
    intro hs j hj
    rw [show t + (s + 1) = (t + s) + 1 by omega]
    rw [partialBack_stable M (t + s) (by omega) j (by omega)]
    exact ihs (by omega) j hj

theorem backSubstitute_char (M : Mat K n (n + 1)) (i : Fin n) :
    backSubstitute M i =
      (M i (Fin.last n) -
          ∑ j ∈ Finset.univ.filter (fun j => i < j),
            M i (Fin.castSucc j) * backSubstitute M j) /
        M i (Fin.castSucc i) := by
  have hin : (i : ℕ) < n := i.isLt
  set t : ℕ := n - 1 - (i : ℕ) with hts
  have hti : (i : ℕ) = n - 1 - t := by omega
  have htn : t < n := by omega
  have hieq : (⟨n - 1 - t, by omega⟩ : Fin n) = i := by
    apply Fin.ext
    show n - 1 - t = (i : ℕ)
    omega
  have h1 : backSubstitute M i = partialBack M (t + 1) i := by
    rw [partialBack_full]
    have hch := partialBack_stable_chain M (t + 1) (n - t - 1) (by omega) i (by omega)
    rw [show (t + 1) + (n - t - 1) = n by omega] at hch
    exact hch
  rw [h1, partialBack_succ M t htn, hieq]
  unfold backStep
  rw [Function.update_same]
  congr 1
  congr 1
  refine Finset.sum_congr rfl ?_
  intro j hjmem
  have hij : i < j := (Finset.mem_filter.1 hjmem).2
  have hjval : n - t ≤ (j : ℕ) := by
    have : (i : ℕ) < (j : ℕ) := hij
    omega
  congr 1
  rw [partialBack_full]
  have hch := partialBack_stable_chain M t (n - t) (by omega) j hjval
  rw [show t + (n - t) = n by omega] at hch
  exact hch.symm

/-- Splitting a sum over `Fin n` at an index. -/
theorem sum_split_at (f : Fin n → K) (i : Fin n) :
    ∑ j, f j =
      (∑ j ∈ Finset.univ.filter (fun j => j < i), f j) + f i +
        ∑ j ∈ Finset.univ.filter (fun j => i < j), f j := by
  rw [← Finset.sum_filter_add_sum_filter_not Finset.univ (fun j => j < i) f]
  have hset : Finset.univ.filter (fun j => ¬ j < i) =
      insert i (Finset.univ.filter (fun j => i < j)) := by
    ext j
    simp only [Finset.mem_filter, Finset.mem_univ, true_and, Finset.mem_insert, not_lt]
    constructor
    · intro h
      rcases eq_or_lt_of_le h with h1 | h1
      · exact Or.inl h1.symm
      · exact Or.inr h1
    · rintro (rfl | h1)
      · exact le_refl _
      · exact le_of_lt h1
  rw [hset, Finset.sum_insert (by simp)]
  ring

theorem backSubstitute_spec (M : Mat K n (n + 1)) :
    TriBelow n M → DiagNZ n M → RowsEq M (backSubstitute M) := by
  intro htri hdiag i
  rw [sum_split_at (fun j => M i (Fin.castSucc j) * backSubstitute M j) i]
  have hlow : (∑ j ∈ Finset.univ.filter (fun j => j < i),
      M i (Fin.castSucc j) * backSubstitute M j) = 0 := by
    refine Finset.sum_eq_zero ?_
    intro j hjmem
    have hji : j < i := (Finset.mem_filter.1 hjmem).2
    rw [htri i j j.isLt hji, zero_mul]
  have hdi : M i (Fin.castSucc i) ≠ 0 := hdiag i i.isLt
  rw [hlow, backSubstitute_char M i, mul_div_cancel₀ _ hdi]
  ring

theorem buildAug_castSucc (a : Mat K n n) (b : Vec K n) (i j : Fin n) :
    buildAug a b i (Fin.castSucc j) = a i j := by
  unfold buildAug
  rw [dif_pos (show ((Fin.castSucc j : Fin (n + 1)) : ℕ) < n from j.isLt)]
  exact congrArg (a i) (Fin.ext rfl)

theorem buildAug_last (a : Mat K n n) (b : Vec K n) (i : Fin n) :
    buildAug a b i (Fin.last n) = b i := by
  unfold buildAug
  rw [dif_neg (by simp)]

theorem forwardElim_ok_of_pivots (a : Mat K n n) (b : Vec K n) :
    (∀ (m : ℕ) (hm : m < n) (aug1 : Mat K n (n + 1)),
        forwardElim (buildAug a b) ((List.finRange n).take m) = .ok aug1 →
        ¬ pivotMag aug1 ⟨m, hm⟩ < eps15) →
    ∃ M', forwardElim (buildAug a b) (List.finRange n) = .ok M' := by
  intro hp
  have main : ∀ m, m ≤ n →
      ∃ M', forwardElim (buildAug a b) ((List.finRange n).take m) = .ok M' := by
    intro m
    induction m with
    | zero => intro _; exact ⟨buildAug a b, rfl⟩
    | succ m ihm =>
      intro hm1
      obtain ⟨M1, hM1⟩ := ihm (by omega)
      have hmn : m < n := by omega
      have hlen : m < (List.finRange n).length := by
        rw [List.length_finRange]
        exact hmn
      have htake : (List.finRange n).take (m + 1) =
          (List.finRange n).take m ++ [(⟨m, hmn⟩ : Fin n)] := by
        rw [List.take_succ, List.getElem?_eq_getElem hlen]
        have : (List.finRange n)[m] = (⟨m, hmn⟩ : Fin n) := by
          apply Fin.ext
          simp [List.getElem_finRange]
        rw [this, Option.toList_some]
      obtain ⟨M2, hM2⟩ := elimStep_ok_of_pivot M1 ⟨m, hmn⟩ (hp m hmn M1 hM1)
      refine ⟨M2, ?_⟩
      rw [htake, forwardElim_append, hM1]
      show forwardElim M1 [(⟨m, hmn⟩ : Fin n)] = .ok M2
      rw [forwardElim, hM2]
      rfl
  obtain ⟨M', hM'⟩ := main n (le_refl n)
  rw [List.take_of_length_le (by rw [List.length_finRange])] at hM'
  exact ⟨M', hM'⟩

/-- A nonsingular 1×1 system over ℚ whose (exact) solution exists, yet the
solver rejects it: the single entry `1e-20` is nonzero but below the `1e-15`
pivot threshold. -/
def c4A : Mat ℚ 1 1 := fun _ _ => 1 / 100000000000000000000

def c4b : Vec ℚ 1 := fun _ => 1

def c4x : Vec ℚ 1 := fun _ => 100000000000000000000

/-- C4 counterexample: `c4A` is nonsingular (nonzero 1×1 entry, with the
exact solution `c4x`), yet `solve_linear_system` fails with
`SingularJacobian` — so the claim's "for every nonsingular A the solve
succeeds" is false as stated. -/
theorem c4_counterexample :
    solve_linear_system c4A c4b = .error (.SingularJacobian 0) ∧
    c4A 0 0 ≠ 0 ∧ (∑ j, c4A 0 j * c4x j) = c4b 0 := by
  refine ⟨by with_unfolding_all rfl, by norm_num [c4A], ?_⟩
  rw [Fin.sum_univ_one]
  norm_num [c4A, c4b, c4x]

/-- C4 (amended): in exact arithmetic, whenever `solve_linear_system A b`
succeeds the returned `x` satisfies `A·x = b` exactly; and success is
guaranteed whenever every elimination-stage pivot has magnitude at least
`1e-15` (which nonsingularity alone does not ensure — see the
counterexample with a nonzero entry below the threshold). -/
theorem c4_linear_solve_round_trip :
    ∀ (K : Type) (_ : LinearOrderedField K) (n : ℕ) (a : Mat K n n) (b : Vec K n),
      (∀ x, solve_linear_system a b = .ok x → ∀ i, ∑ j, a i j * x j = b i) ∧
      ((∀ (m : ℕ) (hm : m < n) (aug1 : Mat K n (n + 1)),
          forwardElim (buildAug a b) ((List.finRange n).take m) = .ok aug1 →
          ¬ pivotMag aug1 ⟨m, hm⟩ < eps15) →
        ∃ x, solve_linear_system a b = .ok x) := by
  intro K _ n a b
  constructor
  · intro x hok i
    unfold solve_linear_system at hok
    split at hok
    · cases hok
    · rename_i M' heq
      cases hok
      obtain ⟨htri, hdiag, hiff⟩ := forwardElim_invariants (List.finRange n) 0
        (by rw [List.drop_zero]) (buildAug a b) M'
        (fun i j hj _ => absurd hj (Nat.not_lt_zero _))
        (fun j hj => absurd hj (Nat.not_lt_zero _)) heq
      have hrows := (hiff (backSubstitute M')).1 (backSubstitute_spec M' htri hdiag)
      have h1 := hrows i
      rw [Finset.sum_congr rfl (fun j _ => by rw [buildAug_castSucc]), buildAug_last] at h1
      exact h1
  · intro hp
    obtain ⟨M', hM'⟩ := forwardElim_ok_of_pivots a b hp
    refine ⟨backSubstitute M', ?_⟩
    unfold solve_linear_system
    rw [hM']

/- ====================================================================
   Tangent postconditions (C7), at K := ℝ with sqrt := Real.sqrt
   ==================================================================== -/

theorem tangent2_unit (t1 : Vec ℝ (n + 1)) (hlast : t1 (Fin.last n) = 1) :
    (∑ j, (t1 j / Real.sqrt (∑ i, t1 i * t1 i)) * (t1 j / Real.sqrt (∑ i, t1 i * t1 i))) = 1 ∧
    0 < t1 (Fin.last n) / Real.sqrt (∑ i, t1 i * t1 i) := by
  have hS0 : (0 : ℝ) ≤ ∑ i, t1 i * t1 i :=
    Finset.sum_nonneg (fun i _ => mul_self_nonneg (t1 i))
  have hS1 : (1 : ℝ) ≤ ∑ i, t1 i * t1 i := by
    have h2 : t1 (Fin.last n) * t1 (Fin.last n) ≤ ∑ i, t1 i * t1 i :=
      Finset.single_le_sum (f := fun i => t1 i * t1 i)
        (fun i _ => mul_self_nonneg (t1 i)) (Finset.mem_univ (Fin.last n))
    rw [hlast] at h2
    linarith
  have hSne : (∑ i, t1 i * t1 i) ≠ 0 := by linarith
  have hnm_pos : 0 < Real.sqrt (∑ i, t1 i * t1 i) := Real.sqrt_pos.2 (by linarith)
  constructor
  · have hterm : ∀ j : Fin (n + 1),
        (t1 j / Real.sqrt (∑ i, t1 i * t1 i)) * (t1 j / Real.sqrt (∑ i, t1 i * t1 i)) =
          (t1 j * t1 j) / (∑ i, t1 i * t1 i) := by
      intro j
      rw [div_mul_div_comm, Real.mul_self_sqrt hS0]
    rw [Finset.sum_congr rfl (fun j _ => hterm j), ← Finset.sum_div, div_self hSne]
  · rw [hlast]
    positivity

theorem preTangentOf_last (res : Except (AutoError K) (Vec K n)) :
    preTangentOf res (Fin.last n) = 1 := by
  unfold preTangentOf
  dsimp only
  split
  · rw [dif_neg (by simp [Fin.val_last])]
    simp [Fin.val_last]
  · simp [Fin.val_last]

theorem normalizeFlip_spec (forward : Bool) (t1 : Vec ℝ (n + 1))
    (h1 : t1 (Fin.last n) = 1) :
    Real.sqrt (∑ j, normalizeFlip Real.sqrt forward t1 j *
        normalizeFlip Real.sqrt forward t1 j) = 1 ∧
    (forward = true → 0 < normalizeFlip Real.sqrt forward t1 (Fin.last n)) ∧
    (forward = false → normalizeFlip Real.sqrt forward t1 (Fin.last n) < 0) := by
  obtain ⟨hu, hp⟩ := tangent2_unit t1 h1
  unfold normalizeFlip
  dsimp only
  split
  case _ hcond =>
    refine ⟨?_, ?_, ?_⟩
    · rw [Finset.sum_congr rfl (fun j _ => by rw [neg_mul_neg]), hu, Real.sqrt_one]
    · intro hf
      rcases hcond with ⟨hf2, -⟩ | ⟨-, habs⟩
      · rw [hf] at hf2
        cases hf2
      · exact absurd hp (not_lt.2 (le_of_lt habs))
    · intro _
      simpa using hp
  case _ hcond =>
    refine ⟨?_, ?_, ?_⟩
    · rw [hu, Real.sqrt_one]
    · intro _
      exact hp
    · intro hf
      exact absurd (Or.inl ⟨hf, hp⟩) hcond

/-- The structured postcondition of `compute_initial_tangent`: unit
Euclidean norm, and the parameter component strictly positive for a forward
run and strictly negative for a backward one. -/
theorem compute_initial_tangent_spec (sys : OdeSystem ℝ n) (x : Vec ℝ n) (par : ℝ)
    (forward : Bool) :
    Real.sqrt (∑ j, compute_initial_tangent Real.sqrt sys x par forward j *
        compute_initial_tangent Real.sqrt sys x par forward j) = 1 ∧
    (forward = true → 0 < compute_initial_tangent Real.sqrt sys x par forward (Fin.last n)) ∧
    (forward = false → compute_initial_tangent Real.sqrt sys x par forward (Fin.last n) < 0) := by
  unfold compute_initial_tangent
  exact normalizeFlip_spec forward (preTangent sys x par) (preTangentOf_last _)

/-- C7: every tangent the arclength code produces has unit Euclidean norm;
the initial tangent's parameter component agrees in sign with the requested
continuation direction (positive forward, negative backward); and a tangent
computed at a new point has nonnegative dot product with the previous
tangent, the sign being flipped exactly when the raw dot product is
negative. -/
theorem c7_tangent_postconditions :
    ∀ (n : ℕ) (sys : OdeSystem ℝ n) (x : Vec ℝ n) (par : ℝ) (forward : Bool)
      (prev : Vec ℝ (n + 1)),
      Real.sqrt (∑ j, compute_initial_tangent Real.sqrt sys x par forward j *
          compute_initial_tangent Real.sqrt sys x par forward j) = 1 ∧
      (forward = true →
        0 < compute_initial_tangent Real.sqrt sys x par forward (Fin.last n)) ∧
      (forward = false →
        compute_initial_tangent Real.sqrt sys x par forward (Fin.last n) < 0) ∧
      Real.sqrt (∑ j, compute_tangent Real.sqrt sys x par prev j *
          compute_tangent Real.sqrt sys x par prev j) = 1 ∧
      0 ≤ ∑ j, compute_tangent Real.sqrt sys x par prev j * prev j := by
  intro n sys x par forward prev
  obtain ⟨hu, hpos, hneg⟩ := compute_initial_tangent_spec sys x par forward
  obtain ⟨hu1, -, -⟩ := compute_initial_tangent_spec sys x par true
  refine ⟨hu, hpos, hneg, ?_, ?_⟩
  · unfold compute_tangent
    split
    · rw [Finset.sum_congr rfl (fun j _ => by rw [neg_mul_neg])]
      exact hu1
    · exact hu1
  · unfold compute_tangent
    split
    case _ hdot =>
      have : ∑ j, -(compute_initial_tangent Real.sqrt sys x par true j) * prev j =
          -∑ j, compute_initial_tangent Real.sqrt sys x par true j * prev j := by
        rw [← Finset.sum_neg_distrib]
        exact Finset.sum_congr rfl (fun j _ => neg_mul _ _)
      rw [this]
      linarith
    case _ hdot =>
      exact not_lt.1 hdot


/- ====================================================================
   The C2 run: natural continuation on the fold normal form
   ==================================================================== -/

/-- The 1×1 matrix with the given entry. -/
def matOne (a : K) : Mat K 1 1 := fun _ _ => a

/-- The 1-dimensional vector with the given entry. -/
def vecOne (b : K) : Vec K 1 := fun _ => b

theorem sqrt_mul_self_abs (v : ℝ) : Real.sqrt (v * v) = |v| := by
  rw [show v * v = v ^ 2 by ring, Real.sqrt_sq_eq_abs]

/-- The linear solver on a 1×1 system whose pivot passes the `1e-15` test:
Gaussian elimination degenerates to the single division `b / a`. -/
theorem solve1 (a b : ℝ) (h : ¬ |a| < eps15) :
    solve_linear_system (matOne a) (vecOne b) = .ok (vecOne (b / a)) := by
  unfold solve_linear_system
  have h1 : forwardElim (buildAug (matOne a) (vecOne b)) (List.finRange 1) =
      .ok (buildAug (matOne a) (vecOne b)) := by
    have hfr : List.finRange 1 = [0] := rfl
    rw [hfr, forwardElim]
    have hstep : elimStep (buildAug (matOne a) (vecOne b)) 0 =
        .ok (buildAug (matOne a) (vecOne b)) := by
      unfold elimStep
      dsimp only
      rw [if_neg (by rw [show (pivotSelect (buildAug (matOne a) (vecOne b)) 0).2 = |a| from rfl]; exact h)]
      congr 1
      funext i j
      have hi : i = 0 := Subsingleton.elim i 0
      rw [if_neg (by rw [hi]; exact fun hc => absurd hc.1 (lt_irrefl 0))]
      rw [if_pos (show (pivotSelect (buildAug (matOne a) (vecOne b)) 0).1 = 0 from rfl)]
    rw [hstep]
    rfl
  rw [h1]
  show Except.ok (backSubstitute (buildAug (matOne a) (vecOne b))) = _
  congr 1
  funext i
  have hi : i = 0 := Subsingleton.elim i 0
  rw [hi]
  show backSubstitute (buildAug (matOne a) (vecOne b)) 0 = b / a
  unfold backSubstitute
  rw [show (List.finRange 1).reverse = [0] from rfl]
  rw [List.foldl_cons, List.foldl_nil, Function.update_same]
  rw [show buildAug (matOne a) (vecOne b) 0 (Fin.last 1) = b from rfl]
  rw [show buildAug (matOne a) (vecOne b) 0 (Fin.castSucc 0) = a from rfl]
  rw [show (Finset.univ.filter (fun j : Fin 1 => (0:Fin 1) < j)) = ∅ from rfl]
  rw [Finset.sum_empty]
  ring

/-- One non-converged Newton iteration on the fold normal form at a constant
state vector: residual at least the tolerance, pivot above the `1e-15`
threshold, state updated by the Newton correction. -/
theorem foldStep (par tol : ℝ) (M fuel iter : ℕ) (y z : ℝ)
    (hz : z = y - (par - y * y) / (-2 * y))
    (hnorm : ¬ Real.sqrt ((par - y * y) * (par - y * y)) < tol)
    (hpiv : ¬ |(-2 : ℝ) * y| < eps15) :
    newtonGo Real.sqrt (fun x => FoldNormalForm.rhs x par)
        (fun x => systemJacobian FoldNormalForm x par) tol M (fuel + 1) iter (fun _ => y) =
      newtonGo Real.sqrt (fun x => FoldNormalForm.rhs x par)
        (fun x => systemJacobian FoldNormalForm x par) tol M fuel (iter + 1) (fun _ => z) := by
  subst hz
  rw [newtonGo]
  dsimp only [FoldNormalForm, systemJacobian, Option.getD]
  rw [Fin.sum_univ_one]
  rw [if_neg hnorm]
  rw [show solve_linear_system (fun _ _ => -2 * y) (fun _ => par - y * y) =
      solve_linear_system (matOne (-2 * y)) (vecOne (par - y * y)) from rfl]
  rw [solve1 _ _ hpiv]
  rfl

/-- A converged Newton check on the fold normal form at a constant state. -/
theorem foldDone (par tol : ℝ) (M fuel iter : ℕ) (y : ℝ)
    (hnorm : Real.sqrt ((par - y * y) * (par - y * y)) < tol) :
    newtonGo Real.sqrt (fun x => FoldNormalForm.rhs x par)
        (fun x => systemJacobian FoldNormalForm x par) tol M (fuel + 1) iter (fun _ => y) =
      .ok (fun _ => y, iter + 1) := by
  rw [newtonGo]
  dsimp only [FoldNormalForm, systemJacobian, Option.getD]
  rw [Fin.sum_univ_one]
  rw [if_pos hnorm]

/-- Interval propagation for the fold-normal-form Newton update
`y ↦ y - (par - y²)/(-2y) = y/2 + par/(2y)` (monotone bounds). -/
theorem bab_step (par y l u lo hi : ℝ) (hb : l ≤ y ∧ y ≤ u) (h0 : 0 < l) (hpar : 0 ≤ par)
    (hlo : lo ≤ l / 2 + par / (2 * u)) (hhi : u / 2 + par / (2 * l) ≤ hi) :
    lo ≤ y - (par - y * y) / (-2 * y) ∧ y - (par - y * y) / (-2 * y) ≤ hi := by
  have hy : 0 < y := lt_of_lt_of_le h0 hb.1
  have hu : 0 < u := lt_of_lt_of_le hy hb.2
  have he : y - (par - y * y) / (-2 * y) = y / 2 + par / (2 * y) := by
    field_simp
    ring
  rw [he]
  constructor
  · have e1 : par / (2 * y) - par / (2 * u) = par * (u - y) / (2 * u * y) := by
      field_simp
      ring
    have h2 : 0 ≤ par * (u - y) / (2 * u * y) :=
      div_nonneg (mul_nonneg hpar (by linarith [hb.2])) (by positivity)
    have hb1 := hb.1
    linarith
  · have e2 : par / (2 * l) - par / (2 * y) = par * (y - l) / (2 * l * y) := by
      field_simp
      ring
    have h3 : 0 ≤ par * (y - l) / (2 * l * y) :=
      div_nonneg (mul_nonneg hpar (by linarith [hb.1])) (by positivity)
    have hb2 := hb.2
    linarith

/-- The convergence test fails when the state squared is at least `tol`
below the parameter. -/
theorem resid_big_low (par tol y l u : ℝ) (hb : l ≤ y ∧ y ≤ u) (h0 : 0 ≤ l)
    (h : u * u ≤ par - tol) : ¬ Real.sqrt ((par - y * y) * (par - y * y)) < tol := by
  rw [sqrt_mul_self_abs]
  have h1 : tol ≤ par - y * y := by nlinarith [hb.1, hb.2]
  exact not_lt.2 (le_trans h1 (le_abs_self _))

/-- The convergence test fails when the state squared is at least `tol`
above the parameter. -/
theorem resid_big_high (par tol y l u : ℝ) (hb : l ≤ y ∧ y ≤ u) (h0 : 0 ≤ l)
    (h : par + tol ≤ l * l) : ¬ Real.sqrt ((par - y * y) * (par - y * y)) < tol := by
  rw [sqrt_mul_self_abs]
  have h1 : tol ≤ -(par - y * y) := by nlinarith [hb.1, hb.2]
  exact not_lt.2 (le_trans h1 (neg_le_abs _))

/-- The convergence test passes when the squared state is within `tol` of
the parameter. -/
theorem resid_small (par tol y l u : ℝ) (hb : l ≤ y ∧ y ≤ u) (h0 : 0 ≤ l)
    (hlo : par - tol < l * l) (hhi : u * u < par + tol) :
    Real.sqrt ((par - y * y) * (par - y * y)) < tol := by
  rw [sqrt_mul_self_abs, abs_lt]
  constructor
  · nlinarith [hb.1, hb.2]
  · nlinarith [hb.1, hb.2]

/-- The `1e-15` pivot test of the linear solver passes on the fold Jacobian
`-2y` when `y` is bounded away from zero. -/
theorem fold_piv (y l : ℝ) (hl : l ≤ y) (h : eps15 ≤ 2 * l) : ¬ |(-2 : ℝ) * y| < eps15 := by
  have he : (eps15 : ℝ) = 1 / 1000000000000000 := rfl
  have hy : 0 < y := by
    rw [he] at h
    nlinarith
  have hneg : (-2 : ℝ) * y < 0 := by nlinarith
  rw [abs_of_neg hneg]
  exact not_lt.2 (by linarith)

/-- One accepted, non-final step of the natural-continuation loop on the
fold normal form. -/
theorem c2outerStep (params : ContinuationParams ℝ) (direction : ℝ) (fuel step : ℕ)
    (branch : ContinuationBranch ℝ 1) (state : Vec ℝ 1) (par arclength : ℝ)
    (X : Vec ℝ 1) (c : ℕ)
    (hsolve : newton_solve Real.sqrt (fun x => FoldNormalForm.rhs x par)
        (fun x => systemJacobian FoldNormalForm x par) state params.newton_tol
        params.newton_max_iter = .ok (X, c))
    (hcont : ¬ ((0 < direction ∧ params.par_end < par + direction * params.ds) ∨
        (direction < 0 ∧ par + direction * params.ds < params.par_end)))
    (par1 arc1 : ℝ) (hpar : par + direction * params.ds = par1)
    (harc : arclength + params.ds = arc1) :
    naturalGo Real.sqrt FoldNormalForm params direction (fuel + 1) step branch state par arclength =
      naturalGo Real.sqrt FoldNormalForm params direction fuel (step + 1)
        { natUpdateBranch Real.sqrt FoldNormalForm params step branch par arclength X c with
          stats := { (natUpdateBranch Real.sqrt FoldNormalForm params step branch par arclength
              X c).stats with
            total_steps := step + 1 } } X par1 arc1 := by
  rw [naturalGo, hsolve]
  dsimp only
  rw [if_neg hcont]
  rw [hpar, harc]

/-- The final accepted step of the natural-continuation loop on the fold
normal form: the incremented parameter passes the end of the range and the
updated branch is returned. -/
theorem c2outerLast (params : ContinuationParams ℝ) (direction : ℝ) (fuel step : ℕ)
    (branch : ContinuationBranch ℝ 1) (state : Vec ℝ 1) (par arclength : ℝ)
    (X : Vec ℝ 1) (c : ℕ)
    (hsolve : newton_solve Real.sqrt (fun x => FoldNormalForm.rhs x par)
        (fun x => systemJacobian FoldNormalForm x par) state params.newton_tol
        params.newton_max_iter = .ok (X, c))
    (hstop : (0 < direction ∧ params.par_end < par + direction * params.ds) ∨
        (direction < 0 ∧ par + direction * params.ds < params.par_end)) :
    naturalGo Real.sqrt FoldNormalForm params direction (fuel + 1) step branch state par arclength =
      .ok (natUpdateBranch Real.sqrt FoldNormalForm params step branch par arclength X c) := by
  rw [naturalGo, hsolve]
  dsimp only
  rw [if_pos hstop]

theorem natPoint_parameter (sqrt : K → K) (sys : OdeSystem K n)
    (params : ContinuationParams K) (step : ℕ) (branch : ContinuationBranch K n)
    (par arc : K) (ns : Vec K n) :
    (natPoint sqrt sys params step branch par arc ns).parameter = par := rfl

/-- The continuation parameters of the C2 run: `mu` from `0` to `2`,
`ds = 0.1`, `max_steps = 30`, bifurcation detection off (all other fields
from `ContinuationParams.default`). -/
def c2params : ContinuationParams K :=
  { ContinuationParams.default with
    par_start := 0
    par_end := 2
    ds := 1 / 10
    max_steps := 30
    detect_bifurcations := false }

/-- The Newton iterates of the C2 run, as exact rationals in ℝ. -/
def c2y0 : K := 1 / 100

def c2y1 : K := c2y0 - ((0 : K) - c2y0 * c2y0) / (-2 * c2y0)

def c2y2 : K := c2y1 - ((0 : K) - c2y1 * c2y1) / (-2 * c2y1)

def c2y3 : K := c2y2 - ((0 : K) - c2y2 * c2y2) / (-2 * c2y2)

def c2y4 : K := c2y3 - ((0 : K) - c2y3 * c2y3) / (-2 * c2y3)

def c2y5 : K := c2y4 - ((0 : K) - c2y4 * c2y4) / (-2 * c2y4)

def c2y6 : K := c2y5 - ((0 : K) - c2y5 * c2y5) / (-2 * c2y5)

def c2y7 : K := c2y6 - ((0 : K) - c2y6 * c2y6) / (-2 * c2y6)

def c2y8 : K := c2y7 - ((1/10 : K) - c2y7 * c2y7) / (-2 * c2y7)

def c2y9 : K := c2y8 - ((1/10 : K) - c2y8 * c2y8) / (-2 * c2y8)

def c2y10 : K := c2y9 - ((1/10 : K) - c2y9 * c2y9) / (-2 * c2y9)

def c2y11 : K := c2y10 - ((1/10 : K) - c2y10 * c2y10) / (-2 * c2y10)

def c2y12 : K := c2y11 - ((1/10 : K) - c2y11 * c2y11) / (-2 * c2y11)

def c2y13 : K := c2y12 - ((1/10 : K) - c2y12 * c2y12) / (-2 * c2y12)

def c2y14 : K := c2y13 - ((1/10 : K) - c2y13 * c2y13) / (-2 * c2y13)

def c2y15 : K := c2y14 - ((1/10 : K) - c2y14 * c2y14) / (-2 * c2y14)

def c2y16 : K := c2y15 - ((1/10 : K) - c2y15 * c2y15) / (-2 * c2y15)

def c2y17 : K := c2y16 - ((1/10 : K) - c2y16 * c2y16) / (-2 * c2y16)

def c2y18 : K := c2y17 - ((1/10 : K) - c2y17 * c2y17) / (-2 * c2y17)

def c2y19 : K := c2y18 - ((1/10 : K) - c2y18 * c2y18) / (-2 * c2y18)

def c2y20 : K := c2y19 - ((1/10 : K) - c2y19 * c2y19) / (-2 * c2y19)

def c2y21 : K := c2y20 - ((1/10 : K) - c2y20 * c2y20) / (-2 * c2y20)

def c2y22 : K := c2y21 - ((1/10 : K) - c2y21 * c2y21) / (-2 * c2y21)

def c2y23 : K := c2y22 - ((1/10 : K) - c2y22 * c2y22) / (-2 * c2y22)

def c2y24 : K := c2y23 - ((1/5 : K) - c2y23 * c2y23) / (-2 * c2y23)

def c2y25 : K := c2y24 - ((1/5 : K) - c2y24 * c2y24) / (-2 * c2y24)

def c2y26 : K := c2y25 - ((1/5 : K) - c2y25 * c2y25) / (-2 * c2y25)

def c2y27 : K := c2y26 - ((1/5 : K) - c2y26 * c2y26) / (-2 * c2y26)

def c2y28 : K := c2y27 - ((3/10 : K) - c2y27 * c2y27) / (-2 * c2y27)

def c2y29 : K := c2y28 - ((3/10 : K) - c2y28 * c2y28) / (-2 * c2y28)

def c2y30 : K := c2y29 - ((3/10 : K) - c2y29 * c2y29) / (-2 * c2y29)

def c2y31 : K := c2y30 - ((3/10 : K) - c2y30 * c2y30) / (-2 * c2y30)

def c2y32 : K := c2y31 - ((2/5 : K) - c2y31 * c2y31) / (-2 * c2y31)

def c2y33 : K := c2y32 - ((2/5 : K) - c2y32 * c2y32) / (-2 * c2y32)

def c2y34 : K := c2y33 - ((2/5 : K) - c2y33 * c2y33) / (-2 * c2y33)

def c2y35 : K := c2y34 - ((1/2 : K) - c2y34 * c2y34) / (-2 * c2y34)

def c2y36 : K := c2y35 - ((1/2 : K) - c2y35 * c2y35) / (-2 * c2y35)

def c2y37 : K := c2y36 - ((1/2 : K) - c2y36 * c2y36) / (-2 * c2y36)

def c2y38 : K := c2y37 - ((3/5 : K) - c2y37 * c2y37) / (-2 * c2y37)

def c2y39 : K := c2y38 - ((3/5 : K) - c2y38 * c2y38) / (-2 * c2y38)

def c2y40 : K := c2y39 - ((3/5 : K) - c2y39 * c2y39) / (-2 * c2y39)

def c2y41 : K := c2y40 - ((7/10 : K) - c2y40 * c2y40) / (-2 * c2y40)

def c2y42 : K := c2y41 - ((7/10 : K) - c2y41 * c2y41) / (-2 * c2y41)

def c2y43 : K := c2y42 - ((7/10 : K) - c2y42 * c2y42) / (-2 * c2y42)

def c2y44 : K := c2y43 - ((4/5 : K) - c2y43 * c2y43) / (-2 * c2y43)

def c2y45 : K := c2y44 - ((4/5 : K) - c2y44 * c2y44) / (-2 * c2y44)

def c2y46 : K := c2y45 - ((4/5 : K) - c2y45 * c2y45) / (-2 * c2y45)

def c2y47 : K := c2y46 - ((9/10 : K) - c2y46 * c2y46) / (-2 * c2y46)

def c2y48 : K := c2y47 - ((9/10 : K) - c2y47 * c2y47) / (-2 * c2y47)

def c2y49 : K := c2y48 - ((9/10 : K) - c2y48 * c2y48) / (-2 * c2y48)

def c2y50 : K := c2y49 - ((1 : K) - c2y49 * c2y49) / (-2 * c2y49)

def c2y51 : K := c2y50 - ((1 : K) - c2y50 * c2y50) / (-2 * c2y50)

def c2y52 : K := c2y51 - ((1 : K) - c2y51 * c2y51) / (-2 * c2y51)

def c2y53 : K := c2y52 - ((11/10 : K) - c2y52 * c2y52) / (-2 * c2y52)

def c2y54 : K := c2y53 - ((11/10 : K) - c2y53 * c2y53) / (-2 * c2y53)

def c2y55 : K := c2y54 - ((11/10 : K) - c2y54 * c2y54) / (-2 * c2y54)

def c2y56 : K := c2y55 - ((6/5 : K) - c2y55 * c2y55) / (-2 * c2y55)

def c2y57 : K := c2y56 - ((6/5 : K) - c2y56 * c2y56) / (-2 * c2y56)

def c2y58 : K := c2y57 - ((6/5 : K) - c2y57 * c2y57) / (-2 * c2y57)

def c2y59 : K := c2y58 - ((13/10 : K) - c2y58 * c2y58) / (-2 * c2y58)

def c2y60 : K := c2y59 - ((13/10 : K) - c2y59 * c2y59) / (-2 * c2y59)

def c2y61 : K := c2y60 - ((13/10 : K) - c2y60 * c2y60) / (-2 * c2y60)

def c2y62 : K := c2y61 - ((7/5 : K) - c2y61 * c2y61) / (-2 * c2y61)

def c2y63 : K := c2y62 - ((7/5 : K) - c2y62 * c2y62) / (-2 * c2y62)

def c2y64 : K := c2y63 - ((7/5 : K) - c2y63 * c2y63) / (-2 * c2y63)

def c2y65 : K := c2y64 - ((3/2 : K) - c2y64 * c2y64) / (-2 * c2y64)

def c2y66 : K := c2y65 - ((3/2 : K) - c2y65 * c2y65) / (-2 * c2y65)

def c2y67 : K := c2y66 - ((3/2 : K) - c2y66 * c2y66) / (-2 * c2y66)

def c2y68 : K := c2y67 - ((8/5 : K) - c2y67 * c2y67) / (-2 * c2y67)

def c2y69 : K := c2y68 - ((8/5 : K) - c2y68 * c2y68) / (-2 * c2y68)

def c2y70 : K := c2y69 - ((8/5 : K) - c2y69 * c2y69) / (-2 * c2y69)

def c2y71 : K := c2y70 - ((17/10 : K) - c2y70 * c2y70) / (-2 * c2y70)

def c2y72 : K := c2y71 - ((17/10 : K) - c2y71 * c2y71) / (-2 * c2y71)

def c2y73 : K := c2y72 - ((17/10 : K) - c2y72 * c2y72) / (-2 * c2y72)

def c2y74 : K := c2y73 - ((9/5 : K) - c2y73 * c2y73) / (-2 * c2y73)

def c2y75 : K := c2y74 - ((9/5 : K) - c2y74 * c2y74) / (-2 * c2y74)

def c2y76 : K := c2y75 - ((9/5 : K) - c2y75 * c2y75) / (-2 * c2y75)

def c2y77 : K := c2y76 - ((19/10 : K) - c2y76 * c2y76) / (-2 * c2y76)

def c2y78 : K := c2y77 - ((19/10 : K) - c2y77 * c2y77) / (-2 * c2y77)

def c2y79 : K := c2y78 - ((19/10 : K) - c2y78 * c2y78) / (-2 * c2y78)

def c2y80 : K := c2y79 - ((2 : K) - c2y79 * c2y79) / (-2 * c2y79)

def c2y81 : K := c2y80 - ((2 : K) - c2y80 * c2y80) / (-2 * c2y80)

def c2y82 : K := c2y81 - ((2 : K) - c2y81 * c2y81) / (-2 * c2y81)

theorem c2tol : (c2params : ContinuationParams ℝ).newton_tol = 1 / 100000000 := rfl

theorem c2e15 : (eps15 : ℝ) = 1 / 1000000000000000 := rfl

theorem c2ds : (c2params : ContinuationParams ℝ).ds = 1/10 := rfl

theorem c2pe : (c2params : ContinuationParams ℝ).par_end = 2 := rfl

theorem c2b0 : (1/100 : ℝ) ≤ (c2y0 : ℝ) ∧ (c2y0 : ℝ) ≤ 1/100 := ⟨le_refl _, le_refl _⟩

theorem c2b1 : (1/200 : ℝ) ≤ (c2y1 : ℝ) ∧ (c2y1 : ℝ) ≤ (1/200 : ℝ) := by
  show (1/200 : ℝ) ≤ c2y0 - ((0 : ℝ) - c2y0 * c2y0) / (-2 * c2y0) ∧
    c2y0 - ((0 : ℝ) - c2y0 * c2y0) / (-2 * c2y0) ≤ (1/200 : ℝ)
  exact bab_step (0 : ℝ) c2y0 (1/100 : ℝ) (1/100 : ℝ) (1/200 : ℝ) (1/200 : ℝ) c2b0 (by norm_num)
    (by norm_num) (by norm_num) (by norm_num)

theorem c2b2 : (1/400 : ℝ) ≤ (c2y2 : ℝ) ∧ (c2y2 : ℝ) ≤ (1/400 : ℝ) := by
  show (1/400 : ℝ) ≤ c2y1 - ((0 : ℝ) - c2y1 * c2y1) / (-2 * c2y1) ∧
    c2y1 - ((0 : ℝ) - c2y1 * c2y1) / (-2 * c2y1) ≤ (1/400 : ℝ)
  exact bab_step (0 : ℝ) c2y1 (1/200 : ℝ) (1/200 : ℝ) (1/400 : ℝ) (1/400 : ℝ) c2b1 (by norm_num)
    (by norm_num) (by norm_num) (by norm_num)

theorem c2b3 : (1/800 : ℝ) ≤ (c2y3 : ℝ) ∧ (c2y3 : ℝ) ≤ (1/800 : ℝ) := by
  show (1/800 : ℝ) ≤ c2y2 - ((0 : ℝ) - c2y2 * c2y2) / (-2 * c2y2) ∧
    c2y2 - ((0 : ℝ) - c2y2 * c2y2) / (-2 * c2y2) ≤ (1/800 : ℝ)
  exact bab_step (0 : ℝ) c2y2 (1/400 : ℝ) (1/400 : ℝ) (1/800 : ℝ) (1/800 : ℝ) c2b2 (by norm_num)
    (by norm_num) (by norm_num) (by norm_num)

theorem c2b4 : (1/1600 : ℝ) ≤ (c2y4 : ℝ) ∧ (c2y4 : ℝ) ≤ (1/1600 : ℝ) := by
  show (1/1600 : ℝ) ≤ c2y3 - ((0 : ℝ) - c2y3 * c2y3) / (-2 * c2y3) ∧
    c2y3 - ((0 : ℝ) - c2y3 * c2y3) / (-2 * c2y3) ≤ (1/1600 : ℝ)
  exact bab_step (0 : ℝ) c2y3 (1/800 : ℝ) (1/800 : ℝ) (1/1600 : ℝ) (1/1600 : ℝ) c2b3 (by norm_num)
    (by norm_num) (by norm_num) (by norm_num)

theorem c2b5 : (1/3200 : ℝ) ≤ (c2y5 : ℝ) ∧ (c2y5 : ℝ) ≤ (1/3200 : ℝ) := by
  show (1/3200 : ℝ) ≤ c2y4 - ((0 : ℝ) - c2y4 * c2y4) / (-2 * c2y4) ∧
    c2y4 - ((0 : ℝ) - c2y4 * c2y4) / (-2 * c2y4) ≤ (1/3200 : ℝ)
  exact bab_step (0 : ℝ) c2y4 (1/1600 : ℝ) (1/1600 : ℝ) (1/3200 : ℝ) (1/3200 : ℝ) c2b4 (by norm_num)
    (by norm_num) (by norm_num) (by norm_num)

theorem c2b6 : (1/6400 : ℝ) ≤ (c2y6 : ℝ) ∧ (c2y6 : ℝ) ≤ (1/6400 : ℝ) := by
  show (1/6400 : ℝ) ≤ c2y5 - ((0 : ℝ) - c2y5 * c2y5) / (-2 * c2y5) ∧
    c2y5 - ((0 : ℝ) - c2y5 * c2y5) / (-2 * c2y5) ≤ (1/6400 : ℝ)
  exact bab_step (0 : ℝ) c2y5 (1/3200 : ℝ) (1/3200 : ℝ) (1/6400 : ℝ) (1/6400 : ℝ) c2b5 (by norm_num)
    (by norm_num) (by norm_num) (by norm_num)

theorem c2b7 : (1/12800 : ℝ) ≤ (c2y7 : ℝ) ∧ (c2y7 : ℝ) ≤ (1/12800 : ℝ) := by
  show (1/12800 : ℝ) ≤ c2y6 - ((0 : ℝ) - c2y6 * c2y6) / (-2 * c2y6) ∧
    c2y6 - ((0 : ℝ) - c2y6 * c2y6) / (-2 * c2y6) ≤ (1/12800 : ℝ)
  exact bab_step (0 : ℝ) c2y6 (1/6400 : ℝ) (1/6400 : ℝ) (1/12800 : ℝ) (1/12800 : ℝ) c2b6 (by norm_num)
    (by norm_num) (by norm_num) (by norm_num)

theorem c2b8 : (16384001/25600 : ℝ) ≤ (c2y8 : ℝ) ∧ (c2y8 : ℝ) ≤ (16384001/25600 : ℝ) := by
  show (16384001/25600 : ℝ) ≤ c2y7 - ((1/10 : ℝ) - c2y7 * c2y7) / (-2 * c2y7) ∧
    c2y7 - ((1/10 : ℝ) - c2y7 * c2y7) / (-2 * c2y7) ≤ (16384001/25600 : ℝ)
  exact bab_step (1/10 : ℝ) c2y7 (1/12800 : ℝ) (1/12800 : ℝ) (16384001/25600 : ℝ) (16384001/25600 : ℝ) c2b7 (by norm_num)
    (by norm_num) (by norm_num) (by norm_num)

theorem c2b9 : (160000048828122615814354503518401884863/500000000000000000000000000000000000 : ℝ) ≤ (c2y9 : ℝ) ∧ (c2y9 : ℝ) ≤ (320000097656245231628709007036803769727/1000000000000000000000000000000000000 : ℝ) := by
  show (160000048828122615814354503518401884863/500000000000000000000000000000000000 : ℝ) ≤ c2y8 - ((1/10 : ℝ) - c2y8 * c2y8) / (-2 * c2y8) ∧
    c2y8 - ((1/10 : ℝ) - c2y8 * c2y8) / (-2 * c2y8) ≤ (320000097656245231628709007036803769727/1000000000000000000000000000000000000 : ℝ)
  exact bab_step (1/10 : ℝ) c2y8 (16384001/25600 : ℝ) (16384001/25600 : ℝ) (160000048828122615814354503518401884863/500000000000000000000000000000000000 : ℝ) (320000097656245231628709007036803769727/1000000000000000000000000000000000000 : ℝ) c2b8 (by norm_num)
    (by norm_num) (by norm_num) (by norm_num)

theorem c2b10 : (160000205078074932115414406679223451663/1000000000000000000000000000000000000 : ℝ) ≤ (c2y10 : ℝ) ∧ (c2y10 : ℝ) ≤ (10000012817379683257213400417451465729/62500000000000000000000000000000000 : ℝ) := by
  show (160000205078074932115414406679223451663/1000000000000000000000000000000000000 : ℝ) ≤ c2y9 - ((1/10 : ℝ) - c2y9 * c2y9) / (-2 * c2y9) ∧
    c2y9 - ((1/10 : ℝ) - c2y9 * c2y9) / (-2 * c2y9) ≤ (10000012817379683257213400417451465729/62500000000000000000000000000000000 : ℝ)
  exact bab_step (1/10 : ℝ) c2y9 (160000048828122615814354503518401884863/500000000000000000000000000000000000 : ℝ) (320000097656245231628709007036803769727/1000000000000000000000000000000000000 : ℝ) (160000205078074932115414406679223451663/1000000000000000000000000000000000000 : ℝ) (10000012817379683257213400417451465729/62500000000000000000000000000000000 : ℝ) c2b9 (by norm_num)
    (by norm_num) (by norm_num) (by norm_num)

theorem c2b11 : (8000041503863692345599607596596767633/100000000000000000000000000000000000 : ℝ) ≤ (c2y11 : ℝ) ∧ (c2y11 : ℝ) ≤ (80000415038636923455996075965967676331/1000000000000000000000000000000000000 : ℝ) := by
  show (8000041503863692345599607596596767633/100000000000000000000000000000000000 : ℝ) ≤ c2y10 - ((1/10 : ℝ) - c2y10 * c2y10) / (-2 * c2y10) ∧
    c2y10 - ((1/10 : ℝ) - c2y10 * c2y10) / (-2 * c2y10) ≤ (80000415038636923455996075965967676331/1000000000000000000000000000000000000 : ℝ)
  exact bab_step (1/10 : ℝ) c2y10 (160000205078074932115414406679223451663/1000000000000000000000000000000000000 : ℝ) (10000012817379683257213400417451465729/62500000000000000000000000000000000 : ℝ) (8000041503863692345599607596596767633/100000000000000000000000000000000000 : ℝ) (80000415038636923455996075965967676331/1000000000000000000000000000000000000 : ℝ) c2b10 (by norm_num)
    (by norm_num) (by norm_num) (by norm_num)

theorem c2b12 : (40000832516075989198925772112443746813/1000000000000000000000000000000000000 : ℝ) ≤ (c2y12 : ℝ) ∧ (c2y12 : ℝ) ≤ (8000166503215197839785154422488749363/200000000000000000000000000000000000 : ℝ) := by
  show (40000832516075989198925772112443746813/1000000000000000000000000000000000000 : ℝ) ≤ c2y11 - ((1/10 : ℝ) - c2y11 * c2y11) / (-2 * c2y11) ∧
    c2y11 - ((1/10 : ℝ) - c2y11 * c2y11) / (-2 * c2y11) ≤ (8000166503215197839785154422488749363/200000000000000000000000000000000000 : ℝ)
  exact bab_step (1/10 : ℝ) c2y11 (8000041503863692345599607596596767633/100000000000000000000000000000000000 : ℝ) (80000415038636923455996075965967676331/1000000000000000000000000000000000000 : ℝ) (40000832516075989198925772112443746813/1000000000000000000000000000000000000 : ℝ) (8000166503215197839785154422488749363/200000000000000000000000000000000000 : ℝ) c2b11 (by norm_num)
    (by norm_num) (by norm_num) (by norm_num)

theorem c2b13 : (625052069750700271394935277328937193/31250000000000000000000000000000000 : ℝ) ≤ (c2y13 : ℝ) ∧ (c2y13 : ℝ) ≤ (10000833116011204342318964437262995089/500000000000000000000000000000000000 : ℝ) := by
  show (625052069750700271394935277328937193/31250000000000000000000000000000000 : ℝ) ≤ c2y12 - ((1/10 : ℝ) - c2y12 * c2y12) / (-2 * c2y12) ∧
    c2y12 - ((1/10 : ℝ) - c2y12 * c2y12) / (-2 * c2y12) ≤ (10000833116011204342318964437262995089/500000000000000000000000000000000000 : ℝ)
  exact bab_step (1/10 : ℝ) c2y12 (40000832516075989198925772112443746813/1000000000000000000000000000000000000 : ℝ) (8000166503215197839785154422488749363/200000000000000000000000000000000000 : ℝ) (625052069750700271394935277328937193/31250000000000000000000000000000000 : ℝ) (10000833116011204342318964437262995089/500000000000000000000000000000000000 : ℝ) c2b12 (by norm_num)
    (by norm_num) (by norm_num) (by norm_num)

theorem c2b14 : (5001666453874776076464634869473405369/500000000000000000000000000000000000 : ℝ) ≤ (c2y14 : ℝ) ∧ (c2y14 : ℝ) ≤ (500166645387477607646463486947340537/50000000000000000000000000000000000 : ℝ) := by
  show (5001666453874776076464634869473405369/500000000000000000000000000000000000 : ℝ) ≤ c2y13 - ((1/10 : ℝ) - c2y13 * c2y13) / (-2 * c2y13) ∧
    c2y13 - ((1/10 : ℝ) - c2y13 * c2y13) / (-2 * c2y13) ≤ (500166645387477607646463486947340537/50000000000000000000000000000000000 : ℝ)
  exact bab_step (1/10 : ℝ) c2y13 (625052069750700271394935277328937193/31250000000000000000000000000000000 : ℝ) (10000833116011204342318964437262995089/500000000000000000000000000000000000 : ℝ) (5001666453874776076464634869473405369/500000000000000000000000000000000000 : ℝ) (500166645387477607646463486947340537/50000000000000000000000000000000000 : ℝ) c2b13 (by norm_num)
    (by norm_num) (by norm_num) (by norm_num)

theorem c2b15 : (1001332957595225990230423921410574107/200000000000000000000000000000000000 : ℝ) ≤ (c2y15 : ℝ) ∧ (c2y15 : ℝ) ≤ (5006664787976129951152119607052870537/1000000000000000000000000000000000000 : ℝ) := by
  show (1001332957595225990230423921410574107/200000000000000000000000000000000000 : ℝ) ≤ c2y14 - ((1/10 : ℝ) - c2y14 * c2y14) / (-2 * c2y14) ∧
    c2y14 - ((1/10 : ℝ) - c2y14 * c2y14) / (-2 * c2y14) ≤ (5006664787976129951152119607052870537/1000000000000000000000000000000000000 : ℝ)
  exact bab_step (1/10 : ℝ) c2y14 (5001666453874776076464634869473405369/500000000000000000000000000000000000 : ℝ) (500166645387477607646463486947340537/50000000000000000000000000000000000 : ℝ) (1001332957595225990230423921410574107/200000000000000000000000000000000000 : ℝ) (5006664787976129951152119607052870537/1000000000000000000000000000000000000 : ℝ) c2b14 (by norm_num)
    (by norm_num) (by norm_num) (by norm_num)

theorem c2b16 : (2513319082156220079698920926757502577/1000000000000000000000000000000000000 : ℝ) ≤ (c2y16 : ℝ) ∧ (c2y16 : ℝ) ≤ (2513319082156220079698920926757502579/1000000000000000000000000000000000000 : ℝ) := by
  show (2513319082156220079698920926757502577/1000000000000000000000000000000000000 : ℝ) ≤ c2y15 - ((1/10 : ℝ) - c2y15 * c2y15) / (-2 * c2y15) ∧
    c2y15 - ((1/10 : ℝ) - c2y15 * c2y15) / (-2 * c2y15) ≤ (2513319082156220079698920926757502579/1000000000000000000000000000000000000 : ℝ)
  exact bab_step (1/10 : ℝ) c2y15 (1001332957595225990230423921410574107/200000000000000000000000000000000000 : ℝ) (5006664787976129951152119607052870537/1000000000000000000000000000000000000 : ℝ) (2513319082156220079698920926757502577/1000000000000000000000000000000000000 : ℝ) (2513319082156220079698920926757502579/1000000000000000000000000000000000000 : ℝ) c2b15 (by norm_num)
    (by norm_num) (by norm_num) (by norm_num)

theorem c2b17 : (255310710617194046474679189246522807/200000000000000000000000000000000000 : ℝ) ≤ (c2y17 : ℝ) ∧ (c2y17 : ℝ) ≤ (1276553553085970232373395946232614037/1000000000000000000000000000000000000 : ℝ) := by
  show (255310710617194046474679189246522807/200000000000000000000000000000000000 : ℝ) ≤ c2y16 - ((1/10 : ℝ) - c2y16 * c2y16) / (-2 * c2y16) ∧
    c2y16 - ((1/10 : ℝ) - c2y16 * c2y16) / (-2 * c2y16) ≤ (1276553553085970232373395946232614037/1000000000000000000000000000000000000 : ℝ)
  exact bab_step (1/10 : ℝ) c2y16 (2513319082156220079698920926757502577/1000000000000000000000000000000000000 : ℝ) (2513319082156220079698920926757502579/1000000000000000000000000000000000000 : ℝ) (255310710617194046474679189246522807/200000000000000000000000000000000000 : ℝ) (1276553553085970232373395946232614037/1000000000000000000000000000000000000 : ℝ) c2b16 (by norm_num)
    (by norm_num) (by norm_num) (by norm_num)

theorem c2b18 : (677444737714005977601773433678556139/1000000000000000000000000000000000000 : ℝ) ≤ (c2y18 : ℝ) ∧ (c2y18 : ℝ) ≤ (677444737714005977601773433678556141/1000000000000000000000000000000000000 : ℝ) := by
  show (677444737714005977601773433678556139/1000000000000000000000000000000000000 : ℝ) ≤ c2y17 - ((1/10 : ℝ) - c2y17 * c2y17) / (-2 * c2y17) ∧
    c2y17 - ((1/10 : ℝ) - c2y17 * c2y17) / (-2 * c2y17) ≤ (677444737714005977601773433678556141/1000000000000000000000000000000000000 : ℝ)
  exact bab_step (1/10 : ℝ) c2y17 (255310710617194046474679189246522807/200000000000000000000000000000000000 : ℝ) (1276553553085970232373395946232614037/1000000000000000000000000000000000000 : ℝ) (677444737714005977601773433678556139/1000000000000000000000000000000000000 : ℝ) (677444737714005977601773433678556141/1000000000000000000000000000000000000 : ℝ) c2b17 (by norm_num)
    (by norm_num) (by norm_num) (by norm_num)

theorem c2b19 : (206264563565168647669234757309928251/500000000000000000000000000000000000 : ℝ) ≤ (c2y19 : ℝ) ∧ (c2y19 : ℝ) ≤ (51566140891292161917308689327482063/125000000000000000000000000000000000 : ℝ) := by
  show (206264563565168647669234757309928251/500000000000000000000000000000000000 : ℝ) ≤ c2y18 - ((1/10 : ℝ) - c2y18 * c2y18) / (-2 * c2y18) ∧
    c2y18 - ((1/10 : ℝ) - c2y18 * c2y18) / (-2 * c2y18) ≤ (51566140891292161917308689327482063/125000000000000000000000000000000000 : ℝ)
  exact bab_step (1/10 : ℝ) c2y18 (677444737714005977601773433678556139/1000000000000000000000000000000000000 : ℝ) (677444737714005977601773433678556141/1000000000000000000000000000000000000 : ℝ) (206264563565168647669234757309928251/500000000000000000000000000000000000 : ℝ) (51566140891292161917308689327482063/125000000000000000000000000000000000 : ℝ) c2b18 (by norm_num)
    (by norm_num) (by norm_num) (by norm_num)

theorem c2b20 : (327468126445233248365481496323300659/1000000000000000000000000000000000000 : ℝ) ≤ (c2y20 : ℝ) ∧ (c2y20 : ℝ) ≤ (327468126445233248365481496323300661/1000000000000000000000000000000000000 : ℝ) := by
  show (327468126445233248365481496323300659/1000000000000000000000000000000000000 : ℝ) ≤ c2y19 - ((1/10 : ℝ) - c2y19 * c2y19) / (-2 * c2y19) ∧
    c2y19 - ((1/10 : ℝ) - c2y19 * c2y19) / (-2 * c2y19) ≤ (327468126445233248365481496323300661/1000000000000000000000000000000000000 : ℝ)
  exact bab_step (1/10 : ℝ) c2y19 (206264563565168647669234757309928251/500000000000000000000000000000000000 : ℝ) (51566140891292161917308689327482063/125000000000000000000000000000000000 : ℝ) (327468126445233248365481496323300659/1000000000000000000000000000000000000 : ℝ) (327468126445233248365481496323300661/1000000000000000000000000000000000000 : ℝ) c2b19 (by norm_num)
    (by norm_num) (by norm_num) (by norm_num)

theorem c2b21 : (316420678994250050509135307034147067/1000000000000000000000000000000000000 : ℝ) ≤ (c2y21 : ℝ) ∧ (c2y21 : ℝ) ≤ (31642067899425005050913530703414707/100000000000000000000000000000000000 : ℝ) := by
  show (316420678994250050509135307034147067/1000000000000000000000000000000000000 : ℝ) ≤ c2y20 - ((1/10 : ℝ) - c2y20 * c2y20) / (-2 * c2y20) ∧
    c2y20 - ((1/10 : ℝ) - c2y20 * c2y20) / (-2 * c2y20) ≤ (31642067899425005050913530703414707/100000000000000000000000000000000000 : ℝ)
  exact bab_step (1/10 : ℝ) c2y20 (327468126445233248365481496323300659/1000000000000000000000000000000000000 : ℝ) (327468126445233248365481496323300661/1000000000000000000000000000000000000 : ℝ) (316420678994250050509135307034147067/1000000000000000000000000000000000000 : ℝ) (31642067899425005050913530703414707/100000000000000000000000000000000000 : ℝ) c2b20 (by norm_num)
    (by norm_num) (by norm_num) (by norm_num)

theorem c2b22 : (316227824823703799707236344982881963/1000000000000000000000000000000000000 : ℝ) ≤ (c2y22 : ℝ) ∧ (c2y22 : ℝ) ≤ (316227824823703799707236344982881967/1000000000000000000000000000000000000 : ℝ) := by
  show (316227824823703799707236344982881963/1000000000000000000000000000000000000 : ℝ) ≤ c2y21 - ((1/10 : ℝ) - c2y21 * c2y21) / (-2 * c2y21) ∧
    c2y21 - ((1/10 : ℝ) - c2y21 * c2y21) / (-2 * c2y21) ≤ (316227824823703799707236344982881967/1000000000000000000000000000000000000 : ℝ)
  exact bab_step (1/10 : ℝ) c2y21 (316420678994250050509135307034147067/1000000000000000000000000000000000000 : ℝ) (31642067899425005050913530703414707/100000000000000000000000000000000000 : ℝ) (316227824823703799707236344982881963/1000000000000000000000000000000000000 : ℝ) (316227824823703799707236344982881967/1000000000000000000000000000000000000 : ℝ) c2b21 (by norm_num)
    (by norm_num) (by norm_num) (by norm_num)

theorem c2b23 : (79056941504210850292059044354923707/250000000000000000000000000000000000 : ℝ) ≤ (c2y23 : ℝ) ∧ (c2y23 : ℝ) ≤ (316227766016843401168236177419694833/1000000000000000000000000000000000000 : ℝ) := by
  show (79056941504210850292059044354923707/250000000000000000000000000000000000 : ℝ) ≤ c2y22 - ((1/10 : ℝ) - c2y22 * c2y22) / (-2 * c2y22) ∧
    c2y22 - ((1/10 : ℝ) - c2y22 * c2y22) / (-2 * c2y22) ≤ (316227766016843401168236177419694833/1000000000000000000000000000000000000 : ℝ)
  exact bab_step (1/10 : ℝ) c2y22 (316227824823703799707236344982881963/1000000000000000000000000000000000000 : ℝ) (316227824823703799707236344982881967/1000000000000000000000000000000000000 : ℝ) (79056941504210850292059044354923707/250000000000000000000000000000000000 : ℝ) (316227766016843401168236177419694833/1000000000000000000000000000000000000 : ℝ) c2b22 (by norm_num)
    (by norm_num) (by norm_num) (by norm_num)

theorem c2b24 : (29646353064078385363478788766952763/62500000000000000000000000000000000 : ℝ) ≤ (c2y24 : ℝ) ∧ (c2y24 : ℝ) ≤ (474341649025254165815660620271244217/1000000000000000000000000000000000000 : ℝ) := by
  show (29646353064078385363478788766952763/62500000000000000000000000000000000 : ℝ) ≤ c2y23 - ((1/5 : ℝ) - c2y23 * c2y23) / (-2 * c2y23) ∧
    c2y23 - ((1/5 : ℝ) - c2y23 * c2y23) / (-2 * c2y23) ≤ (474341649025254165815660620271244217/1000000000000000000000000000000000000 : ℝ)
  exact bab_step (1/5 : ℝ) c2y23 (79056941504210850292059044354923707/250000000000000000000000000000000000 : ℝ) (316227766016843401168236177419694833/1000000000000000000000000000000000000 : ℝ) (29646353064078385363478788766952763/62500000000000000000000000000000000 : ℝ) (474341649025254165815660620271244217/1000000000000000000000000000000000000 : ℝ) c2b23 (by norm_num)
    (by norm_num) (by norm_num) (by norm_num)

theorem c2b25 : (111997333797630063369625071208831007/250000000000000000000000000000000000 : ℝ) ≤ (c2y25 : ℝ) ∧ (c2y25 : ℝ) ≤ (447989335190520253478500284835324037/1000000000000000000000000000000000000 : ℝ) := by
  show (111997333797630063369625071208831007/250000000000000000000000000000000000 : ℝ) ≤ c2y24 - ((1/5 : ℝ) - c2y24 * c2y24) / (-2 * c2y24) ∧
    c2y24 - ((1/5 : ℝ) - c2y24 * c2y24) / (-2 * c2y24) ≤ (447989335190520253478500284835324037/1000000000000000000000000000000000000 : ℝ)
  exact bab_step (1/5 : ℝ) c2y24 (29646353064078385363478788766952763/62500000000000000000000000000000000 : ℝ) (474341649025254165815660620271244217/1000000000000000000000000000000000000 : ℝ) (111997333797630063369625071208831007/250000000000000000000000000000000000 : ℝ) (447989335190520253478500284835324037/1000000000000000000000000000000000000 : ℝ) c2b24 (by norm_num)
    (by norm_num) (by norm_num) (by norm_num)

theorem c2b26 : (44721426713655756703215953894560551/100000000000000000000000000000000000 : ℝ) ≤ (c2y26 : ℝ) ∧ (c2y26 : ℝ) ≤ (5590178339206969587901994236820069/12500000000000000000000000000000000 : ℝ) := by
  show (44721426713655756703215953894560551/100000000000000000000000000000000000 : ℝ) ≤ c2y25 - ((1/5 : ℝ) - c2y25 * c2y25) / (-2 * c2y25) ∧
    c2y25 - ((1/5 : ℝ) - c2y25 * c2y25) / (-2 * c2y25) ≤ (5590178339206969587901994236820069/12500000000000000000000000000000000 : ℝ)
  exact bab_step (1/5 : ℝ) c2y25 (111997333797630063369625071208831007/250000000000000000000000000000000000 : ℝ) (447989335190520253478500284835324037/1000000000000000000000000000000000000 : ℝ) (44721426713655756703215953894560551/100000000000000000000000000000000000 : ℝ) (5590178339206969587901994236820069/12500000000000000000000000000000000 : ℝ) c2b25 (by norm_num)
    (by norm_num) (by norm_num) (by norm_num)

theorem c2b27 : (27950849718778892429608456422203391/62500000000000000000000000000000000 : ℝ) ≤ (c2y27 : ℝ) ∧ (c2y27 : ℝ) ≤ (447213595500462278873735302755254267/1000000000000000000000000000000000000 : ℝ) := by
  show (27950849718778892429608456422203391/62500000000000000000000000000000000 : ℝ) ≤ c2y26 - ((1/5 : ℝ) - c2y26 * c2y26) / (-2 * c2y26) ∧
    c2y26 - ((1/5 : ℝ) - c2y26 * c2y26) / (-2 * c2y26) ≤ (447213595500462278873735302755254267/1000000000000000000000000000000000000 : ℝ)
  exact bab_step (1/5 : ℝ) c2y26 (44721426713655756703215953894560551/100000000000000000000000000000000000 : ℝ) (5590178339206969587901994236820069/12500000000000000000000000000000000 : ℝ) (27950849718778892429608456422203391/62500000000000000000000000000000000 : ℝ) (447213595500462278873735302755254267/1000000000000000000000000000000000000 : ℝ) c2b26 (by norm_num)
    (by norm_num) (by norm_num) (by norm_num)

theorem c2b28 : (559016994374821339204318701502614263/1000000000000000000000000000000000000 : ℝ) ≤ (c2y28 : ℝ) ∧ (c2y28 : ℝ) ≤ (279508497187410669602159350751307139/500000000000000000000000000000000000 : ℝ) := by
  show (559016994374821339204318701502614263/1000000000000000000000000000000000000 : ℝ) ≤ c2y27 - ((3/10 : ℝ) - c2y27 * c2y27) / (-2 * c2y27) ∧
    c2y27 - ((3/10 : ℝ) - c2y27 * c2y27) / (-2 * c2y27) ≤ (279508497187410669602159350751307139/500000000000000000000000000000000000 : ℝ)
  exact bab_step (3/10 : ℝ) c2y27 (27950849718778892429608456422203391/62500000000000000000000000000000000 : ℝ) (447213595500462278873735302755254267/1000000000000000000000000000000000000 : ℝ) (559016994374821339204318701502614263/1000000000000000000000000000000000000 : ℝ) (279508497187410669602159350751307139/500000000000000000000000000000000000 : ℝ) c2b27 (by norm_num)
    (by norm_num) (by norm_num) (by norm_num)

theorem c2b29 : (547836654487445953922288068175864013/1000000000000000000000000000000000000 : ℝ) ≤ (c2y29 : ℝ) ∧ (c2y29 : ℝ) ≤ (547836654487445953922288068175864029/1000000000000000000000000000000000000 : ℝ) := by
  show (547836654487445953922288068175864013/1000000000000000000000000000000000000 : ℝ) ≤ c2y28 - ((3/10 : ℝ) - c2y28 * c2y28) / (-2 * c2y28) ∧
    c2y28 - ((3/10 : ℝ) - c2y28 * c2y28) / (-2 * c2y28) ≤ (547836654487445953922288068175864029/1000000000000000000000000000000000000 : ℝ)
  exact bab_step (3/10 : ℝ) c2y28 (559016994374821339204318701502614263/1000000000000000000000000000000000000 : ℝ) (279508497187410669602159350751307139/500000000000000000000000000000000000 : ℝ) (547836654487445953922288068175864013/1000000000000000000000000000000000000 : ℝ) (547836654487445953922288068175864029/1000000000000000000000000000000000000 : ℝ) c2b28 (by norm_num)
    (by norm_num) (by norm_num) (by norm_num)

theorem c2b30 : (547722569386555628682030512812164607/1000000000000000000000000000000000000 : ℝ) ≤ (c2y30 : ℝ) ∧ (c2y30 : ℝ) ≤ (34232660586659726792626907050760289/62500000000000000000000000000000000 : ℝ) := by
  show (547722569386555628682030512812164607/1000000000000000000000000000000000000 : ℝ) ≤ c2y29 - ((3/10 : ℝ) - c2y29 * c2y29) / (-2 * c2y29) ∧
    c2y29 - ((3/10 : ℝ) - c2y29 * c2y29) / (-2 * c2y29) ≤ (34232660586659726792626907050760289/62500000000000000000000000000000000 : ℝ)
  exact bab_step (3/10 : ℝ) c2y29 (547836654487445953922288068175864013/1000000000000000000000000000000000000 : ℝ) (547836654487445953922288068175864029/1000000000000000000000000000000000000 : ℝ) (547722569386555628682030512812164607/1000000000000000000000000000000000000 : ℝ) (34232660586659726792626907050760289/62500000000000000000000000000000000 : ℝ) c2b29 (by norm_num)
    (by norm_num) (by norm_num) (by norm_num)

theorem c2b31 : (273861278752583121162298971129782079/500000000000000000000000000000000000 : ℝ) ≤ (c2y31 : ℝ) ∧ (c2y31 : ℝ) ≤ (34232659844072890145287371391222761/62500000000000000000000000000000000 : ℝ) := by
  show (273861278752583121162298971129782079/500000000000000000000000000000000000 : ℝ) ≤ c2y30 - ((3/10 : ℝ) - c2y30 * c2y30) / (-2 * c2y30) ∧
    c2y30 - ((3/10 : ℝ) - c2y30 * c2y30) / (-2 * c2y30) ≤ (34232659844072890145287371391222761/62500000000000000000000000000000000 : ℝ)
  exact bab_step (3/10 : ℝ) c2y30 (547722569386555628682030512812164607/1000000000000000000000000000000000000 : ℝ) (34232660586659726792626907050760289/62500000000000000000000000000000000 : ℝ) (273861278752583121162298971129782079/500000000000000000000000000000000000 : ℝ) (34232659844072890145287371391222761/62500000000000000000000000000000000 : ℝ) c2b30 (by norm_num)
    (by norm_num) (by norm_num) (by norm_num)

theorem c2b32 : (639009650422693777555193386691162353/1000000000000000000000000000000000000 : ℝ) ≤ (c2y32 : ℝ) ∧ (c2y32 : ℝ) ≤ (5112077203381550220441547093529299/8000000000000000000000000000000000 : ℝ) := by
  show (639009650422693777555193386691162353/1000000000000000000000000000000000000 : ℝ) ≤ c2y31 - ((2/5 : ℝ) - c2y31 * c2y31) / (-2 * c2y31) ∧
    c2y31 - ((2/5 : ℝ) - c2y31 * c2y31) / (-2 * c2y31) ≤ (5112077203381550220441547093529299/8000000000000000000000000000000000 : ℝ)
  exact bab_step (2/5 : ℝ) c2y31 (273861278752583121162298971129782079/500000000000000000000000000000000000 : ℝ) (34232659844072890145287371391222761/62500000000000000000000000000000000 : ℝ) (639009650422693777555193386691162353/1000000000000000000000000000000000000 : ℝ) (5112077203381550220441547093529299/8000000000000000000000000000000000 : ℝ) c2b31 (by norm_num)
    (by norm_num) (by norm_num) (by norm_num)

theorem c2b33 : (158122285946431883889632165970359783/250000000000000000000000000000000000 : ℝ) ≤ (c2y33 : ℝ) ∧ (c2y33 : ℝ) ≤ (316244571892863767779264331940719577/500000000000000000000000000000000000 : ℝ) := by
  show (158122285946431883889632165970359783/250000000000000000000000000000000000 : ℝ) ≤ c2y32 - ((2/5 : ℝ) - c2y32 * c2y32) / (-2 * c2y32) ∧
    c2y32 - ((2/5 : ℝ) - c2y32 * c2y32) / (-2 * c2y32) ≤ (316244571892863767779264331940719577/500000000000000000000000000000000000 : ℝ)
  exact bab_step (2/5 : ℝ) c2y32 (639009650422693777555193386691162353/1000000000000000000000000000000000000 : ℝ) (5112077203381550220441547093529299/8000000000000000000000000000000000 : ℝ) (158122285946431883889632165970359783/250000000000000000000000000000000000 : ℝ) (316244571892863767779264331940719577/500000000000000000000000000000000000 : ℝ) c2b32 (by norm_num)
    (by norm_num) (by norm_num) (by norm_num)

theorem c2b34 : (126491106585354820286200424799231693/200000000000000000000000000000000000 : ℝ) ≤ (c2y34 : ℝ) ∧ (c2y34 : ℝ) ≤ (79056941615846762678875265499519811/125000000000000000000000000000000000 : ℝ) := by
  show (126491106585354820286200424799231693/200000000000000000000000000000000000 : ℝ) ≤ c2y33 - ((2/5 : ℝ) - c2y33 * c2y33) / (-2 * c2y33) ∧
    c2y33 - ((2/5 : ℝ) - c2y33 * c2y33) / (-2 * c2y33) ≤ (79056941615846762678875265499519811/125000000000000000000000000000000000 : ℝ)
  exact bab_step (2/5 : ℝ) c2y33 (158122285946431883889632165970359783/250000000000000000000000000000000000 : ℝ) (316244571892863767779264331940719577/500000000000000000000000000000000000 : ℝ) (126491106585354820286200424799231693/200000000000000000000000000000000000 : ℝ) (79056941615846762678875265499519811/125000000000000000000000000000000000 : ℝ) c2b33 (by norm_num)
    (by norm_num) (by norm_num) (by norm_num)

theorem c2b35 : (28460498937049922844362799815951359/40000000000000000000000000000000000 : ℝ) ≤ (c2y35 : ℝ) ∧ (c2y35 : ℝ) ≤ (355756236713124035554534997699392001/500000000000000000000000000000000000 : ℝ) := by
  show (28460498937049922844362799815951359/40000000000000000000000000000000000 : ℝ) ≤ c2y34 - ((1/2 : ℝ) - c2y34 * c2y34) / (-2 * c2y34) ∧
    c2y34 - ((1/2 : ℝ) - c2y34 * c2y34) / (-2 * c2y34) ≤ (355756236713124035554534997699392001/500000000000000000000000000000000000 : ℝ)
  exact bab_step (1/2 : ℝ) c2y34 (126491106585354820286200424799231693/200000000000000000000000000000000000 : ℝ) (79056941615846762678875265499519811/125000000000000000000000000000000000 : ℝ) (28460498937049922844362799815951359/40000000000000000000000000000000000 : ℝ) (355756236713124035554534997699392001/500000000000000000000000000000000000 : ℝ) c2b34 (by norm_num)
    (by norm_num) (by norm_num) (by norm_num)

theorem c2b36 : (353560210615703407482933706513419161/500000000000000000000000000000000000 : ℝ) ≤ (c2y36 : ℝ) ∧ (c2y36 : ℝ) ≤ (14142408424628136299317348260536767/20000000000000000000000000000000000 : ℝ) := by
  show (353560210615703407482933706513419161/500000000000000000000000000000000000 : ℝ) ≤ c2y35 - ((1/2 : ℝ) - c2y35 * c2y35) / (-2 * c2y35) ∧
    c2y35 - ((1/2 : ℝ) - c2y35 * c2y35) / (-2 * c2y35) ≤ (14142408424628136299317348260536767/20000000000000000000000000000000000 : ℝ)
  exact bab_step (1/2 : ℝ) c2y35 (28460498937049922844362799815951359/40000000000000000000000000000000000 : ℝ) (355756236713124035554534997699392001/500000000000000000000000000000000000 : ℝ) (353560210615703407482933706513419161/500000000000000000000000000000000000 : ℝ) (14142408424628136299317348260536767/20000000000000000000000000000000000 : ℝ) c2b35 (by norm_num)
    (by norm_num) (by norm_num) (by norm_num)

theorem c2b37 : (353553390659051392918349574107121767/500000000000000000000000000000000000 : ℝ) ≤ (c2y37 : ℝ) ∧ (c2y37 : ℝ) ≤ (707106781318102785836699148214243563/1000000000000000000000000000000000000 : ℝ) := by
  show (353553390659051392918349574107121767/500000000000000000000000000000000000 : ℝ) ≤ c2y36 - ((1/2 : ℝ) - c2y36 * c2y36) / (-2 * c2y36) ∧
    c2y36 - ((1/2 : ℝ) - c2y36 * c2y36) / (-2 * c2y36) ≤ (707106781318102785836699148214243563/1000000000000000000000000000000000000 : ℝ)
  exact bab_step (1/2 : ℝ) c2y36 (353560210615703407482933706513419161/500000000000000000000000000000000000 : ℝ) (14142408424628136299317348260536767/20000000000000000000000000000000000 : ℝ) (353553390659051392918349574107121767/500000000000000000000000000000000000 : ℝ) (707106781318102785836699148214243563/1000000000000000000000000000000000000 : ℝ) c2b36 (by norm_num)
    (by norm_num) (by norm_num) (by norm_num)

theorem c2b38 : (97227182411505843839003576909947367/125000000000000000000000000000000000 : ℝ) ≤ (c2y38 : ℝ) ∧ (c2y38 : ℝ) ≤ (777817459292046750712028615279578969/1000000000000000000000000000000000000 : ℝ) := by
  show (97227182411505843839003576909947367/125000000000000000000000000000000000 : ℝ) ≤ c2y37 - ((3/5 : ℝ) - c2y37 * c2y37) / (-2 * c2y37) ∧
    c2y37 - ((3/5 : ℝ) - c2y37 * c2y37) / (-2 * c2y37) ≤ (777817459292046750712028615279578969/1000000000000000000000000000000000000 : ℝ)
  exact bab_step (3/5 : ℝ) c2y37 (353553390659051392918349574107121767/500000000000000000000000000000000000 : ℝ) (707106781318102785836699148214243563/1000000000000000000000000000000000000 : ℝ) (97227182411505843839003576909947367/125000000000000000000000000000000000 : ℝ) (777817459292046750712028615279578969/1000000000000000000000000000000000000 : ℝ) c2b37 (by norm_num)
    (by norm_num) (by norm_num) (by norm_num)

theorem c2b39 : (387301668786240895025953803198997843/500000000000000000000000000000000000 : ℝ) ≤ (c2y39 : ℝ) ∧ (c2y39 : ℝ) ≤ (19365083439312044751297690159949893/25000000000000000000000000000000000 : ℝ) := by
  show (387301668786240895025953803198997843/500000000000000000000000000000000000 : ℝ) ≤ c2y38 - ((3/5 : ℝ) - c2y38 * c2y38) / (-2 * c2y38) ∧
    c2y38 - ((3/5 : ℝ) - c2y38 * c2y38) / (-2 * c2y38) ≤ (19365083439312044751297690159949893/25000000000000000000000000000000000 : ℝ)
  exact bab_step (3/5 : ℝ) c2y38 (97227182411505843839003576909947367/125000000000000000000000000000000000 : ℝ) (777817459292046750712028615279578969/1000000000000000000000000000000000000 : ℝ) (387301668786240895025953803198997843/500000000000000000000000000000000000 : ℝ) (19365083439312044751297690159949893/25000000000000000000000000000000000 : ℝ) c2b38 (by norm_num)
    (by norm_num) (by norm_num) (by norm_num)

theorem c2b40 : (774596669270186221541887153443513787/1000000000000000000000000000000000000 : ℝ) ≤ (c2y40 : ℝ) ∧ (c2y40 : ℝ) ≤ (387298334635093110770943576721756911/500000000000000000000000000000000000 : ℝ) := by
  show (774596669270186221541887153443513787/1000000000000000000000000000000000000 : ℝ) ≤ c2y39 - ((3/5 : ℝ) - c2y39 * c2y39) / (-2 * c2y39) ∧
    c2y39 - ((3/5 : ℝ) - c2y39 * c2y39) / (-2 * c2y39) ≤ (387298334635093110770943576721756911/500000000000000000000000000000000000 : ℝ)
  exact bab_step (3/5 : ℝ) c2y39 (387301668786240895025953803198997843/500000000000000000000000000000000000 : ℝ) (19365083439312044751297690159949893/25000000000000000000000000000000000 : ℝ) (774596669270186221541887153443513787/1000000000000000000000000000000000000 : ℝ) (387298334635093110770943576721756911/500000000000000000000000000000000000 : ℝ) c2b39 (by norm_num)
    (by norm_num) (by norm_num) (by norm_num)

theorem c2b41 : (209786597918970438686822939501021621/250000000000000000000000000000000000 : ℝ) ≤ (c2y41 : ℝ) ∧ (c2y41 : ℝ) ≤ (839146391675881754747291758004086523/1000000000000000000000000000000000000 : ℝ) := by
  show (209786597918970438686822939501021621/250000000000000000000000000000000000 : ℝ) ≤ c2y40 - ((7/10 : ℝ) - c2y40 * c2y40) / (-2 * c2y40) ∧
    c2y40 - ((7/10 : ℝ) - c2y40 * c2y40) / (-2 * c2y40) ≤ (839146391675881754747291758004086523/1000000000000000000000000000000000000 : ℝ)
  exact bab_step (7/10 : ℝ) c2y40 (774596669270186221541887153443513787/1000000000000000000000000000000000000 : ℝ) (387298334635093110770943576721756911/500000000000000000000000000000000000 : ℝ) (209786597918970438686822939501021621/250000000000000000000000000000000000 : ℝ) (839146391675881754747291758004086523/1000000000000000000000000000000000000 : ℝ) c2b40 (by norm_num)
    (by norm_num) (by norm_num) (by norm_num)

theorem c2b42 : (418331855023041170112128636489339163/500000000000000000000000000000000000 : ℝ) ≤ (c2y42 : ℝ) ∧ (c2y42 : ℝ) ≤ (418331855023041170112128636489339183/500000000000000000000000000000000000 : ℝ) := by
  show (418331855023041170112128636489339163/500000000000000000000000000000000000 : ℝ) ≤ c2y41 - ((7/10 : ℝ) - c2y41 * c2y41) / (-2 * c2y41) ∧
    c2y41 - ((7/10 : ℝ) - c2y41 * c2y41) / (-2 * c2y41) ≤ (418331855023041170112128636489339183/500000000000000000000000000000000000 : ℝ)
  exact bab_step (7/10 : ℝ) c2y41 (209786597918970438686822939501021621/250000000000000000000000000000000000 : ℝ) (839146391675881754747291758004086523/1000000000000000000000000000000000000 : ℝ) (418331855023041170112128636489339163/500000000000000000000000000000000000 : ℝ) (418331855023041170112128636489339183/500000000000000000000000000000000000 : ℝ) c2b41 (by norm_num)
    (by norm_num) (by norm_num) (by norm_num)

theorem c2b43 : (418330013271092049482711557485479281/500000000000000000000000000000000000 : ℝ) ≤ (c2y43 : ℝ) ∧ (c2y43 : ℝ) ≤ (836660026542184098965423114970958603/1000000000000000000000000000000000000 : ℝ) := by
  show (418330013271092049482711557485479281/500000000000000000000000000000000000 : ℝ) ≤ c2y42 - ((7/10 : ℝ) - c2y42 * c2y42) / (-2 * c2y42) ∧
    c2y42 - ((7/10 : ℝ) - c2y42 * c2y42) / (-2 * c2y42) ≤ (836660026542184098965423114970958603/1000000000000000000000000000000000000 : ℝ)
  exact bab_step (7/10 : ℝ) c2y42 (418331855023041170112128636489339163/500000000000000000000000000000000000 : ℝ) (418331855023041170112128636489339183/500000000000000000000000000000000000 : ℝ) (418330013271092049482711557485479281/500000000000000000000000000000000000 : ℝ) (836660026542184098965423114970958603/1000000000000000000000000000000000000 : ℝ) c2b42 (by norm_num)
    (by norm_num) (by norm_num) (by norm_num)

theorem c2b44 : (896421457000216047763282712460392967/1000000000000000000000000000000000000 : ℝ) ≤ (c2y44 : ℝ) ∧ (c2y44 : ℝ) ≤ (224105364250054011940820678115098253/250000000000000000000000000000000000 : ℝ) := by
  show (896421457000216047763282712460392967/1000000000000000000000000000000000000 : ℝ) ≤ c2y43 - ((4/5 : ℝ) - c2y43 * c2y43) / (-2 * c2y43) ∧
    c2y43 - ((4/5 : ℝ) - c2y43 * c2y43) / (-2 * c2y43) ≤ (224105364250054011940820678115098253/250000000000000000000000000000000000 : ℝ)
  exact bab_step (4/5 : ℝ) c2y43 (418330013271092049482711557485479281/500000000000000000000000000000000000 : ℝ) (836660026542184098965423114970958603/1000000000000000000000000000000000000 : ℝ) (896421457000216047763282712460392967/1000000000000000000000000000000000000 : ℝ) (224105364250054011940820678115098253/250000000000000000000000000000000000 : ℝ) c2b43 (by norm_num)
    (by norm_num) (by norm_num) (by norm_num)

theorem c2b45 : (894429409318569953505079864250957393/1000000000000000000000000000000000000 : ℝ) ≤ (c2y45 : ℝ) ∧ (c2y45 : ℝ) ≤ (894429409318569953505079864250957439/1000000000000000000000000000000000000 : ℝ) := by
  show (894429409318569953505079864250957393/1000000000000000000000000000000000000 : ℝ) ≤ c2y44 - ((4/5 : ℝ) - c2y44 * c2y44) / (-2 * c2y44) ∧
    c2y44 - ((4/5 : ℝ) - c2y44 * c2y44) / (-2 * c2y44) ≤ (894429409318569953505079864250957439/1000000000000000000000000000000000000 : ℝ)
  exact bab_step (4/5 : ℝ) c2y44 (896421457000216047763282712460392967/1000000000000000000000000000000000000 : ℝ) (224105364250054011940820678115098253/250000000000000000000000000000000000 : ℝ) (894429409318569953505079864250957393/1000000000000000000000000000000000000 : ℝ) (894429409318569953505079864250957439/1000000000000000000000000000000000000 : ℝ) c2b44 (by norm_num)
    (by norm_num) (by norm_num) (by norm_num)

theorem c2b46 : (27950849718833336234882327520904909/31250000000000000000000000000000000 : ℝ) ≤ (c2y46 : ℝ) ∧ (c2y46 : ℝ) ≤ (178885438200533351903246896133791427/200000000000000000000000000000000000 : ℝ) := by
  show (27950849718833336234882327520904909/31250000000000000000000000000000000 : ℝ) ≤ c2y45 - ((4/5 : ℝ) - c2y45 * c2y45) / (-2 * c2y45) ∧
    c2y45 - ((4/5 : ℝ) - c2y45 * c2y45) / (-2 * c2y45) ≤ (178885438200533351903246896133791427/200000000000000000000000000000000000 : ℝ)
  exact bab_step (4/5 : ℝ) c2y45 (894429409318569953505079864250957393/1000000000000000000000000000000000000 : ℝ) (894429409318569953505079864250957439/1000000000000000000000000000000000000 : ℝ) (27950849718833336234882327520904909/31250000000000000000000000000000000 : ℝ) (178885438200533351903246896133791427/200000000000000000000000000000000000 : ℝ) c2b45 (by norm_num)
    (by norm_num) (by norm_num) (by norm_num)

theorem c2b47 : (950328890437238690914368254946667351/1000000000000000000000000000000000000 : ℝ) ≤ (c2y47 : ℝ) ∧ (c2y47 : ℝ) ≤ (475164445218619345457184127473333701/500000000000000000000000000000000000 : ℝ) := by
  show (950328890437238690914368254946667351/1000000000000000000000000000000000000 : ℝ) ≤ c2y46 - ((9/10 : ℝ) - c2y46 * c2y46) / (-2 * c2y46) ∧
    c2y46 - ((9/10 : ℝ) - c2y46 * c2y46) / (-2 * c2y46) ≤ (475164445218619345457184127473333701/500000000000000000000000000000000000 : ℝ)
  exact bab_step (9/10 : ℝ) c2y46 (27950849718833336234882327520904909/31250000000000000000000000000000000 : ℝ) (178885438200533351903246896133791427/200000000000000000000000000000000000 : ℝ) (950328890437238690914368254946667351/1000000000000000000000000000000000000 : ℝ) (475164445218619345457184127473333701/500000000000000000000000000000000000 : ℝ) c2b46 (by norm_num)
    (by norm_num) (by norm_num) (by norm_num)

theorem c2b48 : (948684722806895772269688739305523423/1000000000000000000000000000000000000 : ℝ) ≤ (c2y48 : ℝ) ∧ (c2y48 : ℝ) ≤ (37947388912275830890787549572220939/40000000000000000000000000000000000 : ℝ) := by
  show (948684722806895772269688739305523423/1000000000000000000000000000000000000 : ℝ) ≤ c2y47 - ((9/10 : ℝ) - c2y47 * c2y47) / (-2 * c2y47) ∧
    c2y47 - ((9/10 : ℝ) - c2y47 * c2y47) / (-2 * c2y47) ≤ (37947388912275830890787549572220939/40000000000000000000000000000000000 : ℝ)
  exact bab_step (9/10 : ℝ) c2y47 (950328890437238690914368254946667351/1000000000000000000000000000000000000 : ℝ) (475164445218619345457184127473333701/500000000000000000000000000000000000 : ℝ) (948684722806895772269688739305523423/1000000000000000000000000000000000000 : ℝ) (37947388912275830890787549572220939/40000000000000000000000000000000000 : ℝ) c2b47 (by norm_num)
    (by norm_num) (by norm_num) (by norm_num)

theorem c2b49 : (29646353064111989544861981823002281/31250000000000000000000000000000000 : ℝ) ≤ (c2y49 : ℝ) ∧ (c2y49 : ℝ) ≤ (189736659610316733087116683667214609/200000000000000000000000000000000000 : ℝ) := by
  show (29646353064111989544861981823002281/31250000000000000000000000000000000 : ℝ) ≤ c2y48 - ((9/10 : ℝ) - c2y48 * c2y48) / (-2 * c2y48) ∧
    c2y48 - ((9/10 : ℝ) - c2y48 * c2y48) / (-2 * c2y48) ≤ (189736659610316733087116683667214609/200000000000000000000000000000000000 : ℝ)
  exact bab_step (9/10 : ℝ) c2y48 (948684722806895772269688739305523423/1000000000000000000000000000000000000 : ℝ) (37947388912275830890787549572220939/40000000000000000000000000000000000 : ℝ) (29646353064111989544861981823002281/31250000000000000000000000000000000 : ℝ) (189736659610316733087116683667214609/200000000000000000000000000000000000 : ℝ) c2b48 (by norm_num)
    (by norm_num) (by norm_num) (by norm_num)

theorem c2b50 : (500693962859963675737716386487212611/500000000000000000000000000000000000 : ℝ) ≤ (c2y50 : ℝ) ∧ (c2y50 : ℝ) ≤ (1001387925719927351475432772974425279/1000000000000000000000000000000000000 : ℝ) := by
  show (500693962859963675737716386487212611/500000000000000000000000000000000000 : ℝ) ≤ c2y49 - ((1 : ℝ) - c2y49 * c2y49) / (-2 * c2y49) ∧
    c2y49 - ((1 : ℝ) - c2y49 * c2y49) / (-2 * c2y49) ≤ (1001387925719927351475432772974425279/1000000000000000000000000000000000000 : ℝ)
  exact bab_step (1 : ℝ) c2y49 (29646353064111989544861981823002281/31250000000000000000000000000000000 : ℝ) (189736659610316733087116683667214609/200000000000000000000000000000000000 : ℝ) (500693962859963675737716386487212611/500000000000000000000000000000000000 : ℝ) (1001387925719927351475432772974425279/1000000000000000000000000000000000000 : ℝ) c2b49 (by norm_num)
    (by norm_num) (by norm_num) (by norm_num)

theorem c2b51 : (1000000961833947943278702440683744657/1000000000000000000000000000000000000 : ℝ) ≤ (c2y51 : ℝ) ∧ (c2y51 : ℝ) ≤ (200000192366789588655740488136748943/200000000000000000000000000000000000 : ℝ) := by
  show (1000000961833947943278702440683744657/1000000000000000000000000000000000000 : ℝ) ≤ c2y50 - ((1 : ℝ) - c2y50 * c2y50) / (-2 * c2y50) ∧
    c2y50 - ((1 : ℝ) - c2y50 * c2y50) / (-2 * c2y50) ≤ (200000192366789588655740488136748943/200000000000000000000000000000000000 : ℝ)
  exact bab_step (1 : ℝ) c2y50 (500693962859963675737716386487212611/500000000000000000000000000000000000 : ℝ) (1001387925719927351475432772974425279/1000000000000000000000000000000000000 : ℝ) (1000000961833947943278702440683744657/1000000000000000000000000000000000000 : ℝ) (200000192366789588655740488136748943/200000000000000000000000000000000000 : ℝ) c2b50 (by norm_num)
    (by norm_num) (by norm_num) (by norm_num)

theorem c2b52 : (1000000000000462561826800408843142081/1000000000000000000000000000000000000 : ℝ) ≤ (c2y52 : ℝ) ∧ (c2y52 : ℝ) ≤ (50000000000023128091340020442157107/50000000000000000000000000000000000 : ℝ) := by
  show (1000000000000462561826800408843142081/1000000000000000000000000000000000000 : ℝ) ≤ c2y51 - ((1 : ℝ) - c2y51 * c2y51) / (-2 * c2y51) ∧
    c2y51 - ((1 : ℝ) - c2y51 * c2y51) / (-2 * c2y51) ≤ (50000000000023128091340020442157107/50000000000000000000000000000000000 : ℝ)
  exact bab_step (1 : ℝ) c2y51 (1000000961833947943278702440683744657/1000000000000000000000000000000000000 : ℝ) (200000192366789588655740488136748943/200000000000000000000000000000000000 : ℝ) (1000000000000462561826800408843142081/1000000000000000000000000000000000000 : ℝ) (50000000000023128091340020442157107/50000000000000000000000000000000000 : ℝ) c2b51 (by norm_num)
    (by norm_num) (by norm_num) (by norm_num)

theorem c2b53 : (20999999999999537438173201944754737/20000000000000000000000000000000000 : ℝ) ≤ (c2y53 : ℝ) ∧ (c2y53 : ℝ) ≤ (1049999999999976871908660097237736913/1000000000000000000000000000000000000 : ℝ) := by
  show (20999999999999537438173201944754737/20000000000000000000000000000000000 : ℝ) ≤ c2y52 - ((11/10 : ℝ) - c2y52 * c2y52) / (-2 * c2y52) ∧
    c2y52 - ((11/10 : ℝ) - c2y52 * c2y52) / (-2 * c2y52) ≤ (1049999999999976871908660097237736913/1000000000000000000000000000000000000 : ℝ)
  exact bab_step (11/10 : ℝ) c2y52 (1000000000000462561826800408843142081/1000000000000000000000000000000000000 : ℝ) (50000000000023128091340020442157107/50000000000000000000000000000000000 : ℝ) (20999999999999537438173201944754737/20000000000000000000000000000000000 : ℝ) (1049999999999976871908660097237736913/1000000000000000000000000000000000000 : ℝ) c2b52 (by norm_num)
    (by norm_num) (by norm_num) (by norm_num)

theorem c2b54 : (1048809523809523783301483741860986267/1000000000000000000000000000000000000 : ℝ) ≤ (c2y54 : ℝ) ∧ (c2y54 : ℝ) ≤ (1048809523809523783301483741860986331/1000000000000000000000000000000000000 : ℝ) := by
  show (1048809523809523783301483741860986267/1000000000000000000000000000000000000 : ℝ) ≤ c2y53 - ((11/10 : ℝ) - c2y53 * c2y53) / (-2 * c2y53) ∧
    c2y53 - ((11/10 : ℝ) - c2y53 * c2y53) / (-2 * c2y53) ≤ (1048809523809523783301483741860986331/1000000000000000000000000000000000000 : ℝ)
  exact bab_step (11/10 : ℝ) c2y53 (20999999999999537438173201944754737/20000000000000000000000000000000000 : ℝ) (1049999999999976871908660097237736913/1000000000000000000000000000000000000 : ℝ) (1048809523809523783301483741860986267/1000000000000000000000000000000000000 : ℝ) (1048809523809523783301483741860986331/1000000000000000000000000000000000000 : ℝ) c2b53 (by norm_num)
    (by norm_num) (by norm_num) (by norm_num)

theorem c2b55 : (1048808848170369169234078561976021933/1000000000000000000000000000000000000 : ℝ) ≤ (c2y55 : ℝ) ∧ (c2y55 : ℝ) ≤ (524404424085184584617039280988010999/500000000000000000000000000000000000 : ℝ) := by
  show (1048808848170369169234078561976021933/1000000000000000000000000000000000000 : ℝ) ≤ c2y54 - ((11/10 : ℝ) - c2y54 * c2y54) / (-2 * c2y54) ∧
    c2y54 - ((11/10 : ℝ) - c2y54 * c2y54) / (-2 * c2y54) ≤ (524404424085184584617039280988010999/500000000000000000000000000000000000 : ℝ)
  exact bab_step (11/10 : ℝ) c2y54 (1048809523809523783301483741860986267/1000000000000000000000000000000000000 : ℝ) (1048809523809523783301483741860986331/1000000000000000000000000000000000000 : ℝ) (1048808848170369169234078561976021933/1000000000000000000000000000000000000 : ℝ) (524404424085184584617039280988010999/500000000000000000000000000000000000 : ℝ) c2b54 (by norm_num)
    (by norm_num) (by norm_num) (by norm_num)

theorem c2b56 : (548240988816210635421836507004725833/500000000000000000000000000000000000 : ℝ) ≤ (c2y56 : ℝ) ∧ (c2y56 : ℝ) ≤ (548240988816210635421836507004725867/500000000000000000000000000000000000 : ℝ) := by
  show (548240988816210635421836507004725833/500000000000000000000000000000000000 : ℝ) ≤ c2y55 - ((6/5 : ℝ) - c2y55 * c2y55) / (-2 * c2y55) ∧
    c2y55 - ((6/5 : ℝ) - c2y55 * c2y55) / (-2 * c2y55) ≤ (548240988816210635421836507004725867/500000000000000000000000000000000000 : ℝ)
  exact bab_step (6/5 : ℝ) c2y55 (1048808848170369169234078561976021933/1000000000000000000000000000000000000 : ℝ) (524404424085184584617039280988010999/500000000000000000000000000000000000 : ℝ) (548240988816210635421836507004725833/500000000000000000000000000000000000 : ℝ) (548240988816210635421836507004725867/500000000000000000000000000000000000 : ℝ) c2b55 (by norm_num)
    (by norm_num) (by norm_num) (by norm_num)

theorem c2b57 : (1095445605252816379158230956676539943/1000000000000000000000000000000000000 : ℝ) ≤ (c2y57 : ℝ) ∧ (c2y57 : ℝ) ≤ (273861401313204094789557739169135003/250000000000000000000000000000000000 : ℝ) := by
  show (1095445605252816379158230956676539943/1000000000000000000000000000000000000 : ℝ) ≤ c2y56 - ((6/5 : ℝ) - c2y56 * c2y56) / (-2 * c2y56) ∧
    c2y56 - ((6/5 : ℝ) - c2y56 * c2y56) / (-2 * c2y56) ≤ (273861401313204094789557739169135003/250000000000000000000000000000000000 : ℝ)
  exact bab_step (6/5 : ℝ) c2y56 (548240988816210635421836507004725833/500000000000000000000000000000000000 : ℝ) (548240988816210635421836507004725867/500000000000000000000000000000000000 : ℝ) (1095445605252816379158230956676539943/1000000000000000000000000000000000000 : ℝ) (273861401313204094789557739169135003/250000000000000000000000000000000000 : ℝ) c2b56 (by norm_num)
    (by norm_num) (by norm_num) (by norm_num)

theorem c2b58 : (273861278752610481377882738075169583/250000000000000000000000000000000000 : ℝ) ≤ (c2y58 : ℝ) ∧ (c2y58 : ℝ) ≤ (547722557505220962755765476150339201/500000000000000000000000000000000000 : ℝ) := by
  show (273861278752610481377882738075169583/250000000000000000000000000000000000 : ℝ) ≤ c2y57 - ((6/5 : ℝ) - c2y57 * c2y57) / (-2 * c2y57) ∧
    c2y57 - ((6/5 : ℝ) - c2y57 * c2y57) / (-2 * c2y57) ≤ (547722557505220962755765476150339201/500000000000000000000000000000000000 : ℝ)
  exact bab_step (6/5 : ℝ) c2y57 (1095445605252816379158230956676539943/1000000000000000000000000000000000000 : ℝ) (273861401313204094789557739169135003/250000000000000000000000000000000000 : ℝ) (273861278752610481377882738075169583/250000000000000000000000000000000000 : ℝ) (547722557505220962755765476150339201/500000000000000000000000000000000000 : ℝ) c2b57 (by norm_num)
    (by norm_num) (by norm_num) (by norm_num)

theorem c2b59 : (1141088661469091498927120745672908427/1000000000000000000000000000000000000 : ℝ) ≤ (c2y59 : ℝ) ∧ (c2y59 : ℝ) ≤ (1141088661469091498927120745672908501/1000000000000000000000000000000000000 : ℝ) := by
  show (1141088661469091498927120745672908427/1000000000000000000000000000000000000 : ℝ) ≤ c2y58 - ((13/10 : ℝ) - c2y58 * c2y58) / (-2 * c2y58) ∧
    c2y58 - ((13/10 : ℝ) - c2y58 * c2y58) / (-2 * c2y58) ≤ (1141088661469091498927120745672908501/1000000000000000000000000000000000000 : ℝ)
  exact bab_step (13/10 : ℝ) c2y58 (273861278752610481377882738075169583/250000000000000000000000000000000000 : ℝ) (547722557505220962755765476150339201/500000000000000000000000000000000000 : ℝ) (1141088661469091498927120745672908427/1000000000000000000000000000000000000 : ℝ) (1141088661469091498927120745672908501/1000000000000000000000000000000000000 : ℝ) c2b58 (by norm_num)
    (by norm_num) (by norm_num) (by norm_num)

theorem c2b60 : (1140175790539920789189638844831346489/1000000000000000000000000000000000000 : ℝ) ≤ (c2y60 : ℝ) ∧ (c2y60 : ℝ) ≤ (285043947634980197297409711207836641/250000000000000000000000000000000000 : ℝ) := by
  show (1140175790539920789189638844831346489/1000000000000000000000000000000000000 : ℝ) ≤ c2y59 - ((13/10 : ℝ) - c2y59 * c2y59) / (-2 * c2y59) ∧
    c2y59 - ((13/10 : ℝ) - c2y59 * c2y59) / (-2 * c2y59) ≤ (285043947634980197297409711207836641/250000000000000000000000000000000000 : ℝ)
  exact bab_step (13/10 : ℝ) c2y59 (1141088661469091498927120745672908427/1000000000000000000000000000000000000 : ℝ) (1141088661469091498927120745672908501/1000000000000000000000000000000000000 : ℝ) (1140175790539920789189638844831346489/1000000000000000000000000000000000000 : ℝ) (285043947634980197297409711207836641/250000000000000000000000000000000000 : ℝ) c2b59 (by norm_num)
    (by norm_num) (by norm_num) (by norm_num)

theorem c2b61 : (1140175425099196543335907007422910123/1000000000000000000000000000000000000 : ℝ) ≤ (c2y61 : ℝ) ∧ (c2y61 : ℝ) ≤ (1140175425099196543335907007422910199/1000000000000000000000000000000000000 : ℝ) := by
  show (1140175425099196543335907007422910123/1000000000000000000000000000000000000 : ℝ) ≤ c2y60 - ((13/10 : ℝ) - c2y60 * c2y60) / (-2 * c2y60) ∧
    c2y60 - ((13/10 : ℝ) - c2y60 * c2y60) / (-2 * c2y60) ≤ (1140175425099196543335907007422910199/1000000000000000000000000000000000000 : ℝ)
  exact bab_step (13/10 : ℝ) c2y60 (1140175790539920789189638844831346489/1000000000000000000000000000000000000 : ℝ) (285043947634980197297409711207836641/250000000000000000000000000000000000 : ℝ) (1140175425099196543335907007422910123/1000000000000000000000000000000000000 : ℝ) (1140175425099196543335907007422910199/1000000000000000000000000000000000000 : ℝ) c2b60 (by norm_num)
    (by norm_num) (by norm_num) (by norm_num)

theorem c2b62 : (37000885189515224606338300180961131/31250000000000000000000000000000000 : ℝ) ≤ (c2y62 : ℝ) ∧ (c2y62 : ℝ) ≤ (74001770379030449212676600361922267/62500000000000000000000000000000000 : ℝ) := by
  show (37000885189515224606338300180961131/31250000000000000000000000000000000 : ℝ) ≤ c2y61 - ((7/5 : ℝ) - c2y61 * c2y61) / (-2 * c2y61) ∧
    c2y61 - ((7/5 : ℝ) - c2y61 * c2y61) / (-2 * c2y61) ≤ (74001770379030449212676600361922267/62500000000000000000000000000000000 : ℝ)
  exact bab_step (7/5 : ℝ) c2y61 (1140175425099196543335907007422910123/1000000000000000000000000000000000000 : ℝ) (1140175425099196543335907007422910199/1000000000000000000000000000000000000 : ℝ) (37000885189515224606338300180961131/31250000000000000000000000000000000 : ℝ) (74001770379030449212676600361922267/62500000000000000000000000000000000 : ℝ) c2b61 (by norm_num)
    (by norm_num) (by norm_num) (by norm_num)

theorem c2b63 : (295804058826467954670972042569588989/250000000000000000000000000000000000 : ℝ) ≤ (c2y63 : ℝ) ∧ (c2y63 : ℝ) ≤ (1183216235305871818683888170278356037/1000000000000000000000000000000000000 : ℝ) := by
  show (295804058826467954670972042569588989/250000000000000000000000000000000000 : ℝ) ≤ c2y62 - ((7/5 : ℝ) - c2y62 * c2y62) / (-2 * c2y62) ∧
    c2y62 - ((7/5 : ℝ) - c2y62 * c2y62) / (-2 * c2y62) ≤ (1183216235305871818683888170278356037/1000000000000000000000000000000000000 : ℝ)
  exact bab_step (7/5 : ℝ) c2y62 (37000885189515224606338300180961131/31250000000000000000000000000000000 : ℝ) (74001770379030449212676600361922267/62500000000000000000000000000000000 : ℝ) (295804058826467954670972042569588989/250000000000000000000000000000000000 : ℝ) (1183216235305871818683888170278356037/1000000000000000000000000000000000000 : ℝ) c2b62 (by norm_num)
    (by norm_num) (by norm_num) (by norm_num)

theorem c2b64 : (591607978309978014160441738551172529/500000000000000000000000000000000000 : ℝ) ≤ (c2y64 : ℝ) ∧ (c2y64 : ℝ) ≤ (59160797830997801416044173855117257/50000000000000000000000000000000000 : ℝ) := by
  show (591607978309978014160441738551172529/500000000000000000000000000000000000 : ℝ) ≤ c2y63 - ((7/5 : ℝ) - c2y63 * c2y63) / (-2 * c2y63) ∧
    c2y63 - ((7/5 : ℝ) - c2y63 * c2y63) / (-2 * c2y63) ≤ (59160797830997801416044173855117257/50000000000000000000000000000000000 : ℝ)
  exact bab_step (7/5 : ℝ) c2y63 (295804058826467954670972042569588989/250000000000000000000000000000000000 : ℝ) (1183216235305871818683888170278356037/1000000000000000000000000000000000000 : ℝ) (591607978309978014160441738551172529/500000000000000000000000000000000000 : ℝ) (59160797830997801416044173855117257/50000000000000000000000000000000000 : ℝ) c2b63 (by norm_num)
    (by norm_num) (by norm_num) (by norm_num)

theorem c2b65 : (76592104334771741578310460459648649/62500000000000000000000000000000000 : ℝ) ≤ (c2y65 : ℝ) ∧ (c2y65 : ℝ) ≤ (122547366935634786525296736735437847/100000000000000000000000000000000000 : ℝ) := by
  show (76592104334771741578310460459648649/62500000000000000000000000000000000 : ℝ) ≤ c2y64 - ((3/2 : ℝ) - c2y64 * c2y64) / (-2 * c2y64) ∧
    c2y64 - ((3/2 : ℝ) - c2y64 * c2y64) / (-2 * c2y64) ≤ (122547366935634786525296736735437847/100000000000000000000000000000000000 : ℝ)
  exact bab_step (3/2 : ℝ) c2y64 (591607978309978014160441738551172529/500000000000000000000000000000000000 : ℝ) (59160797830997801416044173855117257/50000000000000000000000000000000000 : ℝ) (76592104334771741578310460459648649/62500000000000000000000000000000000 : ℝ) (122547366935634786525296736735437847/100000000000000000000000000000000000 : ℝ) c2b64 (by norm_num)
    (by norm_num) (by norm_num) (by norm_num)

theorem c2b66 : (1224745088102272729297671351267383341/1000000000000000000000000000000000000 : ℝ) ≤ (c2y66 : ℝ) ∧ (c2y66 : ℝ) ≤ (1224745088102272729297671351267383427/1000000000000000000000000000000000000 : ℝ) := by
  show (1224745088102272729297671351267383341/1000000000000000000000000000000000000 : ℝ) ≤ c2y65 - ((3/2 : ℝ) - c2y65 * c2y65) / (-2 * c2y65) ∧
    c2y65 - ((3/2 : ℝ) - c2y65 * c2y65) / (-2 * c2y65) ≤ (1224745088102272729297671351267383427/1000000000000000000000000000000000000 : ℝ)
  exact bab_step (3/2 : ℝ) c2y65 (76592104334771741578310460459648649/62500000000000000000000000000000000 : ℝ) (122547366935634786525296736735437847/100000000000000000000000000000000000 : ℝ) (1224745088102272729297671351267383341/1000000000000000000000000000000000000 : ℝ) (1224745088102272729297671351267383427/1000000000000000000000000000000000000 : ℝ) c2b65 (by norm_num)
    (by norm_num) (by norm_num) (by norm_num)

theorem c2b67 : (1224744871391608221872175633912324059/1000000000000000000000000000000000000 : ℝ) ≤ (c2y67 : ℝ) ∧ (c2y67 : ℝ) ≤ (612372435695804110936087816956162073/500000000000000000000000000000000000 : ℝ) := by
  show (1224744871391608221872175633912324059/1000000000000000000000000000000000000 : ℝ) ≤ c2y66 - ((3/2 : ℝ) - c2y66 * c2y66) / (-2 * c2y66) ∧
    c2y66 - ((3/2 : ℝ) - c2y66 * c2y66) / (-2 * c2y66) ≤ (612372435695804110936087816956162073/500000000000000000000000000000000000 : ℝ)
  exact bab_step (3/2 : ℝ) c2y66 (1224745088102272729297671351267383341/1000000000000000000000000000000000000 : ℝ) (1224745088102272729297671351267383427/1000000000000000000000000000000000000 : ℝ) (1224744871391608221872175633912324059/1000000000000000000000000000000000000 : ℝ) (612372435695804110936087816956162073/500000000000000000000000000000000000 : ℝ) c2b66 (by norm_num)
    (by norm_num) (by norm_num) (by norm_num)

theorem c2b68 : (1265569700437974711642812318872806033/1000000000000000000000000000000000000 : ℝ) ≤ (c2y68 : ℝ) ∧ (c2y68 : ℝ) ≤ (1265569700437974711642812318872806123/1000000000000000000000000000000000000 : ℝ) := by
  show (1265569700437974711642812318872806033/1000000000000000000000000000000000000 : ℝ) ≤ c2y67 - ((8/5 : ℝ) - c2y67 * c2y67) / (-2 * c2y67) ∧
    c2y67 - ((8/5 : ℝ) - c2y67 * c2y67) / (-2 * c2y67) ≤ (1265569700437974711642812318872806123/1000000000000000000000000000000000000 : ℝ)
  exact bab_step (8/5 : ℝ) c2y67 (1224744871391608221872175633912324059/1000000000000000000000000000000000000 : ℝ) (612372435695804110936087816956162073/500000000000000000000000000000000000 : ℝ) (1265569700437974711642812318872806033/1000000000000000000000000000000000000 : ℝ) (1265569700437974711642812318872806123/1000000000000000000000000000000000000 : ℝ) c2b67 (by norm_num)
    (by norm_num) (by norm_num) (by norm_num)

theorem c2b69 : (158113904431669527063173036838412253/125000000000000000000000000000000000 : ℝ) ≤ (c2y69 : ℝ) ∧ (c2y69 : ℝ) ≤ (252982247090671243301076858941459623/200000000000000000000000000000000000 : ℝ) := by
  show (158113904431669527063173036838412253/125000000000000000000000000000000000 : ℝ) ≤ c2y68 - ((8/5 : ℝ) - c2y68 * c2y68) / (-2 * c2y68) ∧
    c2y68 - ((8/5 : ℝ) - c2y68 * c2y68) / (-2 * c2y68) ≤ (252982247090671243301076858941459623/200000000000000000000000000000000000 : ℝ)
  exact bab_step (8/5 : ℝ) c2y68 (1265569700437974711642812318872806033/1000000000000000000000000000000000000 : ℝ) (1265569700437974711642812318872806123/1000000000000000000000000000000000000 : ℝ) (158113904431669527063173036838412253/125000000000000000000000000000000000 : ℝ) (252982247090671243301076858941459623/200000000000000000000000000000000000 : ℝ) c2b68 (by norm_num)
    (by norm_num) (by norm_num) (by norm_num)

theorem c2b70 : (632455532033681671779972513792742047/500000000000000000000000000000000000 : ℝ) ≤ (c2y70 : ℝ) ∧ (c2y70 : ℝ) ≤ (632455532033681671779972513792742093/500000000000000000000000000000000000 : ℝ) := by
  show (632455532033681671779972513792742047/500000000000000000000000000000000000 : ℝ) ≤ c2y69 - ((8/5 : ℝ) - c2y69 * c2y69) / (-2 * c2y69) ∧
    c2y69 - ((8/5 : ℝ) - c2y69 * c2y69) / (-2 * c2y69) ≤ (632455532033681671779972513792742093/500000000000000000000000000000000000 : ℝ)
  exact bab_step (8/5 : ℝ) c2y69 (158113904431669527063173036838412253/125000000000000000000000000000000000 : ℝ) (252982247090671243301076858941459623/200000000000000000000000000000000000 : ℝ) (632455532033681671779972513792742047/500000000000000000000000000000000000 : ℝ) (632455532033681671779972513792742093/500000000000000000000000000000000000 : ℝ) c2b69 (by norm_num)
    (by norm_num) (by norm_num) (by norm_num)

theorem c2b71 : (13044395348194561116132814743284777/10000000000000000000000000000000000 : ℝ) ≤ (c2y71 : ℝ) ∧ (c2y71 : ℝ) ≤ (260887906963891222322656294865695559/200000000000000000000000000000000000 : ℝ) := by
  show (13044395348194561116132814743284777/10000000000000000000000000000000000 : ℝ) ≤ c2y70 - ((17/10 : ℝ) - c2y70 * c2y70) / (-2 * c2y70) ∧
    c2y70 - ((17/10 : ℝ) - c2y70 * c2y70) / (-2 * c2y70) ≤ (260887906963891222322656294865695559/200000000000000000000000000000000000 : ℝ)
  exact bab_step (17/10 : ℝ) c2y70 (632455532033681671779972513792742047/500000000000000000000000000000000000 : ℝ) (632455532033681671779972513792742093/500000000000000000000000000000000000 : ℝ) (13044395348194561116132814743284777/10000000000000000000000000000000000 : ℝ) (260887906963891222322656294865695559/200000000000000000000000000000000000 : ℝ) c2b70 (by norm_num)
    (by norm_num) (by norm_num) (by norm_num)

theorem c2b72 : (26076812371918794715462076464253869/20000000000000000000000000000000000 : ℝ) ≤ (c2y72 : ℝ) ∧ (c2y72 : ℝ) ≤ (651920309297969867886551911606346773/500000000000000000000000000000000000 : ℝ) := by
  show (26076812371918794715462076464253869/20000000000000000000000000000000000 : ℝ) ≤ c2y71 - ((17/10 : ℝ) - c2y71 * c2y71) / (-2 * c2y71) ∧
    c2y71 - ((17/10 : ℝ) - c2y71 * c2y71) / (-2 * c2y71) ≤ (651920309297969867886551911606346773/500000000000000000000000000000000000 : ℝ)
  exact bab_step (17/10 : ℝ) c2y71 (13044395348194561116132814743284777/10000000000000000000000000000000000 : ℝ) (260887906963891222322656294865695559/200000000000000000000000000000000000 : ℝ) (26076812371918794715462076464253869/20000000000000000000000000000000000 : ℝ) (651920309297969867886551911606346773/500000000000000000000000000000000000 : ℝ) c2b71 (by norm_num)
    (by norm_num) (by norm_num) (by norm_num)

theorem c2b73 : (13038404810405369989763260134858721/10000000000000000000000000000000000 : ℝ) ≤ (c2y73 : ℝ) ∧ (c2y73 : ℝ) ≤ (1303840481040536998976326013485872197/1000000000000000000000000000000000000 : ℝ) := by
  show (13038404810405369989763260134858721/10000000000000000000000000000000000 : ℝ) ≤ c2y72 - ((17/10 : ℝ) - c2y72 * c2y72) / (-2 * c2y72) ∧
    c2y72 - ((17/10 : ℝ) - c2y72 * c2y72) / (-2 * c2y72) ≤ (1303840481040536998976326013485872197/1000000000000000000000000000000000000 : ℝ)
  exact bab_step (17/10 : ℝ) c2y72 (26076812371918794715462076464253869/20000000000000000000000000000000000 : ℝ) (651920309297969867886551911606346773/500000000000000000000000000000000000 : ℝ) (13038404810405369989763260134858721/10000000000000000000000000000000000 : ℝ) (1303840481040536998976326013485872197/1000000000000000000000000000000000000 : ℝ) c2b72 (by norm_num)
    (by norm_num) (by norm_num) (by norm_num)

theorem c2b74 : (167773591310362256419195107355629089/125000000000000000000000000000000000 : ℝ) ≤ (c2y74 : ℝ) ∧ (c2y74 : ℝ) ≤ (1342188730482898051353560858845032813/1000000000000000000000000000000000000 : ℝ) := by
  show (167773591310362256419195107355629089/125000000000000000000000000000000000 : ℝ) ≤ c2y73 - ((9/5 : ℝ) - c2y73 * c2y73) / (-2 * c2y73) ∧
    c2y73 - ((9/5 : ℝ) - c2y73 * c2y73) / (-2 * c2y73) ≤ (1342188730482898051353560858845032813/1000000000000000000000000000000000000 : ℝ)
  exact bab_step (9/5 : ℝ) c2y73 (13038404810405369989763260134858721/10000000000000000000000000000000000 : ℝ) (1303840481040536998976326013485872197/1000000000000000000000000000000000000 : ℝ) (167773591310362256419195107355629089/125000000000000000000000000000000000 : ℝ) (1342188730482898051353560858845032813/1000000000000000000000000000000000000 : ℝ) c2b73 (by norm_num)
    (by norm_num) (by norm_num) (by norm_num)

theorem c2b75 : (1341640898348007285796396418695181791/1000000000000000000000000000000000000 : ℝ) ≤ (c2y75 : ℝ) ∧ (c2y75 : ℝ) ≤ (1341640898348007285796396418695181893/1000000000000000000000000000000000000 : ℝ) := by
  show (1341640898348007285796396418695181791/1000000000000000000000000000000000000 : ℝ) ≤ c2y74 - ((9/5 : ℝ) - c2y74 * c2y74) / (-2 * c2y74) ∧
    c2y74 - ((9/5 : ℝ) - c2y74 * c2y74) / (-2 * c2y74) ≤ (1341640898348007285796396418695181893/1000000000000000000000000000000000000 : ℝ)
  exact bab_step (9/5 : ℝ) c2y74 (167773591310362256419195107355629089/125000000000000000000000000000000000 : ℝ) (1342188730482898051353560858845032813/1000000000000000000000000000000000000 : ℝ) (1341640898348007285796396418695181791/1000000000000000000000000000000000000 : ℝ) (1341640898348007285796396418695181893/1000000000000000000000000000000000000 : ℝ) c2b74 (by norm_num)
    (by norm_num) (by norm_num) (by norm_num)

theorem c2b76 : (1341640786499878480048697197370552267/1000000000000000000000000000000000000 : ℝ) ≤ (c2y76 : ℝ) ∧ (c2y76 : ℝ) ≤ (134164078649987848004869719737055237/100000000000000000000000000000000000 : ℝ) := by
  show (1341640786499878480048697197370552267/1000000000000000000000000000000000000 : ℝ) ≤ c2y75 - ((9/5 : ℝ) - c2y75 * c2y75) / (-2 * c2y75) ∧
    c2y75 - ((9/5 : ℝ) - c2y75 * c2y75) / (-2 * c2y75) ≤ (134164078649987848004869719737055237/100000000000000000000000000000000000 : ℝ)
  exact bab_step (9/5 : ℝ) c2y75 (1341640898348007285796396418695181791/1000000000000000000000000000000000000 : ℝ) (1341640898348007285796396418695181893/1000000000000000000000000000000000000 : ℝ) (1341640786499878480048697197370552267/1000000000000000000000000000000000000 : ℝ) (134164078649987848004869719737055237/100000000000000000000000000000000000 : ℝ) c2b75 (by norm_num)
    (by norm_num) (by norm_num) (by norm_num)

theorem c2b77 : (1378908586124870183280012845833621277/1000000000000000000000000000000000000 : ℝ) ≤ (c2y77 : ℝ) ∧ (c2y77 : ℝ) ≤ (172363573265608772910001605729202673/125000000000000000000000000000000000 : ℝ) := by
  show (1378908586124870183280012845833621277/1000000000000000000000000000000000000 : ℝ) ≤ c2y76 - ((19/10 : ℝ) - c2y76 * c2y76) / (-2 * c2y76) ∧
    c2y76 - ((19/10 : ℝ) - c2y76 * c2y76) / (-2 * c2y76) ≤ (172363573265608772910001605729202673/125000000000000000000000000000000000 : ℝ)
  exact bab_step (19/10 : ℝ) c2y76 (1341640786499878480048697197370552267/1000000000000000000000000000000000000 : ℝ) (134164078649987848004869719737055237/100000000000000000000000000000000000 : ℝ) (1378908586124870183280012845833621277/1000000000000000000000000000000000000 : ℝ) (172363573265608772910001605729202673/125000000000000000000000000000000000 : ℝ) c2b76 (by norm_num)
    (by norm_num) (by norm_num) (by norm_num)

theorem c2b78 : (689202483605509504376339997576563071/500000000000000000000000000000000000 : ℝ) ≤ (c2y78 : ℝ) ∧ (c2y78 : ℝ) ≤ (1102723973768815207002143996122501/800000000000000000000000000000000 : ℝ) := by
  show (689202483605509504376339997576563071/500000000000000000000000000000000000 : ℝ) ≤ c2y77 - ((19/10 : ℝ) - c2y77 * c2y77) / (-2 * c2y77) ∧
    c2y77 - ((19/10 : ℝ) - c2y77 * c2y77) / (-2 * c2y77) ≤ (1102723973768815207002143996122501/800000000000000000000000000000000 : ℝ)
  exact bab_step (19/10 : ℝ) c2y77 (1378908586124870183280012845833621277/1000000000000000000000000000000000000 : ℝ) (172363573265608772910001605729202673/125000000000000000000000000000000000 : ℝ) (689202483605509504376339997576563071/500000000000000000000000000000000000 : ℝ) (1102723973768815207002143996122501/800000000000000000000000000000000 : ℝ) c2b77 (by norm_num)
    (by norm_num) (by norm_num) (by norm_num)

theorem c2b79 : (689202437604512623572077209374056861/500000000000000000000000000000000000 : ℝ) ≤ (c2y79 : ℝ) ∧ (c2y79 : ℝ) ≤ (1378404875209025247144154418748113831/1000000000000000000000000000000000000 : ℝ) := by
  show (689202437604512623572077209374056861/500000000000000000000000000000000000 : ℝ) ≤ c2y78 - ((19/10 : ℝ) - c2y78 * c2y78) / (-2 * c2y78) ∧
    c2y78 - ((19/10 : ℝ) - c2y78 * c2y78) / (-2 * c2y78) ≤ (1378404875209025247144154418748113831/1000000000000000000000000000000000000 : ℝ)
  exact bab_step (19/10 : ℝ) c2y78 (689202483605509504376339997576563071/500000000000000000000000000000000000 : ℝ) (1102723973768815207002143996122501/800000000000000000000000000000000 : ℝ) (689202437604512623572077209374056861/500000000000000000000000000000000000 : ℝ) (1378404875209025247144154418748113831/1000000000000000000000000000000000000 : ℝ) c2b78 (by norm_num)
    (by norm_num) (by norm_num) (by norm_num)

theorem c2b80 : (707339343857261339798414418330596943/500000000000000000000000000000000000 : ℝ) ≤ (c2y80 : ℝ) ∧ (c2y80 : ℝ) ≤ (1414678687714522679596828836661193999/1000000000000000000000000000000000000 : ℝ) := by
  show (707339343857261339798414418330596943/500000000000000000000000000000000000 : ℝ) ≤ c2y79 - ((2 : ℝ) - c2y79 * c2y79) / (-2 * c2y79) ∧
    c2y79 - ((2 : ℝ) - c2y79 * c2y79) / (-2 * c2y79) ≤ (1414678687714522679596828836661193999/1000000000000000000000000000000000000 : ℝ)
  exact bab_step (2 : ℝ) c2y79 (689202437604512623572077209374056861/500000000000000000000000000000000000 : ℝ) (1378404875209025247144154418748113831/1000000000000000000000000000000000000 : ℝ) (707339343857261339798414418330596943/500000000000000000000000000000000000 : ℝ) (1414678687714522679596828836661193999/1000000000000000000000000000000000000 : ℝ) c2b79 (by norm_num)
    (by norm_num) (by norm_num) (by norm_num)

theorem c2b81 : (1414213638836247111861223387689720831/1000000000000000000000000000000000000 : ℝ) ≤ (c2y81 : ℝ) ∧ (c2y81 : ℝ) ≤ (282842727767249422372244677537944189/200000000000000000000000000000000000 : ℝ) := by
  show (1414213638836247111861223387689720831/1000000000000000000000000000000000000 : ℝ) ≤ c2y80 - ((2 : ℝ) - c2y80 * c2y80) / (-2 * c2y80) ∧
    c2y80 - ((2 : ℝ) - c2y80 * c2y80) / (-2 * c2y80) ≤ (282842727767249422372244677537944189/200000000000000000000000000000000000 : ℝ)
  exact bab_step (2 : ℝ) c2y80 (707339343857261339798414418330596943/500000000000000000000000000000000000 : ℝ) (1414678687714522679596828836661193999/1000000000000000000000000000000000000 : ℝ) (1414213638836247111861223387689720831/1000000000000000000000000000000000000 : ℝ) (282842727767249422372244677537944189/200000000000000000000000000000000000 : ℝ) c2b80 (by norm_num)
    (by norm_num) (by norm_num) (by norm_num)

theorem c2b82 : (141421356237309711589164701004881283/100000000000000000000000000000000000 : ℝ) ≤ (c2y82 : ℝ) ∧ (c2y82 : ℝ) ≤ (282842712474619423178329402009762589/200000000000000000000000000000000000 : ℝ) := by
  show (141421356237309711589164701004881283/100000000000000000000000000000000000 : ℝ) ≤ c2y81 - ((2 : ℝ) - c2y81 * c2y81) / (-2 * c2y81) ∧
    c2y81 - ((2 : ℝ) - c2y81 * c2y81) / (-2 * c2y81) ≤ (282842712474619423178329402009762589/200000000000000000000000000000000000 : ℝ)
  exact bab_step (2 : ℝ) c2y81 (1414213638836247111861223387689720831/1000000000000000000000000000000000000 : ℝ) (282842727767249422372244677537944189/200000000000000000000000000000000000 : ℝ) (141421356237309711589164701004881283/100000000000000000000000000000000000 : ℝ) (282842712474619423178329402009762589/200000000000000000000000000000000000 : ℝ) c2b81 (by norm_num)
    (by norm_num) (by norm_num) (by norm_num)

theorem c2n0 : newton_solve Real.sqrt (fun x => FoldNormalForm.rhs x (0 : ℝ))
    (fun x => systemJacobian FoldNormalForm x (0 : ℝ)) (fun _ => (c2y0 : ℝ))
    (c2params : ContinuationParams ℝ).newton_tol
    (c2params : ContinuationParams ℝ).newton_max_iter = .ok (fun _ => c2y7, 8) := by
  show newtonGo Real.sqrt (fun x => FoldNormalForm.rhs x (0 : ℝ))
    (fun x => systemJacobian FoldNormalForm x (0 : ℝ)) (c2params : ContinuationParams ℝ).newton_tol 20 20 0
    (fun _ => c2y0) = _
  exact ((((((((foldStep (0 : ℝ) (c2params : ContinuationParams ℝ).newton_tol 20 19 0 c2y0 c2y1 rfl
    (resid_big_high (0 : ℝ) (c2params : ContinuationParams ℝ).newton_tol c2y0 (1/100 : ℝ) (1/100 : ℝ) c2b0 (by norm_num)
      (by rw [c2tol]; norm_num))
    (fold_piv c2y0 (1/100 : ℝ) c2b0.1 (by rw [c2e15]; norm_num))).trans
  (foldStep (0 : ℝ) (c2params : ContinuationParams ℝ).newton_tol 20 18 1 c2y1 c2y2 rfl
    (resid_big_high (0 : ℝ) (c2params : ContinuationParams ℝ).newton_tol c2y1 (1/200 : ℝ) (1/200 : ℝ) c2b1 (by norm_num)
      (by rw [c2tol]; norm_num))
    (fold_piv c2y1 (1/200 : ℝ) c2b1.1 (by rw [c2e15]; norm_num)))).trans
  (foldStep (0 : ℝ) (c2params : ContinuationParams ℝ).newton_tol 20 17 2 c2y2 c2y3 rfl
    (resid_big_high (0 : ℝ) (c2params : ContinuationParams ℝ).newton_tol c2y2 (1/400 : ℝ) (1/400 : ℝ) c2b2 (by norm_num)
      (by rw [c2tol]; norm_num))
    (fold_piv c2y2 (1/400 : ℝ) c2b2.1 (by rw [c2e15]; norm_num)))).trans
  (foldStep (0 : ℝ) (c2params : ContinuationParams ℝ).newton_tol 20 16 3 c2y3 c2y4 rfl
    (resid_big_high (0 : ℝ) (c2params : ContinuationParams ℝ).newton_tol c2y3 (1/800 : ℝ) (1/800 : ℝ) c2b3 (by norm_num)
      (by rw [c2tol]; norm_num))
    (fold_piv c2y3 (1/800 : ℝ) c2b3.1 (by rw [c2e15]; norm_num)))).trans
  (foldStep (0 : ℝ) (c2params : ContinuationParams ℝ).newton_tol 20 15 4 c2y4 c2y5 rfl
    (resid_big_high (0 : ℝ) (c2params : ContinuationParams ℝ).newton_tol c2y4 (1/1600 : ℝ) (1/1600 : ℝ) c2b4 (by norm_num)
      (by rw [c2tol]; norm_num))
    (fold_piv c2y4 (1/1600 : ℝ) c2b4.1 (by rw [c2e15]; norm_num)))).trans
  (foldStep (0 : ℝ) (c2params : ContinuationParams ℝ).newton_tol 20 14 5 c2y5 c2y6 rfl
    (resid_big_high (0 : ℝ) (c2params : ContinuationParams ℝ).newton_tol c2y5 (1/3200 : ℝ) (1/3200 : ℝ) c2b5 (by norm_num)
      (by rw [c2tol]; norm_num))
    (fold_piv c2y5 (1/3200 : ℝ) c2b5.1 (by rw [c2e15]; norm_num)))).trans
  (foldStep (0 : ℝ) (c2params : ContinuationParams ℝ).newton_tol 20 13 6 c2y6 c2y7 rfl
    (resid_big_high (0 : ℝ) (c2params : ContinuationParams ℝ).newton_tol c2y6 (1/6400 : ℝ) (1/6400 : ℝ) c2b6 (by norm_num)
      (by rw [c2tol]; norm_num))
    (fold_piv c2y6 (1/6400 : ℝ) c2b6.1 (by rw [c2e15]; norm_num)))).trans
  (foldDone (0 : ℝ) (c2params : ContinuationParams ℝ).newton_tol 20 12 7 c2y7
    (resid_small (0 : ℝ) (c2params : ContinuationParams ℝ).newton_tol c2y7 (1/12800 : ℝ) (1/12800 : ℝ) c2b7 (by norm_num)
      (by rw [c2tol]; norm_num) (by rw [c2tol]; norm_num))))

theorem c2n1 : newton_solve Real.sqrt (fun x => FoldNormalForm.rhs x (1/10 : ℝ))
    (fun x => systemJacobian FoldNormalForm x (1/10 : ℝ)) (fun _ => (c2y7 : ℝ))
    (c2params : ContinuationParams ℝ).newton_tol
    (c2params : ContinuationParams ℝ).newton_max_iter = .ok (fun _ => c2y23, 17) := by
  show newtonGo Real.sqrt (fun x => FoldNormalForm.rhs x (1/10 : ℝ))
    (fun x => systemJacobian FoldNormalForm x (1/10 : ℝ)) (c2params : ContinuationParams ℝ).newton_tol 20 20 0
    (fun _ => c2y7) = _
  exact (((((((((((((((((foldStep (1/10 : ℝ) (c2params : ContinuationParams ℝ).newton_tol 20 19 0 c2y7 c2y8 rfl
    (resid_big_low (1/10 : ℝ) (c2params : ContinuationParams ℝ).newton_tol c2y7 (1/12800 : ℝ) (1/12800 : ℝ) c2b7 (by norm_num)
      (by rw [c2tol]; norm_num))
    (fold_piv c2y7 (1/12800 : ℝ) c2b7.1 (by rw [c2e15]; norm_num))).trans
  (foldStep (1/10 : ℝ) (c2params : ContinuationParams ℝ).newton_tol 20 18 1 c2y8 c2y9 rfl
    (resid_big_high (1/10 : ℝ) (c2params : ContinuationParams ℝ).newton_tol c2y8 (16384001/25600 : ℝ) (16384001/25600 : ℝ) c2b8 (by norm_num)
      (by rw [c2tol]; norm_num))
    (fold_piv c2y8 (16384001/25600 : ℝ) c2b8.1 (by rw [c2e15]; norm_num)))).trans
  (foldStep (1/10 : ℝ) (c2params : ContinuationParams ℝ).newton_tol 20 17 2 c2y9 c2y10 rfl
    (resid_big_high (1/10 : ℝ) (c2params : ContinuationParams ℝ).newton_tol c2y9 (160000048828122615814354503518401884863/500000000000000000000000000000000000 : ℝ) (320000097656245231628709007036803769727/1000000000000000000000000000000000000 : ℝ) c2b9 (by norm_num)
      (by rw [c2tol]; norm_num))
    (fold_piv c2y9 (160000048828122615814354503518401884863/500000000000000000000000000000000000 : ℝ) c2b9.1 (by rw [c2e15]; norm_num)))).trans
  (foldStep (1/10 : ℝ) (c2params : ContinuationParams ℝ).newton_tol 20 16 3 c2y10 c2y11 rfl
    (resid_big_high (1/10 : ℝ) (c2params : ContinuationParams ℝ).newton_tol c2y10 (160000205078074932115414406679223451663/1000000000000000000000000000000000000 : ℝ) (10000012817379683257213400417451465729/62500000000000000000000000000000000 : ℝ) c2b10 (by norm_num)
      (by rw [c2tol]; norm_num))
    (fold_piv c2y10 (160000205078074932115414406679223451663/1000000000000000000000000000000000000 : ℝ) c2b10.1 (by rw [c2e15]; norm_num)))).trans
  (foldStep (1/10 : ℝ) (c2params : ContinuationParams ℝ).newton_tol 20 15 4 c2y11 c2y12 rfl
    (resid_big_high (1/10 : ℝ) (c2params : ContinuationParams ℝ).newton_tol c2y11 (8000041503863692345599607596596767633/100000000000000000000000000000000000 : ℝ) (80000415038636923455996075965967676331/1000000000000000000000000000000000000 : ℝ) c2b11 (by norm_num)
      (by rw [c2tol]; norm_num))
    (fold_piv c2y11 (8000041503863692345599607596596767633/100000000000000000000000000000000000 : ℝ) c2b11.1 (by rw [c2e15]; norm_num)))).trans
  (foldStep (1/10 : ℝ) (c2params : ContinuationParams ℝ).newton_tol 20 14 5 c2y12 c2y13 rfl
    (resid_big_high (1/10 : ℝ) (c2params : ContinuationParams ℝ).newton_tol c2y12 (40000832516075989198925772112443746813/1000000000000000000000000000000000000 : ℝ) (8000166503215197839785154422488749363/200000000000000000000000000000000000 : ℝ) c2b12 (by norm_num)
      (by rw [c2tol]; norm_num))
    (fold_piv c2y12 (40000832516075989198925772112443746813/1000000000000000000000000000000000000 : ℝ) c2b12.1 (by rw [c2e15]; norm_num)))).trans
  (foldStep (1/10 : ℝ) (c2params : ContinuationParams ℝ).newton_tol 20 13 6 c2y13 c2y14 rfl
    (resid_big_high (1/10 : ℝ) (c2params : ContinuationParams ℝ).newton_tol c2y13 (625052069750700271394935277328937193/31250000000000000000000000000000000 : ℝ) (10000833116011204342318964437262995089/500000000000000000000000000000000000 : ℝ) c2b13 (by norm_num)
      (by rw [c2tol]; norm_num))
    (fold_piv c2y13 (625052069750700271394935277328937193/31250000000000000000000000000000000 : ℝ) c2b13.1 (by rw [c2e15]; norm_num)))).trans
  (foldStep (1/10 : ℝ) (c2params : ContinuationParams ℝ).newton_tol 20 12 7 c2y14 c2y15 rfl
    (resid_big_high (1/10 : ℝ) (c2params : ContinuationParams ℝ).newton_tol c2y14 (5001666453874776076464634869473405369/500000000000000000000000000000000000 : ℝ) (500166645387477607646463486947340537/50000000000000000000000000000000000 : ℝ) c2b14 (by norm_num)
      (by rw [c2tol]; norm_num))
    (fold_piv c2y14 (5001666453874776076464634869473405369/500000000000000000000000000000000000 : ℝ) c2b14.1 (by rw [c2e15]; norm_num)))).trans
  (foldStep (1/10 : ℝ) (c2params : ContinuationParams ℝ).newton_tol 20 11 8 c2y15 c2y16 rfl
    (resid_big_high (1/10 : ℝ) (c2params : ContinuationParams ℝ).newton_tol c2y15 (1001332957595225990230423921410574107/200000000000000000000000000000000000 : ℝ) (5006664787976129951152119607052870537/1000000000000000000000000000000000000 : ℝ) c2b15 (by norm_num)
      (by rw [c2tol]; norm_num))
    (fold_piv c2y15 (1001332957595225990230423921410574107/200000000000000000000000000000000000 : ℝ) c2b15.1 (by rw [c2e15]; norm_num)))).trans
  (foldStep (1/10 : ℝ) (c2params : ContinuationParams ℝ).newton_tol 20 10 9 c2y16 c2y17 rfl
    (resid_big_high (1/10 : ℝ) (c2params : ContinuationParams ℝ).newton_tol c2y16 (2513319082156220079698920926757502577/1000000000000000000000000000000000000 : ℝ) (2513319082156220079698920926757502579/1000000000000000000000000000000000000 : ℝ) c2b16 (by norm_num)
      (by rw [c2tol]; norm_num))
    (fold_piv c2y16 (2513319082156220079698920926757502577/1000000000000000000000000000000000000 : ℝ) c2b16.1 (by rw [c2e15]; norm_num)))).trans
  (foldStep (1/10 : ℝ) (c2params : ContinuationParams ℝ).newton_tol 20 9 10 c2y17 c2y18 rfl
    (resid_big_high (1/10 : ℝ) (c2params : ContinuationParams ℝ).newton_tol c2y17 (255310710617194046474679189246522807/200000000000000000000000000000000000 : ℝ) (1276553553085970232373395946232614037/1000000000000000000000000000000000000 : ℝ) c2b17 (by norm_num)
      (by rw [c2tol]; norm_num))
    (fold_piv c2y17 (255310710617194046474679189246522807/200000000000000000000000000000000000 : ℝ) c2b17.1 (by rw [c2e15]; norm_num)))).trans
  (foldStep (1/10 : ℝ) (c2params : ContinuationParams ℝ).newton_tol 20 8 11 c2y18 c2y19 rfl
    (resid_big_high (1/10 : ℝ) (c2params : ContinuationParams ℝ).newton_tol c2y18 (677444737714005977601773433678556139/1000000000000000000000000000000000000 : ℝ) (677444737714005977601773433678556141/1000000000000000000000000000000000000 : ℝ) c2b18 (by norm_num)
      (by rw [c2tol]; norm_num))
    (fold_piv c2y18 (677444737714005977601773433678556139/1000000000000000000000000000000000000 : ℝ) c2b18.1 (by rw [c2e15]; norm_num)))).trans
  (foldStep (1/10 : ℝ) (c2params : ContinuationParams ℝ).newton_tol 20 7 12 c2y19 c2y20 rfl
    (resid_big_high (1/10 : ℝ) (c2params : ContinuationParams ℝ).newton_tol c2y19 (206264563565168647669234757309928251/500000000000000000000000000000000000 : ℝ) (51566140891292161917308689327482063/125000000000000000000000000000000000 : ℝ) c2b19 (by norm_num)
      (by rw [c2tol]; norm_num))
    (fold_piv c2y19 (206264563565168647669234757309928251/500000000000000000000000000000000000 : ℝ) c2b19.1 (by rw [c2e15]; norm_num)))).trans
  (foldStep (1/10 : ℝ) (c2params : ContinuationParams ℝ).newton_tol 20 6 13 c2y20 c2y21 rfl
    (resid_big_high (1/10 : ℝ) (c2params : ContinuationParams ℝ).newton_tol c2y20 (327468126445233248365481496323300659/1000000000000000000000000000000000000 : ℝ) (327468126445233248365481496323300661/1000000000000000000000000000000000000 : ℝ) c2b20 (by norm_num)
      (by rw [c2tol]; norm_num))
    (fold_piv c2y20 (327468126445233248365481496323300659/1000000000000000000000000000000000000 : ℝ) c2b20.1 (by rw [c2e15]; norm_num)))).trans
  (foldStep (1/10 : ℝ) (c2params : ContinuationParams ℝ).newton_tol 20 5 14 c2y21 c2y22 rfl
    (resid_big_high (1/10 : ℝ) (c2params : ContinuationParams ℝ).newton_tol c2y21 (316420678994250050509135307034147067/1000000000000000000000000000000000000 : ℝ) (31642067899425005050913530703414707/100000000000000000000000000000000000 : ℝ) c2b21 (by norm_num)
      (by rw [c2tol]; norm_num))
    (fold_piv c2y21 (316420678994250050509135307034147067/1000000000000000000000000000000000000 : ℝ) c2b21.1 (by rw [c2e15]; norm_num)))).trans
  (foldStep (1/10 : ℝ) (c2params : ContinuationParams ℝ).newton_tol 20 4 15 c2y22 c2y23 rfl
    (resid_big_high (1/10 : ℝ) (c2params : ContinuationParams ℝ).newton_tol c2y22 (316227824823703799707236344982881963/1000000000000000000000000000000000000 : ℝ) (316227824823703799707236344982881967/1000000000000000000000000000000000000 : ℝ) c2b22 (by norm_num)
      (by rw [c2tol]; norm_num))
    (fold_piv c2y22 (316227824823703799707236344982881963/1000000000000000000000000000000000000 : ℝ) c2b22.1 (by rw [c2e15]; norm_num)))).trans
  (foldDone (1/10 : ℝ) (c2params : ContinuationParams ℝ).newton_tol 20 3 16 c2y23
    (resid_small (1/10 : ℝ) (c2params : ContinuationParams ℝ).newton_tol c2y23 (79056941504210850292059044354923707/250000000000000000000000000000000000 : ℝ) (316227766016843401168236177419694833/1000000000000000000000000000000000000 : ℝ) c2b23 (by norm_num)
      (by rw [c2tol]; norm_num) (by rw [c2tol]; norm_num))))

theorem c2n2 : newton_solve Real.sqrt (fun x => FoldNormalForm.rhs x (1/5 : ℝ))
    (fun x => systemJacobian FoldNormalForm x (1/5 : ℝ)) (fun _ => (c2y23 : ℝ))
    (c2params : ContinuationParams ℝ).newton_tol
    (c2params : ContinuationParams ℝ).newton_max_iter = .ok (fun _ => c2y27, 5) := by
  show newtonGo Real.sqrt (fun x => FoldNormalForm.rhs x (1/5 : ℝ))
    (fun x => systemJacobian FoldNormalForm x (1/5 : ℝ)) (c2params : ContinuationParams ℝ).newton_tol 20 20 0
    (fun _ => c2y23) = _
  exact (((((foldStep (1/5 : ℝ) (c2params : ContinuationParams ℝ).newton_tol 20 19 0 c2y23 c2y24 rfl
    (resid_big_low (1/5 : ℝ) (c2params : ContinuationParams ℝ).newton_tol c2y23 (79056941504210850292059044354923707/250000000000000000000000000000000000 : ℝ) (316227766016843401168236177419694833/1000000000000000000000000000000000000 : ℝ) c2b23 (by norm_num)
      (by rw [c2tol]; norm_num))
    (fold_piv c2y23 (79056941504210850292059044354923707/250000000000000000000000000000000000 : ℝ) c2b23.1 (by rw [c2e15]; norm_num))).trans
  (foldStep (1/5 : ℝ) (c2params : ContinuationParams ℝ).newton_tol 20 18 1 c2y24 c2y25 rfl
    (resid_big_high (1/5 : ℝ) (c2params : ContinuationParams ℝ).newton_tol c2y24 (29646353064078385363478788766952763/62500000000000000000000000000000000 : ℝ) (474341649025254165815660620271244217/1000000000000000000000000000000000000 : ℝ) c2b24 (by norm_num)
      (by rw [c2tol]; norm_num))
    (fold_piv c2y24 (29646353064078385363478788766952763/62500000000000000000000000000000000 : ℝ) c2b24.1 (by rw [c2e15]; norm_num)))).trans
  (foldStep (1/5 : ℝ) (c2params : ContinuationParams ℝ).newton_tol 20 17 2 c2y25 c2y26 rfl
    (resid_big_high (1/5 : ℝ) (c2params : ContinuationParams ℝ).newton_tol c2y25 (111997333797630063369625071208831007/250000000000000000000000000000000000 : ℝ) (447989335190520253478500284835324037/1000000000000000000000000000000000000 : ℝ) c2b25 (by norm_num)
      (by rw [c2tol]; norm_num))
    (fold_piv c2y25 (111997333797630063369625071208831007/250000000000000000000000000000000000 : ℝ) c2b25.1 (by rw [c2e15]; norm_num)))).trans
  (foldStep (1/5 : ℝ) (c2params : ContinuationParams ℝ).newton_tol 20 16 3 c2y26 c2y27 rfl
    (resid_big_high (1/5 : ℝ) (c2params : ContinuationParams ℝ).newton_tol c2y26 (44721426713655756703215953894560551/100000000000000000000000000000000000 : ℝ) (5590178339206969587901994236820069/12500000000000000000000000000000000 : ℝ) c2b26 (by norm_num)
      (by rw [c2tol]; norm_num))
    (fold_piv c2y26 (44721426713655756703215953894560551/100000000000000000000000000000000000 : ℝ) c2b26.1 (by rw [c2e15]; norm_num)))).trans
  (foldDone (1/5 : ℝ) (c2params : ContinuationParams ℝ).newton_tol 20 15 4 c2y27
    (resid_small (1/5 : ℝ) (c2params : ContinuationParams ℝ).newton_tol c2y27 (27950849718778892429608456422203391/62500000000000000000000000000000000 : ℝ) (447213595500462278873735302755254267/1000000000000000000000000000000000000 : ℝ) c2b27 (by norm_num)
      (by rw [c2tol]; norm_num) (by rw [c2tol]; norm_num))))

theorem c2n3 : newton_solve Real.sqrt (fun x => FoldNormalForm.rhs x (3/10 : ℝ))
    (fun x => systemJacobian FoldNormalForm x (3/10 : ℝ)) (fun _ => (c2y27 : ℝ))
    (c2params : ContinuationParams ℝ).newton_tol
    (c2params : ContinuationParams ℝ).newton_max_iter = .ok (fun _ => c2y31, 5) := by
  show newtonGo Real.sqrt (fun x => FoldNormalForm.rhs x (3/10 : ℝ))
    (fun x => systemJacobian FoldNormalForm x (3/10 : ℝ)) (c2params : ContinuationParams ℝ).newton_tol 20 20 0
    (fun _ => c2y27) = _
  exact (((((foldStep (3/10 : ℝ) (c2params : ContinuationParams ℝ).newton_tol 20 19 0 c2y27 c2y28 rfl
    (resid_big_low (3/10 : ℝ) (c2params : ContinuationParams ℝ).newton_tol c2y27 (27950849718778892429608456422203391/62500000000000000000000000000000000 : ℝ) (447213595500462278873735302755254267/1000000000000000000000000000000000000 : ℝ) c2b27 (by norm_num)
      (by rw [c2tol]; norm_num))
    (fold_piv c2y27 (27950849718778892429608456422203391/62500000000000000000000000000000000 : ℝ) c2b27.1 (by rw [c2e15]; norm_num))).trans
  (foldStep (3/10 : ℝ) (c2params : ContinuationParams ℝ).newton_tol 20 18 1 c2y28 c2y29 rfl
    (resid_big_high (3/10 : ℝ) (c2params : ContinuationParams ℝ).newton_tol c2y28 (559016994374821339204318701502614263/1000000000000000000000000000000000000 : ℝ) (279508497187410669602159350751307139/500000000000000000000000000000000000 : ℝ) c2b28 (by norm_num)
      (by rw [c2tol]; norm_num))
    (fold_piv c2y28 (559016994374821339204318701502614263/1000000000000000000000000000000000000 : ℝ) c2b28.1 (by rw [c2e15]; norm_num)))).trans
  (foldStep (3/10 : ℝ) (c2params : ContinuationParams ℝ).newton_tol 20 17 2 c2y29 c2y30 rfl
    (resid_big_high (3/10 : ℝ) (c2params : ContinuationParams ℝ).newton_tol c2y29 (547836654487445953922288068175864013/1000000000000000000000000000000000000 : ℝ) (547836654487445953922288068175864029/1000000000000000000000000000000000000 : ℝ) c2b29 (by norm_num)
      (by rw [c2tol]; norm_num))
    (fold_piv c2y29 (547836654487445953922288068175864013/1000000000000000000000000000000000000 : ℝ) c2b29.1 (by rw [c2e15]; norm_num)))).trans
  (foldStep (3/10 : ℝ) (c2params : ContinuationParams ℝ).newton_tol 20 16 3 c2y30 c2y31 rfl
    (resid_big_high (3/10 : ℝ) (c2params : ContinuationParams ℝ).newton_tol c2y30 (547722569386555628682030512812164607/1000000000000000000000000000000000000 : ℝ) (34232660586659726792626907050760289/62500000000000000000000000000000000 : ℝ) c2b30 (by norm_num)
      (by rw [c2tol]; norm_num))
    (fold_piv c2y30 (547722569386555628682030512812164607/1000000000000000000000000000000000000 : ℝ) c2b30.1 (by rw [c2e15]; norm_num)))).trans
  (foldDone (3/10 : ℝ) (c2params : ContinuationParams ℝ).newton_tol 20 15 4 c2y31
    (resid_small (3/10 : ℝ) (c2params : ContinuationParams ℝ).newton_tol c2y31 (273861278752583121162298971129782079/500000000000000000000000000000000000 : ℝ) (34232659844072890145287371391222761/62500000000000000000000000000000000 : ℝ) c2b31 (by norm_num)
      (by rw [c2tol]; norm_num) (by rw [c2tol]; norm_num))))

theorem c2n4 : newton_solve Real.sqrt (fun x => FoldNormalForm.rhs x (2/5 : ℝ))
    (fun x => systemJacobian FoldNormalForm x (2/5 : ℝ)) (fun _ => (c2y31 : ℝ))
    (c2params : ContinuationParams ℝ).newton_tol
    (c2params : ContinuationParams ℝ).newton_max_iter = .ok (fun _ => c2y34, 4) := by
  show newtonGo Real.sqrt (fun x => FoldNormalForm.rhs x (2/5 : ℝ))
    (fun x => systemJacobian FoldNormalForm x (2/5 : ℝ)) (c2params : ContinuationParams ℝ).newton_tol 20 20 0
    (fun _ => c2y31) = _
  exact ((((foldStep (2/5 : ℝ) (c2params : ContinuationParams ℝ).newton_tol 20 19 0 c2y31 c2y32 rfl
    (resid_big_low (2/5 : ℝ) (c2params : ContinuationParams ℝ).newton_tol c2y31 (273861278752583121162298971129782079/500000000000000000000000000000000000 : ℝ) (34232659844072890145287371391222761/62500000000000000000000000000000000 : ℝ) c2b31 (by norm_num)
      (by rw [c2tol]; norm_num))
    (fold_piv c2y31 (273861278752583121162298971129782079/500000000000000000000000000000000000 : ℝ) c2b31.1 (by rw [c2e15]; norm_num))).trans
  (foldStep (2/5 : ℝ) (c2params : ContinuationParams ℝ).newton_tol 20 18 1 c2y32 c2y33 rfl
    (resid_big_high (2/5 : ℝ) (c2params : ContinuationParams ℝ).newton_tol c2y32 (639009650422693777555193386691162353/1000000000000000000000000000000000000 : ℝ) (5112077203381550220441547093529299/8000000000000000000000000000000000 : ℝ) c2b32 (by norm_num)
      (by rw [c2tol]; norm_num))
    (fold_piv c2y32 (639009650422693777555193386691162353/1000000000000000000000000000000000000 : ℝ) c2b32.1 (by rw [c2e15]; norm_num)))).trans
  (foldStep (2/5 : ℝ) (c2params : ContinuationParams ℝ).newton_tol 20 17 2 c2y33 c2y34 rfl
    (resid_big_high (2/5 : ℝ) (c2params : ContinuationParams ℝ).newton_tol c2y33 (158122285946431883889632165970359783/250000000000000000000000000000000000 : ℝ) (316244571892863767779264331940719577/500000000000000000000000000000000000 : ℝ) c2b33 (by norm_num)
      (by rw [c2tol]; norm_num))
    (fold_piv c2y33 (158122285946431883889632165970359783/250000000000000000000000000000000000 : ℝ) c2b33.1 (by rw [c2e15]; norm_num)))).trans
  (foldDone (2/5 : ℝ) (c2params : ContinuationParams ℝ).newton_tol 20 16 3 c2y34
    (resid_small (2/5 : ℝ) (c2params : ContinuationParams ℝ).newton_tol c2y34 (126491106585354820286200424799231693/200000000000000000000000000000000000 : ℝ) (79056941615846762678875265499519811/125000000000000000000000000000000000 : ℝ) c2b34 (by norm_num)
      (by rw [c2tol]; norm_num) (by rw [c2tol]; norm_num))))

theorem c2n5 : newton_solve Real.sqrt (fun x => FoldNormalForm.rhs x (1/2 : ℝ))
    (fun x => systemJacobian FoldNormalForm x (1/2 : ℝ)) (fun _ => (c2y34 : ℝ))
    (c2params : ContinuationParams ℝ).newton_tol
    (c2params : ContinuationParams ℝ).newton_max_iter = .ok (fun _ => c2y37, 4) := by
  show newtonGo Real.sqrt (fun x => FoldNormalForm.rhs x (1/2 : ℝ))
    (fun x => systemJacobian FoldNormalForm x (1/2 : ℝ)) (c2params : ContinuationParams ℝ).newton_tol 20 20 0
    (fun _ => c2y34) = _
  exact ((((foldStep (1/2 : ℝ) (c2params : ContinuationParams ℝ).newton_tol 20 19 0 c2y34 c2y35 rfl
    (resid_big_low (1/2 : ℝ) (c2params : ContinuationParams ℝ).newton_tol c2y34 (126491106585354820286200424799231693/200000000000000000000000000000000000 : ℝ) (79056941615846762678875265499519811/125000000000000000000000000000000000 : ℝ) c2b34 (by norm_num)
      (by rw [c2tol]; norm_num))
    (fold_piv c2y34 (126491106585354820286200424799231693/200000000000000000000000000000000000 : ℝ) c2b34.1 (by rw [c2e15]; norm_num))).trans
  (foldStep (1/2 : ℝ) (c2params : ContinuationParams ℝ).newton_tol 20 18 1 c2y35 c2y36 rfl
    (resid_big_high (1/2 : ℝ) (c2params : ContinuationParams ℝ).newton_tol c2y35 (28460498937049922844362799815951359/40000000000000000000000000000000000 : ℝ) (355756236713124035554534997699392001/500000000000000000000000000000000000 : ℝ) c2b35 (by norm_num)
      (by rw [c2tol]; norm_num))
    (fold_piv c2y35 (28460498937049922844362799815951359/40000000000000000000000000000000000 : ℝ) c2b35.1 (by rw [c2e15]; norm_num)))).trans
  (foldStep (1/2 : ℝ) (c2params : ContinuationParams ℝ).newton_tol 20 17 2 c2y36 c2y37 rfl
    (resid_big_high (1/2 : ℝ) (c2params : ContinuationParams ℝ).newton_tol c2y36 (353560210615703407482933706513419161/500000000000000000000000000000000000 : ℝ) (14142408424628136299317348260536767/20000000000000000000000000000000000 : ℝ) c2b36 (by norm_num)
      (by rw [c2tol]; norm_num))
    (fold_piv c2y36 (353560210615703407482933706513419161/500000000000000000000000000000000000 : ℝ) c2b36.1 (by rw [c2e15]; norm_num)))).trans
  (foldDone (1/2 : ℝ) (c2params : ContinuationParams ℝ).newton_tol 20 16 3 c2y37
    (resid_small (1/2 : ℝ) (c2params : ContinuationParams ℝ).newton_tol c2y37 (353553390659051392918349574107121767/500000000000000000000000000000000000 : ℝ) (707106781318102785836699148214243563/1000000000000000000000000000000000000 : ℝ) c2b37 (by norm_num)
      (by rw [c2tol]; norm_num) (by rw [c2tol]; norm_num))))

theorem c2n6 : newton_solve Real.sqrt (fun x => FoldNormalForm.rhs x (3/5 : ℝ))
    (fun x => systemJacobian FoldNormalForm x (3/5 : ℝ)) (fun _ => (c2y37 : ℝ))
    (c2params : ContinuationParams ℝ).newton_tol
    (c2params : ContinuationParams ℝ).newton_max_iter = .ok (fun _ => c2y40, 4) := by
  show newtonGo Real.sqrt (fun x => FoldNormalForm.rhs x (3/5 : ℝ))
    (fun x => systemJacobian FoldNormalForm x (3/5 : ℝ)) (c2params : ContinuationParams ℝ).newton_tol 20 20 0
    (fun _ => c2y37) = _
  exact ((((foldStep (3/5 : ℝ) (c2params : ContinuationParams ℝ).newton_tol 20 19 0 c2y37 c2y38 rfl
    (resid_big_low (3/5 : ℝ) (c2params : ContinuationParams ℝ).newton_tol c2y37 (353553390659051392918349574107121767/500000000000000000000000000000000000 : ℝ) (707106781318102785836699148214243563/1000000000000000000000000000000000000 : ℝ) c2b37 (by norm_num)
      (by rw [c2tol]; norm_num))
    (fold_piv c2y37 (353553390659051392918349574107121767/500000000000000000000000000000000000 : ℝ) c2b37.1 (by rw [c2e15]; norm_num))).trans
  (foldStep (3/5 : ℝ) (c2params : ContinuationParams ℝ).newton_tol 20 18 1 c2y38 c2y39 rfl
    (resid_big_high (3/5 : ℝ) (c2params : ContinuationParams ℝ).newton_tol c2y38 (97227182411505843839003576909947367/125000000000000000000000000000000000 : ℝ) (777817459292046750712028615279578969/1000000000000000000000000000000000000 : ℝ) c2b38 (by norm_num)
      (by rw [c2tol]; norm_num))
    (fold_piv c2y38 (97227182411505843839003576909947367/125000000000000000000000000000000000 : ℝ) c2b38.1 (by rw [c2e15]; norm_num)))).trans
  (foldStep (3/5 : ℝ) (c2params : ContinuationParams ℝ).newton_tol 20 17 2 c2y39 c2y40 rfl
    (resid_big_high (3/5 : ℝ) (c2params : ContinuationParams ℝ).newton_tol c2y39 (387301668786240895025953803198997843/500000000000000000000000000000000000 : ℝ) (19365083439312044751297690159949893/25000000000000000000000000000000000 : ℝ) c2b39 (by norm_num)
      (by rw [c2tol]; norm_num))
    (fold_piv c2y39 (387301668786240895025953803198997843/500000000000000000000000000000000000 : ℝ) c2b39.1 (by rw [c2e15]; norm_num)))).trans
  (foldDone (3/5 : ℝ) (c2params : ContinuationParams ℝ).newton_tol 20 16 3 c2y40
    (resid_small (3/5 : ℝ) (c2params : ContinuationParams ℝ).newton_tol c2y40 (774596669270186221541887153443513787/1000000000000000000000000000000000000 : ℝ) (387298334635093110770943576721756911/500000000000000000000000000000000000 : ℝ) c2b40 (by norm_num)
      (by rw [c2tol]; norm_num) (by rw [c2tol]; norm_num))))

theorem c2n7 : newton_solve Real.sqrt (fun x => FoldNormalForm.rhs x (7/10 : ℝ))
    (fun x => systemJacobian FoldNormalForm x (7/10 : ℝ)) (fun _ => (c2y40 : ℝ))
    (c2params : ContinuationParams ℝ).newton_tol
    (c2params : ContinuationParams ℝ).newton_max_iter = .ok (fun _ => c2y43, 4) := by
  show newtonGo Real.sqrt (fun x => FoldNormalForm.rhs x (7/10 : ℝ))
    (fun x => systemJacobian FoldNormalForm x (7/10 : ℝ)) (c2params : ContinuationParams ℝ).newton_tol 20 20 0
    (fun _ => c2y40) = _
  exact ((((foldStep (7/10 : ℝ) (c2params : ContinuationParams ℝ).newton_tol 20 19 0 c2y40 c2y41 rfl
    (resid_big_low (7/10 : ℝ) (c2params : ContinuationParams ℝ).newton_tol c2y40 (774596669270186221541887153443513787/1000000000000000000000000000000000000 : ℝ) (387298334635093110770943576721756911/500000000000000000000000000000000000 : ℝ) c2b40 (by norm_num)
      (by rw [c2tol]; norm_num))
    (fold_piv c2y40 (774596669270186221541887153443513787/1000000000000000000000000000000000000 : ℝ) c2b40.1 (by rw [c2e15]; norm_num))).trans
  (foldStep (7/10 : ℝ) (c2params : ContinuationParams ℝ).newton_tol 20 18 1 c2y41 c2y42 rfl
    (resid_big_high (7/10 : ℝ) (c2params : ContinuationParams ℝ).newton_tol c2y41 (209786597918970438686822939501021621/250000000000000000000000000000000000 : ℝ) (839146391675881754747291758004086523/1000000000000000000000000000000000000 : ℝ) c2b41 (by norm_num)
      (by rw [c2tol]; norm_num))
    (fold_piv c2y41 (209786597918970438686822939501021621/250000000000000000000000000000000000 : ℝ) c2b41.1 (by rw [c2e15]; norm_num)))).trans
  (foldStep (7/10 : ℝ) (c2params : ContinuationParams ℝ).newton_tol 20 17 2 c2y42 c2y43 rfl
    (resid_big_high (7/10 : ℝ) (c2params : ContinuationParams ℝ).newton_tol c2y42 (418331855023041170112128636489339163/500000000000000000000000000000000000 : ℝ) (418331855023041170112128636489339183/500000000000000000000000000000000000 : ℝ) c2b42 (by norm_num)
      (by rw [c2tol]; norm_num))
    (fold_piv c2y42 (418331855023041170112128636489339163/500000000000000000000000000000000000 : ℝ) c2b42.1 (by rw [c2e15]; norm_num)))).trans
  (foldDone (7/10 : ℝ) (c2params : ContinuationParams ℝ).newton_tol 20 16 3 c2y43
    (resid_small (7/10 : ℝ) (c2params : ContinuationParams ℝ).newton_tol c2y43 (418330013271092049482711557485479281/500000000000000000000000000000000000 : ℝ) (836660026542184098965423114970958603/1000000000000000000000000000000000000 : ℝ) c2b43 (by norm_num)
      (by rw [c2tol]; norm_num) (by rw [c2tol]; norm_num))))

theorem c2n8 : newton_solve Real.sqrt (fun x => FoldNormalForm.rhs x (4/5 : ℝ))
    (fun x => systemJacobian FoldNormalForm x (4/5 : ℝ)) (fun _ => (c2y43 : ℝ))
    (c2params : ContinuationParams ℝ).newton_tol
    (c2params : ContinuationParams ℝ).newton_max_iter = .ok (fun _ => c2y46, 4) := by
  show newtonGo Real.sqrt (fun x => FoldNormalForm.rhs x (4/5 : ℝ))
    (fun x => systemJacobian FoldNormalForm x (4/5 : ℝ)) (c2params : ContinuationParams ℝ).newton_tol 20 20 0
    (fun _ => c2y43) = _
  exact ((((foldStep (4/5 : ℝ) (c2params : ContinuationParams ℝ).newton_tol 20 19 0 c2y43 c2y44 rfl
    (resid_big_low (4/5 : ℝ) (c2params : ContinuationParams ℝ).newton_tol c2y43 (418330013271092049482711557485479281/500000000000000000000000000000000000 : ℝ) (836660026542184098965423114970958603/1000000000000000000000000000000000000 : ℝ) c2b43 (by norm_num)
      (by rw [c2tol]; norm_num))
    (fold_piv c2y43 (418330013271092049482711557485479281/500000000000000000000000000000000000 : ℝ) c2b43.1 (by rw [c2e15]; norm_num))).trans
  (foldStep (4/5 : ℝ) (c2params : ContinuationParams ℝ).newton_tol 20 18 1 c2y44 c2y45 rfl
    (resid_big_high (4/5 : ℝ) (c2params : ContinuationParams ℝ).newton_tol c2y44 (896421457000216047763282712460392967/1000000000000000000000000000000000000 : ℝ) (224105364250054011940820678115098253/250000000000000000000000000000000000 : ℝ) c2b44 (by norm_num)
      (by rw [c2tol]; norm_num))
    (fold_piv c2y44 (896421457000216047763282712460392967/1000000000000000000000000000000000000 : ℝ) c2b44.1 (by rw [c2e15]; norm_num)))).trans
  (foldStep (4/5 : ℝ) (c2params : ContinuationParams ℝ).newton_tol 20 17 2 c2y45 c2y46 rfl
    (resid_big_high (4/5 : ℝ) (c2params : ContinuationParams ℝ).newton_tol c2y45 (894429409318569953505079864250957393/1000000000000000000000000000000000000 : ℝ) (894429409318569953505079864250957439/1000000000000000000000000000000000000 : ℝ) c2b45 (by norm_num)
      (by rw [c2tol]; norm_num))
    (fold_piv c2y45 (894429409318569953505079864250957393/1000000000000000000000000000000000000 : ℝ) c2b45.1 (by rw [c2e15]; norm_num)))).trans
  (foldDone (4/5 : ℝ) (c2params : ContinuationParams ℝ).newton_tol 20 16 3 c2y46
    (resid_small (4/5 : ℝ) (c2params : ContinuationParams ℝ).newton_tol c2y46 (27950849718833336234882327520904909/31250000000000000000000000000000000 : ℝ) (178885438200533351903246896133791427/200000000000000000000000000000000000 : ℝ) c2b46 (by norm_num)
      (by rw [c2tol]; norm_num) (by rw [c2tol]; norm_num))))

theorem c2n9 : newton_solve Real.sqrt (fun x => FoldNormalForm.rhs x (9/10 : ℝ))
    (fun x => systemJacobian FoldNormalForm x (9/10 : ℝ)) (fun _ => (c2y46 : ℝ))
    (c2params : ContinuationParams ℝ).newton_tol
    (c2params : ContinuationParams ℝ).newton_max_iter = .ok (fun _ => c2y49, 4) := by
  show newtonGo Real.sqrt (fun x => FoldNormalForm.rhs x (9/10 : ℝ))
    (fun x => systemJacobian FoldNormalForm x (9/10 : ℝ)) (c2params : ContinuationParams ℝ).newton_tol 20 20 0
    (fun _ => c2y46) = _
  exact ((((foldStep (9/10 : ℝ) (c2params : ContinuationParams ℝ).newton_tol 20 19 0 c2y46 c2y47 rfl
    (resid_big_low (9/10 : ℝ) (c2params : ContinuationParams ℝ).newton_tol c2y46 (27950849718833336234882327520904909/31250000000000000000000000000000000 : ℝ) (178885438200533351903246896133791427/200000000000000000000000000000000000 : ℝ) c2b46 (by norm_num)
      (by rw [c2tol]; norm_num))
    (fold_piv c2y46 (27950849718833336234882327520904909/31250000000000000000000000000000000 : ℝ) c2b46.1 (by rw [c2e15]; norm_num))).trans
  (foldStep (9/10 : ℝ) (c2params : ContinuationParams ℝ).newton_tol 20 18 1 c2y47 c2y48 rfl
    (resid_big_high (9/10 : ℝ) (c2params : ContinuationParams ℝ).newton_tol c2y47 (950328890437238690914368254946667351/1000000000000000000000000000000000000 : ℝ) (475164445218619345457184127473333701/500000000000000000000000000000000000 : ℝ) c2b47 (by norm_num)
      (by rw [c2tol]; norm_num))
    (fold_piv c2y47 (950328890437238690914368254946667351/1000000000000000000000000000000000000 : ℝ) c2b47.1 (by rw [c2e15]; norm_num)))).trans
  (foldStep (9/10 : ℝ) (c2params : ContinuationParams ℝ).newton_tol 20 17 2 c2y48 c2y49 rfl
    (resid_big_high (9/10 : ℝ) (c2params : ContinuationParams ℝ).newton_tol c2y48 (948684722806895772269688739305523423/1000000000000000000000000000000000000 : ℝ) (37947388912275830890787549572220939/40000000000000000000000000000000000 : ℝ) c2b48 (by norm_num)
      (by rw [c2tol]; norm_num))
    (fold_piv c2y48 (948684722806895772269688739305523423/1000000000000000000000000000000000000 : ℝ) c2b48.1 (by rw [c2e15]; norm_num)))).trans
  (foldDone (9/10 : ℝ) (c2params : ContinuationParams ℝ).newton_tol 20 16 3 c2y49
    (resid_small (9/10 : ℝ) (c2params : ContinuationParams ℝ).newton_tol c2y49 (29646353064111989544861981823002281/31250000000000000000000000000000000 : ℝ) (189736659610316733087116683667214609/200000000000000000000000000000000000 : ℝ) c2b49 (by norm_num)
      (by rw [c2tol]; norm_num) (by rw [c2tol]; norm_num))))

theorem c2n10 : newton_solve Real.sqrt (fun x => FoldNormalForm.rhs x (1 : ℝ))
    (fun x => systemJacobian FoldNormalForm x (1 : ℝ)) (fun _ => (c2y49 : ℝ))
    (c2params : ContinuationParams ℝ).newton_tol
    (c2params : ContinuationParams ℝ).newton_max_iter = .ok (fun _ => c2y52, 4) := by
  show newtonGo Real.sqrt (fun x => FoldNormalForm.rhs x (1 : ℝ))
    (fun x => systemJacobian FoldNormalForm x (1 : ℝ)) (c2params : ContinuationParams ℝ).newton_tol 20 20 0
    (fun _ => c2y49) = _
  exact ((((foldStep (1 : ℝ) (c2params : ContinuationParams ℝ).newton_tol 20 19 0 c2y49 c2y50 rfl
    (resid_big_low (1 : ℝ) (c2params : ContinuationParams ℝ).newton_tol c2y49 (29646353064111989544861981823002281/31250000000000000000000000000000000 : ℝ) (189736659610316733087116683667214609/200000000000000000000000000000000000 : ℝ) c2b49 (by norm_num)
      (by rw [c2tol]; norm_num))
    (fold_piv c2y49 (29646353064111989544861981823002281/31250000000000000000000000000000000 : ℝ) c2b49.1 (by rw [c2e15]; norm_num))).trans
  (foldStep (1 : ℝ) (c2params : ContinuationParams ℝ).newton_tol 20 18 1 c2y50 c2y51 rfl
    (resid_big_high (1 : ℝ) (c2params : ContinuationParams ℝ).newton_tol c2y50 (500693962859963675737716386487212611/500000000000000000000000000000000000 : ℝ) (1001387925719927351475432772974425279/1000000000000000000000000000000000000 : ℝ) c2b50 (by norm_num)
      (by rw [c2tol]; norm_num))
    (fold_piv c2y50 (500693962859963675737716386487212611/500000000000000000000000000000000000 : ℝ) c2b50.1 (by rw [c2e15]; norm_num)))).trans
  (foldStep (1 : ℝ) (c2params : ContinuationParams ℝ).newton_tol 20 17 2 c2y51 c2y52 rfl
    (resid_big_high (1 : ℝ) (c2params : ContinuationParams ℝ).newton_tol c2y51 (1000000961833947943278702440683744657/1000000000000000000000000000000000000 : ℝ) (200000192366789588655740488136748943/200000000000000000000000000000000000 : ℝ) c2b51 (by norm_num)
      (by rw [c2tol]; norm_num))
    (fold_piv c2y51 (1000000961833947943278702440683744657/1000000000000000000000000000000000000 : ℝ) c2b51.1 (by rw [c2e15]; norm_num)))).trans
  (foldDone (1 : ℝ) (c2params : ContinuationParams ℝ).newton_tol 20 16 3 c2y52
    (resid_small (1 : ℝ) (c2params : ContinuationParams ℝ).newton_tol c2y52 (1000000000000462561826800408843142081/1000000000000000000000000000000000000 : ℝ) (50000000000023128091340020442157107/50000000000000000000000000000000000 : ℝ) c2b52 (by norm_num)
      (by rw [c2tol]; norm_num) (by rw [c2tol]; norm_num))))

theorem c2n11 : newton_solve Real.sqrt (fun x => FoldNormalForm.rhs x (11/10 : ℝ))
    (fun x => systemJacobian FoldNormalForm x (11/10 : ℝ)) (fun _ => (c2y52 : ℝ))
    (c2params : ContinuationParams ℝ).newton_tol
    (c2params : ContinuationParams ℝ).newton_max_iter = .ok (fun _ => c2y55, 4) := by
  show newtonGo Real.sqrt (fun x => FoldNormalForm.rhs x (11/10 : ℝ))
    (fun x => systemJacobian FoldNormalForm x (11/10 : ℝ)) (c2params : ContinuationParams ℝ).newton_tol 20 20 0
    (fun _ => c2y52) = _
  exact ((((foldStep (11/10 : ℝ) (c2params : ContinuationParams ℝ).newton_tol 20 19 0 c2y52 c2y53 rfl
    (resid_big_low (11/10 : ℝ) (c2params : ContinuationParams ℝ).newton_tol c2y52 (1000000000000462561826800408843142081/1000000000000000000000000000000000000 : ℝ) (50000000000023128091340020442157107/50000000000000000000000000000000000 : ℝ) c2b52 (by norm_num)
      (by rw [c2tol]; norm_num))
    (fold_piv c2y52 (1000000000000462561826800408843142081/1000000000000000000000000000000000000 : ℝ) c2b52.1 (by rw [c2e15]; norm_num))).trans
  (foldStep (11/10 : ℝ) (c2params : ContinuationParams ℝ).newton_tol 20 18 1 c2y53 c2y54 rfl
    (resid_big_high (11/10 : ℝ) (c2params : ContinuationParams ℝ).newton_tol c2y53 (20999999999999537438173201944754737/20000000000000000000000000000000000 : ℝ) (1049999999999976871908660097237736913/1000000000000000000000000000000000000 : ℝ) c2b53 (by norm_num)
      (by rw [c2tol]; norm_num))
    (fold_piv c2y53 (20999999999999537438173201944754737/20000000000000000000000000000000000 : ℝ) c2b53.1 (by rw [c2e15]; norm_num)))).trans
  (foldStep (11/10 : ℝ) (c2params : ContinuationParams ℝ).newton_tol 20 17 2 c2y54 c2y55 rfl
    (resid_big_high (11/10 : ℝ) (c2params : ContinuationParams ℝ).newton_tol c2y54 (1048809523809523783301483741860986267/1000000000000000000000000000000000000 : ℝ) (1048809523809523783301483741860986331/1000000000000000000000000000000000000 : ℝ) c2b54 (by norm_num)
      (by rw [c2tol]; norm_num))
    (fold_piv c2y54 (1048809523809523783301483741860986267/1000000000000000000000000000000000000 : ℝ) c2b54.1 (by rw [c2e15]; norm_num)))).trans
  (foldDone (11/10 : ℝ) (c2params : ContinuationParams ℝ).newton_tol 20 16 3 c2y55
    (resid_small (11/10 : ℝ) (c2params : ContinuationParams ℝ).newton_tol c2y55 (1048808848170369169234078561976021933/1000000000000000000000000000000000000 : ℝ) (524404424085184584617039280988010999/500000000000000000000000000000000000 : ℝ) c2b55 (by norm_num)
      (by rw [c2tol]; norm_num) (by rw [c2tol]; norm_num))))

theorem c2n12 : newton_solve Real.sqrt (fun x => FoldNormalForm.rhs x (6/5 : ℝ))
    (fun x => systemJacobian FoldNormalForm x (6/5 : ℝ)) (fun _ => (c2y55 : ℝ))
    (c2params : ContinuationParams ℝ).newton_tol
    (c2params : ContinuationParams ℝ).newton_max_iter = .ok (fun _ => c2y58, 4) := by
  show newtonGo Real.sqrt (fun x => FoldNormalForm.rhs x (6/5 : ℝ))
    (fun x => systemJacobian FoldNormalForm x (6/5 : ℝ)) (c2params : ContinuationParams ℝ).newton_tol 20 20 0
    (fun _ => c2y55) = _
  exact ((((foldStep (6/5 : ℝ) (c2params : ContinuationParams ℝ).newton_tol 20 19 0 c2y55 c2y56 rfl
    (resid_big_low (6/5 : ℝ) (c2params : ContinuationParams ℝ).newton_tol c2y55 (1048808848170369169234078561976021933/1000000000000000000000000000000000000 : ℝ) (524404424085184584617039280988010999/500000000000000000000000000000000000 : ℝ) c2b55 (by norm_num)
      (by rw [c2tol]; norm_num))
    (fold_piv c2y55 (1048808848170369169234078561976021933/1000000000000000000000000000000000000 : ℝ) c2b55.1 (by rw [c2e15]; norm_num))).trans
  (foldStep (6/5 : ℝ) (c2params : ContinuationParams ℝ).newton_tol 20 18 1 c2y56 c2y57 rfl
    (resid_big_high (6/5 : ℝ) (c2params : ContinuationParams ℝ).newton_tol c2y56 (548240988816210635421836507004725833/500000000000000000000000000000000000 : ℝ) (548240988816210635421836507004725867/500000000000000000000000000000000000 : ℝ) c2b56 (by norm_num)
      (by rw [c2tol]; norm_num))
    (fold_piv c2y56 (548240988816210635421836507004725833/500000000000000000000000000000000000 : ℝ) c2b56.1 (by rw [c2e15]; norm_num)))).trans
  (foldStep (6/5 : ℝ) (c2params : ContinuationParams ℝ).newton_tol 20 17 2 c2y57 c2y58 rfl
    (resid_big_high (6/5 : ℝ) (c2params : ContinuationParams ℝ).newton_tol c2y57 (1095445605252816379158230956676539943/1000000000000000000000000000000000000 : ℝ) (273861401313204094789557739169135003/250000000000000000000000000000000000 : ℝ) c2b57 (by norm_num)
      (by rw [c2tol]; norm_num))
    (fold_piv c2y57 (1095445605252816379158230956676539943/1000000000000000000000000000000000000 : ℝ) c2b57.1 (by rw [c2e15]; norm_num)))).trans
  (foldDone (6/5 : ℝ) (c2params : ContinuationParams ℝ).newton_tol 20 16 3 c2y58
    (resid_small (6/5 : ℝ) (c2params : ContinuationParams ℝ).newton_tol c2y58 (273861278752610481377882738075169583/250000000000000000000000000000000000 : ℝ) (547722557505220962755765476150339201/500000000000000000000000000000000000 : ℝ) c2b58 (by norm_num)
      (by rw [c2tol]; norm_num) (by rw [c2tol]; norm_num))))

theorem c2n13 : newton_solve Real.sqrt (fun x => FoldNormalForm.rhs x (13/10 : ℝ))
    (fun x => systemJacobian FoldNormalForm x (13/10 : ℝ)) (fun _ => (c2y58 : ℝ))
    (c2params : ContinuationParams ℝ).newton_tol
    (c2params : ContinuationParams ℝ).newton_max_iter = .ok (fun _ => c2y61, 4) := by
  show newtonGo Real.sqrt (fun x => FoldNormalForm.rhs x (13/10 : ℝ))
    (fun x => systemJacobian FoldNormalForm x (13/10 : ℝ)) (c2params : ContinuationParams ℝ).newton_tol 20 20 0
    (fun _ => c2y58) = _
  exact ((((foldStep (13/10 : ℝ) (c2params : ContinuationParams ℝ).newton_tol 20 19 0 c2y58 c2y59 rfl
    (resid_big_low (13/10 : ℝ) (c2params : ContinuationParams ℝ).newton_tol c2y58 (273861278752610481377882738075169583/250000000000000000000000000000000000 : ℝ) (547722557505220962755765476150339201/500000000000000000000000000000000000 : ℝ) c2b58 (by norm_num)
      (by rw [c2tol]; norm_num))
    (fold_piv c2y58 (273861278752610481377882738075169583/250000000000000000000000000000000000 : ℝ) c2b58.1 (by rw [c2e15]; norm_num))).trans
  (foldStep (13/10 : ℝ) (c2params : ContinuationParams ℝ).newton_tol 20 18 1 c2y59 c2y60 rfl
    (resid_big_high (13/10 : ℝ) (c2params : ContinuationParams ℝ).newton_tol c2y59 (1141088661469091498927120745672908427/1000000000000000000000000000000000000 : ℝ) (1141088661469091498927120745672908501/1000000000000000000000000000000000000 : ℝ) c2b59 (by norm_num)
      (by rw [c2tol]; norm_num))
    (fold_piv c2y59 (1141088661469091498927120745672908427/1000000000000000000000000000000000000 : ℝ) c2b59.1 (by rw [c2e15]; norm_num)))).trans
  (foldStep (13/10 : ℝ) (c2params : ContinuationParams ℝ).newton_tol 20 17 2 c2y60 c2y61 rfl
    (resid_big_high (13/10 : ℝ) (c2params : ContinuationParams ℝ).newton_tol c2y60 (1140175790539920789189638844831346489/1000000000000000000000000000000000000 : ℝ) (285043947634980197297409711207836641/250000000000000000000000000000000000 : ℝ) c2b60 (by norm_num)
      (by rw [c2tol]; norm_num))
    (fold_piv c2y60 (1140175790539920789189638844831346489/1000000000000000000000000000000000000 : ℝ) c2b60.1 (by rw [c2e15]; norm_num)))).trans
  (foldDone (13/10 : ℝ) (c2params : ContinuationParams ℝ).newton_tol 20 16 3 c2y61
    (resid_small (13/10 : ℝ) (c2params : ContinuationParams ℝ).newton_tol c2y61 (1140175425099196543335907007422910123/1000000000000000000000000000000000000 : ℝ) (1140175425099196543335907007422910199/1000000000000000000000000000000000000 : ℝ) c2b61 (by norm_num)
      (by rw [c2tol]; norm_num) (by rw [c2tol]; norm_num))))

theorem c2n14 : newton_solve Real.sqrt (fun x => FoldNormalForm.rhs x (7/5 : ℝ))
    (fun x => systemJacobian FoldNormalForm x (7/5 : ℝ)) (fun _ => (c2y61 : ℝ))
    (c2params : ContinuationParams ℝ).newton_tol
    (c2params : ContinuationParams ℝ).newton_max_iter = .ok (fun _ => c2y64, 4) := by
  show newtonGo Real.sqrt (fun x => FoldNormalForm.rhs x (7/5 : ℝ))
    (fun x => systemJacobian FoldNormalForm x (7/5 : ℝ)) (c2params : ContinuationParams ℝ).newton_tol 20 20 0
    (fun _ => c2y61) = _
  exact ((((foldStep (7/5 : ℝ) (c2params : ContinuationParams ℝ).newton_tol 20 19 0 c2y61 c2y62 rfl
    (resid_big_low (7/5 : ℝ) (c2params : ContinuationParams ℝ).newton_tol c2y61 (1140175425099196543335907007422910123/1000000000000000000000000000000000000 : ℝ) (1140175425099196543335907007422910199/1000000000000000000000000000000000000 : ℝ) c2b61 (by norm_num)
      (by rw [c2tol]; norm_num))
    (fold_piv c2y61 (1140175425099196543335907007422910123/1000000000000000000000000000000000000 : ℝ) c2b61.1 (by rw [c2e15]; norm_num))).trans
  (foldStep (7/5 : ℝ) (c2params : ContinuationParams ℝ).newton_tol 20 18 1 c2y62 c2y63 rfl
    (resid_big_high (7/5 : ℝ) (c2params : ContinuationParams ℝ).newton_tol c2y62 (37000885189515224606338300180961131/31250000000000000000000000000000000 : ℝ) (74001770379030449212676600361922267/62500000000000000000000000000000000 : ℝ) c2b62 (by norm_num)
      (by rw [c2tol]; norm_num))
    (fold_piv c2y62 (37000885189515224606338300180961131/31250000000000000000000000000000000 : ℝ) c2b62.1 (by rw [c2e15]; norm_num)))).trans
  (foldStep (7/5 : ℝ) (c2params : ContinuationParams ℝ).newton_tol 20 17 2 c2y63 c2y64 rfl
    (resid_big_high (7/5 : ℝ) (c2params : ContinuationParams ℝ).newton_tol c2y63 (295804058826467954670972042569588989/250000000000000000000000000000000000 : ℝ) (1183216235305871818683888170278356037/1000000000000000000000000000000000000 : ℝ) c2b63 (by norm_num)
      (by rw [c2tol]; norm_num))
    (fold_piv c2y63 (295804058826467954670972042569588989/250000000000000000000000000000000000 : ℝ) c2b63.1 (by rw [c2e15]; norm_num)))).trans
  (foldDone (7/5 : ℝ) (c2params : ContinuationParams ℝ).newton_tol 20 16 3 c2y64
    (resid_small (7/5 : ℝ) (c2params : ContinuationParams ℝ).newton_tol c2y64 (591607978309978014160441738551172529/500000000000000000000000000000000000 : ℝ) (59160797830997801416044173855117257/50000000000000000000000000000000000 : ℝ) c2b64 (by norm_num)
      (by rw [c2tol]; norm_num) (by rw [c2tol]; norm_num))))

theorem c2n15 : newton_solve Real.sqrt (fun x => FoldNormalForm.rhs x (3/2 : ℝ))
    (fun x => systemJacobian FoldNormalForm x (3/2 : ℝ)) (fun _ => (c2y64 : ℝ))
    (c2params : ContinuationParams ℝ).newton_tol
    (c2params : ContinuationParams ℝ).newton_max_iter = .ok (fun _ => c2y67, 4) := by
  show newtonGo Real.sqrt (fun x => FoldNormalForm.rhs x (3/2 : ℝ))
    (fun x => systemJacobian FoldNormalForm x (3/2 : ℝ)) (c2params : ContinuationParams ℝ).newton_tol 20 20 0
    (fun _ => c2y64) = _
  exact ((((foldStep (3/2 : ℝ) (c2params : ContinuationParams ℝ).newton_tol 20 19 0 c2y64 c2y65 rfl
    (resid_big_low (3/2 : ℝ) (c2params : ContinuationParams ℝ).newton_tol c2y64 (591607978309978014160441738551172529/500000000000000000000000000000000000 : ℝ) (59160797830997801416044173855117257/50000000000000000000000000000000000 : ℝ) c2b64 (by norm_num)
      (by rw [c2tol]; norm_num))
    (fold_piv c2y64 (591607978309978014160441738551172529/500000000000000000000000000000000000 : ℝ) c2b64.1 (by rw [c2e15]; norm_num))).trans
  (foldStep (3/2 : ℝ) (c2params : ContinuationParams ℝ).newton_tol 20 18 1 c2y65 c2y66 rfl
    (resid_big_high (3/2 : ℝ) (c2params : ContinuationParams ℝ).newton_tol c2y65 (76592104334771741578310460459648649/62500000000000000000000000000000000 : ℝ) (122547366935634786525296736735437847/100000000000000000000000000000000000 : ℝ) c2b65 (by norm_num)
      (by rw [c2tol]; norm_num))
    (fold_piv c2y65 (76592104334771741578310460459648649/62500000000000000000000000000000000 : ℝ) c2b65.1 (by rw [c2e15]; norm_num)))).trans
  (foldStep (3/2 : ℝ) (c2params : ContinuationParams ℝ).newton_tol 20 17 2 c2y66 c2y67 rfl
    (resid_big_high (3/2 : ℝ) (c2params : ContinuationParams ℝ).newton_tol c2y66 (1224745088102272729297671351267383341/1000000000000000000000000000000000000 : ℝ) (1224745088102272729297671351267383427/1000000000000000000000000000000000000 : ℝ) c2b66 (by norm_num)
      (by rw [c2tol]; norm_num))
    (fold_piv c2y66 (1224745088102272729297671351267383341/1000000000000000000000000000000000000 : ℝ) c2b66.1 (by rw [c2e15]; norm_num)))).trans
  (foldDone (3/2 : ℝ) (c2params : ContinuationParams ℝ).newton_tol 20 16 3 c2y67
    (resid_small (3/2 : ℝ) (c2params : ContinuationParams ℝ).newton_tol c2y67 (1224744871391608221872175633912324059/1000000000000000000000000000000000000 : ℝ) (612372435695804110936087816956162073/500000000000000000000000000000000000 : ℝ) c2b67 (by norm_num)
      (by rw [c2tol]; norm_num) (by rw [c2tol]; norm_num))))

theorem c2n16 : newton_solve Real.sqrt (fun x => FoldNormalForm.rhs x (8/5 : ℝ))
    (fun x => systemJacobian FoldNormalForm x (8/5 : ℝ)) (fun _ => (c2y67 : ℝ))
    (c2params : ContinuationParams ℝ).newton_tol
    (c2params : ContinuationParams ℝ).newton_max_iter = .ok (fun _ => c2y70, 4) := by
  show newtonGo Real.sqrt (fun x => FoldNormalForm.rhs x (8/5 : ℝ))
    (fun x => systemJacobian FoldNormalForm x (8/5 : ℝ)) (c2params : ContinuationParams ℝ).newton_tol 20 20 0
    (fun _ => c2y67) = _
  exact ((((foldStep (8/5 : ℝ) (c2params : ContinuationParams ℝ).newton_tol 20 19 0 c2y67 c2y68 rfl
    (resid_big_low (8/5 : ℝ) (c2params : ContinuationParams ℝ).newton_tol c2y67 (1224744871391608221872175633912324059/1000000000000000000000000000000000000 : ℝ) (612372435695804110936087816956162073/500000000000000000000000000000000000 : ℝ) c2b67 (by norm_num)
      (by rw [c2tol]; norm_num))
    (fold_piv c2y67 (1224744871391608221872175633912324059/1000000000000000000000000000000000000 : ℝ) c2b67.1 (by rw [c2e15]; norm_num))).trans
  (foldStep (8/5 : ℝ) (c2params : ContinuationParams ℝ).newton_tol 20 18 1 c2y68 c2y69 rfl
    (resid_big_high (8/5 : ℝ) (c2params : ContinuationParams ℝ).newton_tol c2y68 (1265569700437974711642812318872806033/1000000000000000000000000000000000000 : ℝ) (1265569700437974711642812318872806123/1000000000000000000000000000000000000 : ℝ) c2b68 (by norm_num)
      (by rw [c2tol]; norm_num))
    (fold_piv c2y68 (1265569700437974711642812318872806033/1000000000000000000000000000000000000 : ℝ) c2b68.1 (by rw [c2e15]; norm_num)))).trans
  (foldStep (8/5 : ℝ) (c2params : ContinuationParams ℝ).newton_tol 20 17 2 c2y69 c2y70 rfl
    (resid_big_high (8/5 : ℝ) (c2params : ContinuationParams ℝ).newton_tol c2y69 (158113904431669527063173036838412253/125000000000000000000000000000000000 : ℝ) (252982247090671243301076858941459623/200000000000000000000000000000000000 : ℝ) c2b69 (by norm_num)
      (by rw [c2tol]; norm_num))
    (fold_piv c2y69 (158113904431669527063173036838412253/125000000000000000000000000000000000 : ℝ) c2b69.1 (by rw [c2e15]; norm_num)))).trans
  (foldDone (8/5 : ℝ) (c2params : ContinuationParams ℝ).newton_tol 20 16 3 c2y70
    (resid_small (8/5 : ℝ) (c2params : ContinuationParams ℝ).newton_tol c2y70 (632455532033681671779972513792742047/500000000000000000000000000000000000 : ℝ) (632455532033681671779972513792742093/500000000000000000000000000000000000 : ℝ) c2b70 (by norm_num)
      (by rw [c2tol]; norm_num) (by rw [c2tol]; norm_num))))

theorem c2n17 : newton_solve Real.sqrt (fun x => FoldNormalForm.rhs x (17/10 : ℝ))
    (fun x => systemJacobian FoldNormalForm x (17/10 : ℝ)) (fun _ => (c2y70 : ℝ))
    (c2params : ContinuationParams ℝ).newton_tol
    (c2params : ContinuationParams ℝ).newton_max_iter = .ok (fun _ => c2y73, 4) := by
  show newtonGo Real.sqrt (fun x => FoldNormalForm.rhs x (17/10 : ℝ))
    (fun x => systemJacobian FoldNormalForm x (17/10 : ℝ)) (c2params : ContinuationParams ℝ).newton_tol 20 20 0
    (fun _ => c2y70) = _
  exact ((((foldStep (17/10 : ℝ) (c2params : ContinuationParams ℝ).newton_tol 20 19 0 c2y70 c2y71 rfl
    (resid_big_low (17/10 : ℝ) (c2params : ContinuationParams ℝ).newton_tol c2y70 (632455532033681671779972513792742047/500000000000000000000000000000000000 : ℝ) (632455532033681671779972513792742093/500000000000000000000000000000000000 : ℝ) c2b70 (by norm_num)
      (by rw [c2tol]; norm_num))
    (fold_piv c2y70 (632455532033681671779972513792742047/500000000000000000000000000000000000 : ℝ) c2b70.1 (by rw [c2e15]; norm_num))).trans
  (foldStep (17/10 : ℝ) (c2params : ContinuationParams ℝ).newton_tol 20 18 1 c2y71 c2y72 rfl
    (resid_big_high (17/10 : ℝ) (c2params : ContinuationParams ℝ).newton_tol c2y71 (13044395348194561116132814743284777/10000000000000000000000000000000000 : ℝ) (260887906963891222322656294865695559/200000000000000000000000000000000000 : ℝ) c2b71 (by norm_num)
      (by rw [c2tol]; norm_num))
    (fold_piv c2y71 (13044395348194561116132814743284777/10000000000000000000000000000000000 : ℝ) c2b71.1 (by rw [c2e15]; norm_num)))).trans
  (foldStep (17/10 : ℝ) (c2params : ContinuationParams ℝ).newton_tol 20 17 2 c2y72 c2y73 rfl
    (resid_big_high (17/10 : ℝ) (c2params : ContinuationParams ℝ).newton_tol c2y72 (26076812371918794715462076464253869/20000000000000000000000000000000000 : ℝ) (651920309297969867886551911606346773/500000000000000000000000000000000000 : ℝ) c2b72 (by norm_num)
      (by rw [c2tol]; norm_num))
    (fold_piv c2y72 (26076812371918794715462076464253869/20000000000000000000000000000000000 : ℝ) c2b72.1 (by rw [c2e15]; norm_num)))).trans
  (foldDone (17/10 : ℝ) (c2params : ContinuationParams ℝ).newton_tol 20 16 3 c2y73
    (resid_small (17/10 : ℝ) (c2params : ContinuationParams ℝ).newton_tol c2y73 (13038404810405369989763260134858721/10000000000000000000000000000000000 : ℝ) (1303840481040536998976326013485872197/1000000000000000000000000000000000000 : ℝ) c2b73 (by norm_num)
      (by rw [c2tol]; norm_num) (by rw [c2tol]; norm_num))))

theorem c2n18 : newton_solve Real.sqrt (fun x => FoldNormalForm.rhs x (9/5 : ℝ))
    (fun x => systemJacobian FoldNormalForm x (9/5 : ℝ)) (fun _ => (c2y73 : ℝ))
    (c2params : ContinuationParams ℝ).newton_tol
    (c2params : ContinuationParams ℝ).newton_max_iter = .ok (fun _ => c2y76, 4) := by
  show newtonGo Real.sqrt (fun x => FoldNormalForm.rhs x (9/5 : ℝ))
    (fun x => systemJacobian FoldNormalForm x (9/5 : ℝ)) (c2params : ContinuationParams ℝ).newton_tol 20 20 0
    (fun _ => c2y73) = _
  exact ((((foldStep (9/5 : ℝ) (c2params : ContinuationParams ℝ).newton_tol 20 19 0 c2y73 c2y74 rfl
    (resid_big_low (9/5 : ℝ) (c2params : ContinuationParams ℝ).newton_tol c2y73 (13038404810405369989763260134858721/10000000000000000000000000000000000 : ℝ) (1303840481040536998976326013485872197/1000000000000000000000000000000000000 : ℝ) c2b73 (by norm_num)
      (by rw [c2tol]; norm_num))
    (fold_piv c2y73 (13038404810405369989763260134858721/10000000000000000000000000000000000 : ℝ) c2b73.1 (by rw [c2e15]; norm_num))).trans
  (foldStep (9/5 : ℝ) (c2params : ContinuationParams ℝ).newton_tol 20 18 1 c2y74 c2y75 rfl
    (resid_big_high (9/5 : ℝ) (c2params : ContinuationParams ℝ).newton_tol c2y74 (167773591310362256419195107355629089/125000000000000000000000000000000000 : ℝ) (1342188730482898051353560858845032813/1000000000000000000000000000000000000 : ℝ) c2b74 (by norm_num)
      (by rw [c2tol]; norm_num))
    (fold_piv c2y74 (167773591310362256419195107355629089/125000000000000000000000000000000000 : ℝ) c2b74.1 (by rw [c2e15]; norm_num)))).trans
  (foldStep (9/5 : ℝ) (c2params : ContinuationParams ℝ).newton_tol 20 17 2 c2y75 c2y76 rfl
    (resid_big_high (9/5 : ℝ) (c2params : ContinuationParams ℝ).newton_tol c2y75 (1341640898348007285796396418695181791/1000000000000000000000000000000000000 : ℝ) (1341640898348007285796396418695181893/1000000000000000000000000000000000000 : ℝ) c2b75 (by norm_num)
      (by rw [c2tol]; norm_num))
    (fold_piv c2y75 (1341640898348007285796396418695181791/1000000000000000000000000000000000000 : ℝ) c2b75.1 (by rw [c2e15]; norm_num)))).trans
  (foldDone (9/5 : ℝ) (c2params : ContinuationParams ℝ).newton_tol 20 16 3 c2y76
    (resid_small (9/5 : ℝ) (c2params : ContinuationParams ℝ).newton_tol c2y76 (1341640786499878480048697197370552267/1000000000000000000000000000000000000 : ℝ) (134164078649987848004869719737055237/100000000000000000000000000000000000 : ℝ) c2b76 (by norm_num)
      (by rw [c2tol]; norm_num) (by rw [c2tol]; norm_num))))

theorem c2n19 : newton_solve Real.sqrt (fun x => FoldNormalForm.rhs x (19/10 : ℝ))
    (fun x => systemJacobian FoldNormalForm x (19/10 : ℝ)) (fun _ => (c2y76 : ℝ))
    (c2params : ContinuationParams ℝ).newton_tol
    (c2params : ContinuationParams ℝ).newton_max_iter = .ok (fun _ => c2y79, 4) := by
  show newtonGo Real.sqrt (fun x => FoldNormalForm.rhs x (19/10 : ℝ))
    (fun x => systemJacobian FoldNormalForm x (19/10 : ℝ)) (c2params : ContinuationParams ℝ).newton_tol 20 20 0
    (fun _ => c2y76) = _
  exact ((((foldStep (19/10 : ℝ) (c2params : ContinuationParams ℝ).newton_tol 20 19 0 c2y76 c2y77 rfl
    (resid_big_low (19/10 : ℝ) (c2params : ContinuationParams ℝ).newton_tol c2y76 (1341640786499878480048697197370552267/1000000000000000000000000000000000000 : ℝ) (134164078649987848004869719737055237/100000000000000000000000000000000000 : ℝ) c2b76 (by norm_num)
      (by rw [c2tol]; norm_num))
    (fold_piv c2y76 (1341640786499878480048697197370552267/1000000000000000000000000000000000000 : ℝ) c2b76.1 (by rw [c2e15]; norm_num))).trans
  (foldStep (19/10 : ℝ) (c2params : ContinuationParams ℝ).newton_tol 20 18 1 c2y77 c2y78 rfl
    (resid_big_high (19/10 : ℝ) (c2params : ContinuationParams ℝ).newton_tol c2y77 (1378908586124870183280012845833621277/1000000000000000000000000000000000000 : ℝ) (172363573265608772910001605729202673/125000000000000000000000000000000000 : ℝ) c2b77 (by norm_num)
      (by rw [c2tol]; norm_num))
    (fold_piv c2y77 (1378908586124870183280012845833621277/1000000000000000000000000000000000000 : ℝ) c2b77.1 (by rw [c2e15]; norm_num)))).trans
  (foldStep (19/10 : ℝ) (c2params : ContinuationParams ℝ).newton_tol 20 17 2 c2y78 c2y79 rfl
    (resid_big_high (19/10 : ℝ) (c2params : ContinuationParams ℝ).newton_tol c2y78 (689202483605509504376339997576563071/500000000000000000000000000000000000 : ℝ) (1102723973768815207002143996122501/800000000000000000000000000000000 : ℝ) c2b78 (by norm_num)
      (by rw [c2tol]; norm_num))
    (fold_piv c2y78 (689202483605509504376339997576563071/500000000000000000000000000000000000 : ℝ) c2b78.1 (by rw [c2e15]; norm_num)))).trans
  (foldDone (19/10 : ℝ) (c2params : ContinuationParams ℝ).newton_tol 20 16 3 c2y79
    (resid_small (19/10 : ℝ) (c2params : ContinuationParams ℝ).newton_tol c2y79 (689202437604512623572077209374056861/500000000000000000000000000000000000 : ℝ) (1378404875209025247144154418748113831/1000000000000000000000000000000000000 : ℝ) c2b79 (by norm_num)
      (by rw [c2tol]; norm_num) (by rw [c2tol]; norm_num))))

theorem c2n20 : newton_solve Real.sqrt (fun x => FoldNormalForm.rhs x (2 : ℝ))
    (fun x => systemJacobian FoldNormalForm x (2 : ℝ)) (fun _ => (c2y79 : ℝ))
    (c2params : ContinuationParams ℝ).newton_tol
    (c2params : ContinuationParams ℝ).newton_max_iter = .ok (fun _ => c2y82, 4) := by
  show newtonGo Real.sqrt (fun x => FoldNormalForm.rhs x (2 : ℝ))
    (fun x => systemJacobian FoldNormalForm x (2 : ℝ)) (c2params : ContinuationParams ℝ).newton_tol 20 20 0
    (fun _ => c2y79) = _
  exact ((((foldStep (2 : ℝ) (c2params : ContinuationParams ℝ).newton_tol 20 19 0 c2y79 c2y80 rfl
    (resid_big_low (2 : ℝ) (c2params : ContinuationParams ℝ).newton_tol c2y79 (689202437604512623572077209374056861/500000000000000000000000000000000000 : ℝ) (1378404875209025247144154418748113831/1000000000000000000000000000000000000 : ℝ) c2b79 (by norm_num)
      (by rw [c2tol]; norm_num))
    (fold_piv c2y79 (689202437604512623572077209374056861/500000000000000000000000000000000000 : ℝ) c2b79.1 (by rw [c2e15]; norm_num))).trans
  (foldStep (2 : ℝ) (c2params : ContinuationParams ℝ).newton_tol 20 18 1 c2y80 c2y81 rfl
    (resid_big_high (2 : ℝ) (c2params : ContinuationParams ℝ).newton_tol c2y80 (707339343857261339798414418330596943/500000000000000000000000000000000000 : ℝ) (1414678687714522679596828836661193999/1000000000000000000000000000000000000 : ℝ) c2b80 (by norm_num)
      (by rw [c2tol]; norm_num))
    (fold_piv c2y80 (707339343857261339798414418330596943/500000000000000000000000000000000000 : ℝ) c2b80.1 (by rw [c2e15]; norm_num)))).trans
  (foldStep (2 : ℝ) (c2params : ContinuationParams ℝ).newton_tol 20 17 2 c2y81 c2y82 rfl
    (resid_big_high (2 : ℝ) (c2params : ContinuationParams ℝ).newton_tol c2y81 (1414213638836247111861223387689720831/1000000000000000000000000000000000000 : ℝ) (282842727767249422372244677537944189/200000000000000000000000000000000000 : ℝ) c2b81 (by norm_num)
      (by rw [c2tol]; norm_num))
    (fold_piv c2y81 (1414213638836247111861223387689720831/1000000000000000000000000000000000000 : ℝ) c2b81.1 (by rw [c2e15]; norm_num)))).trans
  (foldDone (2 : ℝ) (c2params : ContinuationParams ℝ).newton_tol 20 16 3 c2y82
    (resid_small (2 : ℝ) (c2params : ContinuationParams ℝ).newton_tol c2y82 (141421356237309711589164701004881283/100000000000000000000000000000000000 : ℝ) (282842712474619423178329402009762589/200000000000000000000000000000000000 : ℝ) c2b82 (by norm_num)
      (by rw [c2tol]; norm_num) (by rw [c2tol]; norm_num))))

theorem c2h0 : natural_continuation Real.sqrt FoldNormalForm (vecOne (1/100)) c2params =
    naturalGo Real.sqrt FoldNormalForm c2params 1 30 0 (ContinuationBranch.new ℝ 1 "natural")
      (fun _ => c2y0) 0 0 := by
  rw [natural_continuation]
  rw [if_pos (show c2params.par_start < c2params.par_end by
    rw [show c2params.par_start = (0 : ℝ) from rfl, c2pe]; norm_num)]
  rfl

/-- C2: natural continuation of the fold normal form `mu - x²` from
`x₀ = 0.01`, `mu` from `0` to `2` with `ds = 0.1`, `max_steps = 30` and
bifurcation detection disabled succeeds, and the resulting branch has more
than 10 solution points with the last point's parameter above `1.5`. -/
theorem c2_natural_continuation_fold :
    ∃ b, natural_continuation Real.sqrt FoldNormalForm (vecOne (1/100)) c2params = .ok b ∧
      10 < b.points.length ∧ ∃ p, b.points.getLast? = some p ∧ (3/2 : ℝ) < p.parameter := by
  refine ⟨_, c2h0.trans
((c2outerStep c2params 1 29 0 (ContinuationBranch.new ℝ 1 "natural") (fun _ => c2y0) (0 : ℝ) (0 : ℝ)
  (fun _ => c2y7) 8 c2n0 (by rw [c2pe, c2ds]; norm_num) (1/10 : ℝ) (1/10 : ℝ)
  (by rw [c2ds]; norm_num) (by rw [c2ds]; norm_num)).trans
((c2outerStep c2params 1 28 1 _ (fun _ => c2y7) (1/10 : ℝ) (1/10 : ℝ)
  (fun _ => c2y23) 17 c2n1 (by rw [c2pe, c2ds]; norm_num) (1/5 : ℝ) (1/5 : ℝ)
  (by rw [c2ds]; norm_num) (by rw [c2ds]; norm_num)).trans
((c2outerStep c2params 1 27 2 _ (fun _ => c2y23) (1/5 : ℝ) (1/5 : ℝ)
  (fun _ => c2y27) 5 c2n2 (by rw [c2pe, c2ds]; norm_num) (3/10 : ℝ) (3/10 : ℝ)
  (by rw [c2ds]; norm_num) (by rw [c2ds]; norm_num)).trans
((c2outerStep c2params 1 26 3 _ (fun _ => c2y27) (3/10 : ℝ) (3/10 : ℝ)
  (fun _ => c2y31) 5 c2n3 (by rw [c2pe, c2ds]; norm_num) (2/5 : ℝ) (2/5 : ℝ)
  (by rw [c2ds]; norm_num) (by rw [c2ds]; norm_num)).trans
((c2outerStep c2params 1 25 4 _ (fun _ => c2y31) (2/5 : ℝ) (2/5 : ℝ)
  (fun _ => c2y34) 4 c2n4 (by rw [c2pe, c2ds]; norm_num) (1/2 : ℝ) (1/2 : ℝ)
  (by rw [c2ds]; norm_num) (by rw [c2ds]; norm_num)).trans
((c2outerStep c2params 1 24 5 _ (fun _ => c2y34) (1/2 : ℝ) (1/2 : ℝ)
  (fun _ => c2y37) 4 c2n5 (by rw [c2pe, c2ds]; norm_num) (3/5 : ℝ) (3/5 : ℝ)
  (by rw [c2ds]; norm_num) (by rw [c2ds]; norm_num)).trans
((c2outerStep c2params 1 23 6 _ (fun _ => c2y37) (3/5 : ℝ) (3/5 : ℝ)
  (fun _ => c2y40) 4 c2n6 (by rw [c2pe, c2ds]; norm_num) (7/10 : ℝ) (7/10 : ℝ)
  (by rw [c2ds]; norm_num) (by rw [c2ds]; norm_num)).trans
((c2outerStep c2params 1 22 7 _ (fun _ => c2y40) (7/10 : ℝ) (7/10 : ℝ)
  (fun _ => c2y43) 4 c2n7 (by rw [c2pe, c2ds]; norm_num) (4/5 : ℝ) (4/5 : ℝ)
  (by rw [c2ds]; norm_num) (by rw [c2ds]; norm_num)).trans
((c2outerStep c2params 1 21 8 _ (fun _ => c2y43) (4/5 : ℝ) (4/5 : ℝ)
  (fun _ => c2y46) 4 c2n8 (by rw [c2pe, c2ds]; norm_num) (9/10 : ℝ) (9/10 : ℝ)
  (by rw [c2ds]; norm_num) (by rw [c2ds]; norm_num)).trans
((c2outerStep c2params 1 20 9 _ (fun _ => c2y46) (9/10 : ℝ) (9/10 : ℝ)
  (fun _ => c2y49) 4 c2n9 (by rw [c2pe, c2ds]; norm_num) (1 : ℝ) (1 : ℝ)
  (by rw [c2ds]; norm_num) (by rw [c2ds]; norm_num)).trans
((c2outerStep c2params 1 19 10 _ (fun _ => c2y49) (1 : ℝ) (1 : ℝ)
  (fun _ => c2y52) 4 c2n10 (by rw [c2pe, c2ds]; norm_num) (11/10 : ℝ) (11/10 : ℝ)
  (by rw [c2ds]; norm_num) (by rw [c2ds]; norm_num)).trans
((c2outerStep c2params 1 18 11 _ (fun _ => c2y52) (11/10 : ℝ) (11/10 : ℝ)
  (fun _ => c2y55) 4 c2n11 (by rw [c2pe, c2ds]; norm_num) (6/5 : ℝ) (6/5 : ℝ)
  (by rw [c2ds]; norm_num) (by rw [c2ds]; norm_num)).trans
((c2outerStep c2params 1 17 12 _ (fun _ => c2y55) (6/5 : ℝ) (6/5 : ℝ)
  (fun _ => c2y58) 4 c2n12 (by rw [c2pe, c2ds]; norm_num) (13/10 : ℝ) (13/10 : ℝ)
  (by rw [c2ds]; norm_num) (by rw [c2ds]; norm_num)).trans
((c2outerStep c2params 1 16 13 _ (fun _ => c2y58) (13/10 : ℝ) (13/10 : ℝ)
  (fun _ => c2y61) 4 c2n13 (by rw [c2pe, c2ds]; norm_num) (7/5 : ℝ) (7/5 : ℝ)
  (by rw [c2ds]; norm_num) (by rw [c2ds]; norm_num)).trans
((c2outerStep c2params 1 15 14 _ (fun _ => c2y61) (7/5 : ℝ) (7/5 : ℝ)
  (fun _ => c2y64) 4 c2n14 (by rw [c2pe, c2ds]; norm_num) (3/2 : ℝ) (3/2 : ℝ)
  (by rw [c2ds]; norm_num) (by rw [c2ds]; norm_num)).trans
((c2outerStep c2params 1 14 15 _ (fun _ => c2y64) (3/2 : ℝ) (3/2 : ℝ)
  (fun _ => c2y67) 4 c2n15 (by rw [c2pe, c2ds]; norm_num) (8/5 : ℝ) (8/5 : ℝ)
  (by rw [c2ds]; norm_num) (by rw [c2ds]; norm_num)).trans
((c2outerStep c2params 1 13 16 _ (fun _ => c2y67) (8/5 : ℝ) (8/5 : ℝ)
  (fun _ => c2y70) 4 c2n16 (by rw [c2pe, c2ds]; norm_num) (17/10 : ℝ) (17/10 : ℝ)
  (by rw [c2ds]; norm_num) (by rw [c2ds]; norm_num)).trans
((c2outerStep c2params 1 12 17 _ (fun _ => c2y70) (17/10 : ℝ) (17/10 : ℝ)
  (fun _ => c2y73) 4 c2n17 (by rw [c2pe, c2ds]; norm_num) (9/5 : ℝ) (9/5 : ℝ)
  (by rw [c2ds]; norm_num) (by rw [c2ds]; norm_num)).trans
((c2outerStep c2params 1 11 18 _ (fun _ => c2y73) (9/5 : ℝ) (9/5 : ℝ)
  (fun _ => c2y76) 4 c2n18 (by rw [c2pe, c2ds]; norm_num) (19/10 : ℝ) (19/10 : ℝ)
  (by rw [c2ds]; norm_num) (by rw [c2ds]; norm_num)).trans
((c2outerStep c2params 1 10 19 _ (fun _ => c2y76) (19/10 : ℝ) (19/10 : ℝ)
  (fun _ => c2y79) 4 c2n19 (by rw [c2pe, c2ds]; norm_num) (2 : ℝ) (2 : ℝ)
  (by rw [c2ds]; norm_num) (by rw [c2ds]; norm_num)).trans
(c2outerLast c2params 1 9 20 _ (fun _ => c2y79) (2 : ℝ) (2 : ℝ)
  (fun _ => c2y82) 4 c2n20 (Or.inl ⟨by norm_num, by rw [c2pe, c2ds]; norm_num⟩)))))))))))))))))))))), ?_, ?_⟩
  · simp only [natUpdateBranch_points, List.length_append, List.length_cons, List.length_nil]
    norm_num [ContinuationBranch.new]
  · rw [natUpdateBranch_points, List.getLast?_concat]
    exact ⟨_, rfl, by rw [natPoint_parameter]; norm_num⟩

end AutoRS
